import Mathlib

/-! AI-engine partition privilege routines (`xaie_io_privilege.c`).

A shallow embedding of the privileged partition routines of the AI-engine
driver.  Every call that leaves the file — an NPI request, a register write, a
`DevOps` function pointer, a clock helper — is a `Call`.  The environment is an
arbitrary function from the calls issued so far and the next call to that
call's return code; a routine threads a `World` that records the calls in the
order they were issued together with the `TilesInUse` bitmap.
-/

namespace AieRt

/-! ## Return codes, constants and device data -/

/-- Return code `AieRC`: the numeric value of the C enumeration. -/
abbrev AieRC := Nat

/-- Success: first enumerator of `AieRC` (declared in `xaiegbl.h`). -/
abbrev XAIE_OK : AieRC := 0
/-- Generic failure: second enumerator of `AieRC`. -/
abbrev XAIE_ERR : AieRC := 1
/-- Enumerator of `AieRC` returned for an invalid DMA direction. -/
abbrev XAIE_INVALID_DMA_DIRECTION : AieRC := 15

abbrev XAIE_ENABLE : Nat := 1
abbrev XAIE_DISABLE : Nat := 0

/-- Device generations (`xaiegbl.h`); only distinctness is used. -/
abbrev XAIE_DEV_GEN_AIE : Nat := 1
abbrev XAIE_DEV_GEN_AIEML : Nat := 2
abbrev XAIE_DEV_GEN_AIE2PS : Nat := 5

/-- Tile types (`xaiegbl_defs.h`). -/
abbrev XAIEGBL_TILE_TYPE_AIETILE : Nat := 0
abbrev XAIEGBL_TILE_TYPE_SHIMNOC : Nat := 1
abbrev XAIEGBL_TILE_TYPE_SHIMPL : Nat := 2
abbrev XAIEGBL_TILE_TYPE_MEMTILE : Nat := 3
abbrev XAIEGBL_TILE_TYPE_MAX : Nat := 4

/-- Partition initialisation option bits (`xaiegbl.h`). -/
abbrev XAIE_PART_INIT_OPT_COLUMN_RST : Nat := 1 <<< 0
abbrev XAIE_PART_INIT_OPT_SHIM_RST : Nat := 1 <<< 1
abbrev XAIE_PART_INIT_OPT_BLOCK_NOCAXIMMERR : Nat := 1 <<< 2
abbrev XAIE_PART_INIT_OPT_ISOLATE : Nat := 1 <<< 3
abbrev XAIE_PART_INIT_OPT_ZEROIZEMEM : Nat := 1 <<< 4
/-- Option word used when the caller passes no options.  No result below
depends on its value. -/
abbrev XAIE_PART_INIT_OPT_DEFAULT : Nat :=
  XAIE_PART_INIT_OPT_COLUMN_RST ||| XAIE_PART_INIT_OPT_SHIM_RST |||
    XAIE_PART_INIT_OPT_BLOCK_NOCAXIMMERR

/-- Isolation modes handed to `SetPartIsolationAfterRst`. -/
abbrev XAIE_CLEAR_ISOLATION : Nat := 0
abbrev XAIE_INIT_ISOLATION : Nat := 1

/-- Lines 40-44: isolation edge masks. -/
abbrev XAIE_ISOLATE_EAST_MASK : Nat := 1 <<< 3
abbrev XAIE_ISOLATE_NORTH_MASK : Nat := 1 <<< 2
abbrev XAIE_ISOLATE_WEST_MASK : Nat := 1 <<< 1
abbrev XAIE_ISOLATE_SOUTH_MASK : Nat := 1 <<< 0
abbrev XAIE_ISOLATE_ALL_MASK : Nat := (1 <<< 4) - 1

/-- Line 46. -/
abbrev XAIE_ERROR_NPI_INTR_ID : Nat := 1

/-- DMA directions of the NoC DMA (`XAie_DmaDirection`). -/
abbrev DMA_S2MM : Nat := 0
abbrev DMA_MM2S : Nat := 1
/-- DMA directions of the micro-controller DMA (`UcDmaDir_enum`). -/
abbrev XAIE_UC_MODULE__DMA_DIR__DM2MM : Nat := 0
abbrev XAIE_UC_MODULE__DMA_DIR__MM2DM : Nat := 1

/-- Tile location `XAie_LocType`. -/
structure XAie_LocType where
  Row : Nat
  Col : Nat
deriving DecidableEq, Repr

/-- The constructor `XAie_TileLoc(col, row)`. -/
def XAie_TileLoc (col row : Nat) : XAie_LocType := ⟨row, col⟩

/-- Register field descriptor `XAie_RegFldAttr`. -/
structure XAie_RegFldAttr where
  Lsb : Nat
  Mask : Nat
deriving DecidableEq, Repr

/-- The field macro `XAie_SetField(Val, Lsb, Mask)`, in 32-bit arithmetic:
`(((u32)Val << Lsb) & Mask)`. -/
def XAie_SetField (Val Lsb Mask : Nat) : Nat :=
  (((Val % 2 ^ 32) <<< Lsb) % 2 ^ 32) &&& Mask

structure XAie_ShimNocAxiMMConfig where
  RegOff : Nat
  NsuSlvErr : XAie_RegFldAttr
  NsuDecErr : XAie_RegFldAttr
deriving DecidableEq, Repr

/-- The fields of `XAie_PlIfMod` the privilege routines read. -/
structure XAie_PlIfMod where
  ColRstOff : Nat
  ColRst : XAie_RegFldAttr
  ShimNocAxiMM : XAie_ShimNocAxiMMConfig
  ShimNocNmuSwitchOff : Nat
  ShimNocNmuSwitch0 : XAie_RegFldAttr
  ShimNocNmuSwitch1 : XAie_RegFldAttr
deriving DecidableEq, Repr

structure XAie_L2IntrMod where
  IrqRegOff : Nat
deriving DecidableEq, Repr

structure XAie_NocDmaPauseReg where
  RegOff : Nat
  S2mm_0 : XAie_RegFldAttr
  Mm2s_0 : XAie_RegFldAttr
  S2mm_1 : XAie_RegFldAttr
  Mm2s_1 : XAie_RegFldAttr
deriving DecidableEq, Repr

structure XAie_DmaMod where
  NocDmaPauseReg : XAie_NocDmaPauseReg
deriving DecidableEq, Repr

structure XAie_UcDmaPauseReg where
  RegOff : Nat
  Dm2mm : XAie_RegFldAttr
  Mm2dm : XAie_RegFldAttr
deriving DecidableEq, Repr

structure XAie_UcMod where
  UcDmaPauseReg : XAie_UcDmaPauseReg
deriving DecidableEq, Repr

/-- One entry of the per-tile-type module table `DevProp.DevMod[]`.  The two
module pointers the code tests against `NULL` are options. -/
structure XAie_TileMod where
  PlIfMod : XAie_PlIfMod
  L2IntrMod : XAie_L2IntrMod
  DmaMod : Option XAie_DmaMod
  UcMod : Option XAie_UcMod

structure XAie_DevProp where
  DevGen : Nat
  DevMod : Nat → XAie_TileMod

/-- The device instance `XAie_DevInst`.  `GetTTypefromLoc` is the tile-type
lookup of the operation table `DevOps`; `GetTileAddr Row Col` stands for the
address helper `XAie_GetTileAddr(DevInst, Row, Col)`, whose definition is in a
header that is not part of the sources and is therefore left arbitrary. -/
structure XAie_DevInst where
  StartCol : Nat
  NumRows : Nat
  NumCols : Nat
  ShimRow : Nat
  DevProp : XAie_DevProp
  GetTTypefromLoc : XAie_LocType → Nat
  GetTileAddr : Nat → Nat → Nat

/-- Initialisation options `XAie_PartInitOpts`. -/
structure XAie_PartInitOpts where
  Locs : List XAie_LocType
  NumUseTiles : Nat
  InitOpts : Nat
deriving DecidableEq, Repr

/-- Argument of `DevOps->SetColumnClk` (`XAie_BackendColumnReq`). -/
structure XAie_BackendColumnReq where
  StartCol : Nat
  NumCols : Nat
  Enable : Nat
deriving DecidableEq, Repr

/-- Argument of the tile request (`XAie_BackendTilesArray`). -/
structure XAie_BackendTilesArray where
  NumTiles : Nat
  Locs : List XAie_LocType
deriving DecidableEq, Repr

/-! ## Backend calls and the world -/

/-- Every call that leaves `xaie_io_privilege.c`. -/
inductive Call where
  /-- `_XAie_NpiSetProtectedRegEnable(DevInst, {NumCols, Enable})`. -/
  | NpiSetProtectedRegEnable (NumCols Enable : Nat)
  /-- `_XAie_NpiSetShimReset(DevInst, Enable)`. -/
  | NpiSetShimReset (Enable : Nat)
  /-- `_XAie_PmSetPartitionClock(DevInst, Enable)`. -/
  | PmSetPartitionClock (Enable : Nat)
  /-- `XAie_Write32(DevInst, RegAddr, Value)`. -/
  | Write32 (RegAddr Value : Nat)
  /-- `XAie_MaskWrite32(DevInst, RegAddr, Mask, Value)`. -/
  | MaskWrite32 (RegAddr Mask Value : Nat)
  /-- `DevOps->SetPartColShimReset(DevInst, Enable)`. -/
  | SetPartColShimReset (Enable : Nat)
  /-- `DevOps->SetPartColClockAfterRst(DevInst, Enable)`. -/
  | SetPartColClockAfterRst (Enable : Nat)
  /-- `DevOps->SetPartIsolationAfterRst(DevInst, IsolationFlags)`. -/
  | SetPartIsolationAfterRst (IsolationFlags : Nat)
  /-- `DevOps->PartMemZeroInit(DevInst)`. -/
  | PartMemZeroInit
  /-- `XAie_RunOp(DevInst, XAIE_BACKEND_OP_REQUEST_TILES, &TilesArray)`. -/
  | RunOpRequestTiles (Tiles : XAie_BackendTilesArray)
  /-- `DevOps->RequestTiles(DevInst, Args)`. -/
  | RequestTiles (Args : XAie_BackendTilesArray)
  /-- `DevOps->SetColumnClk(DevInst, Args)`. -/
  | SetColumnClk (Args : XAie_BackendColumnReq)
  /-- `DevOps->SetAxiMMIsolation(DevInst, IsolationFlags)`. -/
  | SetAxiMMIsolation (IsolationFlags : Nat)
deriving DecidableEq, Repr

/-- The environment: the return code of a call, given the calls issued before it. -/
abbrev Env := List Call → Call → AieRC

/-- The calls issued so far, oldest first, and the `TilesInUse` bitmap. -/
structure World where
  trace : List Call
  TilesInUse : Nat → Bool

/-- Issue one call: ask the environment for its return code and record it. -/
def doCall (env : Env) (c : Call) (w : World) : AieRC × World :=
  (env w.trace c, { w with trace := w.trace ++ [c] })

/-- Window-open: a protected-register request with `Enable = XAIE_ENABLE`. -/
def isOpen : Call → Bool
  | .NpiSetProtectedRegEnable _ e => e == XAIE_ENABLE
  | _ => false

/-- Window-close: a protected-register request with `Enable = XAIE_DISABLE`. -/
def isClose : Call → Bool
  | .NpiSetProtectedRegEnable _ e => e == XAIE_DISABLE
  | _ => false

/-- Any protected-register request. -/
def isGate : Call → Bool
  | .NpiSetProtectedRegEnable _ _ => true
  | _ => false

/-- The calls a routine added: the trace of `w2` past the length of `w1`. -/
def callsSince (w1 w2 : World) : List Call := w2.trace.drop w1.trace.length

/-! ## The routines of `xaie_io_privilege.c` -/

/-- Lines 65-82. -/
def _XAie_PrivilegeSetColReset (env : Env) (DevInst : XAie_DevInst)
    (Loc : XAie_LocType) (RstEnable : Nat) (w : World) : AieRC × World :=
  let TileType := DevInst.GetTTypefromLoc Loc
  let PlIfMod := (DevInst.DevProp.DevMod TileType).PlIfMod
  let RegAddr := (PlIfMod.ColRstOff + DevInst.GetTileAddr Loc.Row Loc.Col) % 2 ^ 64
  let FldVal := XAie_SetField RstEnable PlIfMod.ColRst.Lsb PlIfMod.ColRst.Mask
  doCall env (.Write32 RegAddr FldVal) w

/-- The loop of lines 105-113 with `n` iterations left, at column `C`, the
variable `RC` holding `RC`. -/
def _XAie_PrivilegeSetPartColReset.loop (env : Env) (DevInst : XAie_DevInst)
    (RstEnable : Nat) : Nat → Nat → AieRC → World → AieRC × World
  | 0, _, RC, w => (RC, w)
  | n + 1, C, _, w =>
    let r := _XAie_PrivilegeSetColReset env DevInst (XAie_TileLoc C 0) RstEnable w
    if r.1 ≠ XAIE_OK then r
    else _XAie_PrivilegeSetPartColReset.loop env DevInst RstEnable n (C + 1) r.1 r.2

/-- Lines 100-116. -/
def _XAie_PrivilegeSetPartColReset (env : Env) (DevInst : XAie_DevInst)
    (RstEnable : Nat) (w : World) : AieRC × World :=
  _XAie_PrivilegeSetPartColReset.loop env DevInst RstEnable DevInst.NumCols 0 XAIE_OK w

/-- Lines 132-154. -/
def _XAie_PrivilegeRstPartShims (env : Env) (_DevInst : XAie_DevInst) (w : World) :
    AieRC × World :=
  let r1 := doCall env (.SetPartColShimReset XAIE_ENABLE) w
  if r1.1 ≠ XAIE_OK then r1 else
  let r2 := doCall env (.NpiSetShimReset XAIE_ENABLE) r1.2
  if r2.1 ≠ XAIE_OK then r2 else
  let r3 := doCall env (.NpiSetShimReset XAIE_DISABLE) r2.2
  if r3.1 ≠ XAIE_OK then r3 else
  doCall env (.SetPartColShimReset XAIE_DISABLE) r3.2

/-- Lines 176-198. -/
def _XAie_PrivilegeSetBlockAxiMmNsuErr (env : Env) (DevInst : XAie_DevInst)
    (Loc : XAie_LocType) (BlockSlvEnable BlockDecEnable : Nat) (w : World) :
    AieRC × World :=
  let TileType := DevInst.GetTTypefromLoc Loc
  let PlIfMod := (DevInst.DevProp.DevMod TileType).PlIfMod
  let ShimNocAxiMM := PlIfMod.ShimNocAxiMM
  let RegAddr := (ShimNocAxiMM.RegOff + DevInst.GetTileAddr Loc.Row Loc.Col) % 2 ^ 64
  let FldVal := XAie_SetField BlockSlvEnable ShimNocAxiMM.NsuSlvErr.Lsb
    ShimNocAxiMM.NsuSlvErr.Mask
  let FldVal := FldVal ||| XAie_SetField BlockDecEnable ShimNocAxiMM.NsuDecErr.Lsb
    ShimNocAxiMM.NsuDecErr.Mask
  doCall env (.Write32 RegAddr FldVal) w

/-- The loop of lines 226-240 with `n` iterations left, at column `C`. -/
def _XAie_PrivilegeSetPartBlockAxiMmNsuErr.loop (env : Env) (DevInst : XAie_DevInst)
    (BlockSlvEnable BlockDecEnable : Nat) : Nat → Nat → AieRC → World → AieRC × World
  | 0, _, RC, w => (RC, w)
  | n + 1, C, RC, w =>
    let Loc := XAie_TileLoc C 0
    let TileType := DevInst.GetTTypefromLoc Loc
    if TileType ≠ XAIEGBL_TILE_TYPE_SHIMNOC then
      _XAie_PrivilegeSetPartBlockAxiMmNsuErr.loop env DevInst BlockSlvEnable
        BlockDecEnable n (C + 1) RC w
    else
      let r := _XAie_PrivilegeSetBlockAxiMmNsuErr env DevInst Loc BlockSlvEnable
        BlockDecEnable w
      if r.1 ≠ XAIE_OK then r
      else _XAie_PrivilegeSetPartBlockAxiMmNsuErr.loop env DevInst BlockSlvEnable
        BlockDecEnable n (C + 1) r.1 r.2

/-- Lines 221-243. -/
def _XAie_PrivilegeSetPartBlockAxiMmNsuErr (env : Env) (DevInst : XAie_DevInst)
    (BlockSlvEnable BlockDecEnable : Nat) (w : World) : AieRC × World :=
  _XAie_PrivilegeSetPartBlockAxiMmNsuErr.loop env DevInst BlockSlvEnable BlockDecEnable
    DevInst.NumCols 0 XAIE_OK w

/-- Lines 262-287. -/
def _XAie_PrivilegeSetNmuSwitch (env : Env) (DevInst : XAie_DevInst)
    (Loc : XAie_LocType) (FwdEastEnable FromWestEnable : Nat) (w : World) :
    AieRC × World :=
  let TileType := DevInst.GetTTypefromLoc Loc
  if TileType ≠ XAIEGBL_TILE_TYPE_SHIMNOC then (XAIE_ERR, w) else
  let PlIfMod := (DevInst.DevProp.DevMod TileType).PlIfMod
  let RegAddr := (PlIfMod.ShimNocNmuSwitchOff + DevInst.GetTileAddr Loc.Row Loc.Col) % 2 ^ 64
  let FldVal := XAie_SetField FwdEastEnable PlIfMod.ShimNocNmuSwitch0.Lsb
    PlIfMod.ShimNocNmuSwitch0.Mask
  let FldVal := FldVal ||| XAie_SetField FromWestEnable PlIfMod.ShimNocNmuSwitch1.Lsb
    PlIfMod.ShimNocNmuSwitch1.Mask
  doCall env (.Write32 RegAddr FldVal) w

/-- Lines 299-326. -/
def _XAie_PrivilegeSetPartNmuSwitch (env : Env) (DevInst : XAie_DevInst) (w : World) :
    AieRC × World :=
  if DevInst.StartCol ≠ 0 then (XAIE_OK, w) else
  let r1 := _XAie_PrivilegeSetNmuSwitch env DevInst (XAie_TileLoc 0 DevInst.ShimRow)
    XAIE_ENABLE XAIE_DISABLE w
  if r1.1 ≠ XAIE_OK then r1 else
  let r2 := _XAie_PrivilegeSetNmuSwitch env DevInst (XAie_TileLoc 1 DevInst.ShimRow)
    XAIE_DISABLE XAIE_ENABLE r1.2
  if r2.1 ≠ XAIE_OK then r2 else
  r2

/-- Lines 341-355. -/
def _XAie_PrivilegeSetPartProtectedRegs (env : Env) (DevInst : XAie_DevInst)
    (Enable : Nat) (w : World) : AieRC × World :=
  doCall env (.NpiSetProtectedRegEnable DevInst.NumCols Enable) w

/-- Lines 373-384. -/
def _XAie_PrivilegeSetL2IrqId (env : Env) (DevInst : XAie_DevInst)
    (Loc : XAie_LocType) (NoCIrqId : Nat) (w : World) : AieRC × World :=
  let IntrMod := (DevInst.DevProp.DevMod XAIEGBL_TILE_TYPE_SHIMNOC).L2IntrMod
  let RegOffset := IntrMod.IrqRegOff
  let RegAddr := (DevInst.GetTileAddr Loc.Row Loc.Col + RegOffset) % 2 ^ 64
  doCall env (.Write32 RegAddr NoCIrqId) w

/-- The loop of lines 405-417 with `n` iterations left, at `Loc.Col = C`. -/
def _XAie_PrivilegeSetL2ErrIrq.loop (env : Env) (DevInst : XAie_DevInst) :
    Nat → Nat → World → AieRC × World
  | 0, _, w => (XAIE_OK, w)
  | n + 1, C, w =>
    let Loc : XAie_LocType := { XAie_TileLoc 0 DevInst.ShimRow with Col := C }
    let TileType := DevInst.GetTTypefromLoc Loc
    if TileType ≠ XAIEGBL_TILE_TYPE_SHIMNOC then
      _XAie_PrivilegeSetL2ErrIrq.loop env DevInst n (C + 1) w
    else
      let r := _XAie_PrivilegeSetL2IrqId env DevInst Loc XAIE_ERROR_NPI_INTR_ID w
      if r.1 ≠ XAIE_OK then r
      else _XAie_PrivilegeSetL2ErrIrq.loop env DevInst n (C + 1) r.2

/-- Lines 400-420. -/
def _XAie_PrivilegeSetL2ErrIrq (env : Env) (DevInst : XAie_DevInst) (w : World) :
    AieRC × World :=
  _XAie_PrivilegeSetL2ErrIrq.loop env DevInst DevInst.NumCols 0 w

/-- The clock helper `_XAie_PmSetPartitionClock(DevInst, Enable)` of
`xaie_clock.h`: one call into the environment. -/
def _XAie_PmSetPartitionClock (env : Env) (_DevInst : XAie_DevInst) (Enable : Nat)
    (w : World) : AieRC × World :=
  doCall env (.PmSetPartitionClock Enable) w

/-- Modelled from the spec: the helper `_XAie_GetTileBitPosFromLoc` is not among
the sources.  The bitmap holds, column after column, one bit for each of the
`NumRows - 1` rows from row 1 upwards; the arithmetic is 32-bit. -/
def _XAie_GetTileBitPosFromLoc (DevInst : XAie_DevInst) (Loc : XAie_LocType) : Nat :=
  (Loc.Col * ((DevInst.NumRows + 2 ^ 32 - 1) % 2 ^ 32) + Loc.Row + 2 ^ 32 - 1) % 2 ^ 32

/-- Modelled from the spec: the helper `_XAie_ClrBitInBitmap` is not among the
sources.  It clears the `NumSetBit` bits from `StartSetBit` on. -/
def _XAie_ClrBitInBitmap (Bitmap : Nat → Bool) (StartSetBit NumSetBit : Nat) :
    Nat → Bool :=
  fun i => if StartSetBit ≤ i ∧ i < StartSetBit + NumSetBit then false else Bitmap i

/-- The loop of lines 577-585 with `n` iterations left, at column `C`. -/
def _XAie_PrivilegeInitPart.clrLoop (DevInst : XAie_DevInst) :
    Nat → Nat → (Nat → Bool) → (Nat → Bool)
  | 0, _, bm => bm
  | n + 1, C, bm =>
    let Loc := XAie_TileLoc C 1
    let ColClockStatus := _XAie_GetTileBitPosFromLoc DevInst Loc
    _XAie_PrivilegeInitPart.clrLoop DevInst n (C + 1)
      (_XAie_ClrBitInBitmap bm ColClockStatus ((DevInst.NumRows + 2 ^ 32 - 1) % 2 ^ 32))

/-- The failure exit used throughout: close the window, discard the result of
the close, return `RC`. -/
def closeAndReturn (env : Env) (DevInst : XAie_DevInst) (RC : AieRC) (w : World) :
    AieRC × World :=
  (RC, (_XAie_PrivilegeSetPartProtectedRegs env DevInst XAIE_DISABLE w).2)

/-- Lines 566-590 of `_XAie_PrivilegeInitPart`. -/
def _XAie_PrivilegeInitPart.atGen1Workaround (env : Env) (DevInst : XAie_DevInst)
    (w : World) : AieRC × World :=
  if DevInst.DevProp.DevGen = XAIE_DEV_GEN_AIE then
    let r := _XAie_PmSetPartitionClock env DevInst XAIE_DISABLE w
    if r.1 ≠ XAIE_OK then closeAndReturn env DevInst r.1 r.2 else
    let w1 : World := { r.2 with
      TilesInUse := _XAie_PrivilegeInitPart.clrLoop DevInst DevInst.NumCols 0 r.2.TilesInUse }
    _XAie_PrivilegeSetPartProtectedRegs env DevInst XAIE_DISABLE w1
  else
    _XAie_PrivilegeSetPartProtectedRegs env DevInst XAIE_DISABLE w

/-- Lines 550-590 of `_XAie_PrivilegeInitPart`. -/
def _XAie_PrivilegeInitPart.atRequestTiles (env : Env) (DevInst : XAie_DevInst)
    (Opts : Option XAie_PartInitOpts) (w : World) : AieRC × World :=
  match Opts with
  | some o =>
    if o.NumUseTiles > 0 then
      let TilesArray : XAie_BackendTilesArray := { NumTiles := o.NumUseTiles, Locs := o.Locs }
      let r := doCall env (.RunOpRequestTiles TilesArray) w
      if r.1 ≠ XAIE_OK then closeAndReturn env DevInst r.1 r.2
      else _XAie_PrivilegeInitPart.atGen1Workaround env DevInst r.2
    else _XAie_PrivilegeInitPart.atGen1Workaround env DevInst w
  | none => _XAie_PrivilegeInitPart.atGen1Workaround env DevInst w

/-- Lines 544-590 of `_XAie_PrivilegeInitPart`: a failure of the L2 interrupt
routing returns at once, without a window-close. -/
def _XAie_PrivilegeInitPart.atL2ErrIrq (env : Env) (DevInst : XAie_DevInst)
    (Opts : Option XAie_PartInitOpts) (w : World) : AieRC × World :=
  let r := _XAie_PrivilegeSetL2ErrIrq env DevInst w
  if r.1 ≠ XAIE_OK then r
  else _XAie_PrivilegeInitPart.atRequestTiles env DevInst Opts r.2

/-- Lines 536-590 of `_XAie_PrivilegeInitPart`. -/
def _XAie_PrivilegeInitPart.atZeroize (env : Env) (DevInst : XAie_DevInst)
    (Opts : Option XAie_PartInitOpts) (OptFlags : Nat) (w : World) : AieRC × World :=
  if OptFlags &&& XAIE_PART_INIT_OPT_ZEROIZEMEM ≠ 0 then
    let r := doCall env .PartMemZeroInit w
    if r.1 ≠ XAIE_OK then closeAndReturn env DevInst r.1 r.2
    else _XAie_PrivilegeInitPart.atL2ErrIrq env DevInst Opts r.2
  else _XAie_PrivilegeInitPart.atL2ErrIrq env DevInst Opts w

/-- Lines 523-590 of `_XAie_PrivilegeInitPart`: when the isolation call fails
the window is closed, but there is no `return`; control falls through to line
536 and `RC` is overwritten before it is next read. -/
def _XAie_PrivilegeInitPart.atIsolation (env : Env) (DevInst : XAie_DevInst)
    (Opts : Option XAie_PartInitOpts) (OptFlags : Nat) (w : World) : AieRC × World :=
  if OptFlags &&& XAIE_PART_INIT_OPT_ISOLATE ≠ 0 then
    let r := doCall env (.SetPartIsolationAfterRst XAIE_INIT_ISOLATION) w
    if r.1 ≠ XAIE_OK then
      _XAie_PrivilegeInitPart.atZeroize env DevInst Opts OptFlags
        (_XAie_PrivilegeSetPartProtectedRegs env DevInst XAIE_DISABLE r.2).2
    else _XAie_PrivilegeInitPart.atZeroize env DevInst Opts OptFlags r.2
  else
    let r := doCall env (.SetPartIsolationAfterRst XAIE_CLEAR_ISOLATION) w
    if r.1 ≠ XAIE_OK then
      _XAie_PrivilegeInitPart.atZeroize env DevInst Opts OptFlags
        (_XAie_PrivilegeSetPartProtectedRegs env DevInst XAIE_DISABLE r.2).2
    else _XAie_PrivilegeInitPart.atZeroize env DevInst Opts OptFlags r.2

/-- Lines 517-590 of `_XAie_PrivilegeInitPart`. -/
def _XAie_PrivilegeInitPart.atColClock (env : Env) (DevInst : XAie_DevInst)
    (Opts : Option XAie_PartInitOpts) (OptFlags : Nat) (w : World) : AieRC × World :=
  let r := doCall env (.SetPartColClockAfterRst XAIE_ENABLE) w
  if r.1 ≠ XAIE_OK then closeAndReturn env DevInst r.1 r.2
  else _XAie_PrivilegeInitPart.atIsolation env DevInst Opts OptFlags r.2

/-- Lines 508-590 of `_XAie_PrivilegeInitPart`. -/
def _XAie_PrivilegeInitPart.atBlockErr (env : Env) (DevInst : XAie_DevInst)
    (Opts : Option XAie_PartInitOpts) (OptFlags : Nat) (w : World) : AieRC × World :=
  if OptFlags &&& XAIE_PART_INIT_OPT_BLOCK_NOCAXIMMERR ≠ 0 then
    let r := _XAie_PrivilegeSetPartBlockAxiMmNsuErr env DevInst XAIE_ENABLE XAIE_ENABLE w
    if r.1 ≠ XAIE_OK then closeAndReturn env DevInst r.1 r.2
    else _XAie_PrivilegeInitPart.atColClock env DevInst Opts OptFlags r.2
  else _XAie_PrivilegeInitPart.atColClock env DevInst Opts OptFlags w

/-- Lines 491-590 of `_XAie_PrivilegeInitPart`. -/
def _XAie_PrivilegeInitPart.atShimRst (env : Env) (DevInst : XAie_DevInst)
    (Opts : Option XAie_PartInitOpts) (OptFlags : Nat) (w : World) : AieRC × World :=
  if OptFlags &&& XAIE_PART_INIT_OPT_SHIM_RST ≠ 0 then
    let r := _XAie_PrivilegeRstPartShims env DevInst w
    if r.1 ≠ XAIE_OK then closeAndReturn env DevInst r.1 r.2 else
    if DevInst.DevProp.DevGen = XAIE_DEV_GEN_AIE2PS then
      let r2 := _XAie_PrivilegeSetPartNmuSwitch env DevInst r.2
      if r2.1 ≠ XAIE_OK then closeAndReturn env DevInst r2.1 r2.2
      else _XAie_PrivilegeInitPart.atBlockErr env DevInst Opts OptFlags r2.2
    else _XAie_PrivilegeInitPart.atBlockErr env DevInst Opts OptFlags r.2
  else _XAie_PrivilegeInitPart.atBlockErr env DevInst Opts OptFlags w

/-- Lines 462-590 of `_XAie_PrivilegeInitPart`. -/
def _XAie_PrivilegeInitPart.atColumnRst (env : Env) (DevInst : XAie_DevInst)
    (Opts : Option XAie_PartInitOpts) (OptFlags : Nat) (w : World) : AieRC × World :=
  if OptFlags &&& XAIE_PART_INIT_OPT_COLUMN_RST ≠ 0 then
    let r1 := _XAie_PmSetPartitionClock env DevInst XAIE_DISABLE w
    if r1.1 ≠ XAIE_OK then closeAndReturn env DevInst r1.1 r1.2 else
    let r2 := _XAie_PrivilegeSetPartColReset env DevInst XAIE_ENABLE r1.2
    if r2.1 ≠ XAIE_OK then closeAndReturn env DevInst r2.1 r2.2 else
    let r3 := _XAie_PmSetPartitionClock env DevInst XAIE_ENABLE r2.2
    if r3.1 ≠ XAIE_OK then closeAndReturn env DevInst r3.1 r3.2 else
    let r4 := _XAie_PrivilegeSetPartColReset env DevInst XAIE_DISABLE r3.2
    if r4.1 ≠ XAIE_OK then closeAndReturn env DevInst r4.1 r4.2
    else _XAie_PrivilegeInitPart.atShimRst env DevInst Opts OptFlags r4.2
  else _XAie_PrivilegeInitPart.atShimRst env DevInst Opts OptFlags w

/-- Lines 450-454 of `_XAie_PrivilegeInitPart`: the option word, the default when
`Opts` is null. -/
def optFlagsOf (Opts : Option XAie_PartInitOpts) : Nat :=
  match Opts with
  | some o => o.InitOpts
  | none => XAIE_PART_INIT_OPT_DEFAULT

/-- Lines 445-590. -/
def _XAie_PrivilegeInitPart (env : Env) (DevInst : XAie_DevInst)
    (Opts : Option XAie_PartInitOpts) (w : World) : AieRC × World :=
  let OptFlags := optFlagsOf Opts
  let r := _XAie_PrivilegeSetPartProtectedRegs env DevInst XAIE_ENABLE w
  if r.1 ≠ XAIE_OK then r
  else _XAie_PrivilegeInitPart.atColumnRst env DevInst Opts OptFlags r.2

/-- Lines 613-672. -/
def _XAie_PrivilegeTeardownPart (env : Env) (DevInst : XAie_DevInst) (w : World) :
    AieRC × World :=
  let r0 := _XAie_PrivilegeSetPartProtectedRegs env DevInst XAIE_ENABLE w
  if r0.1 ≠ XAIE_OK then r0 else
  let r1 := _XAie_PmSetPartitionClock env DevInst XAIE_DISABLE r0.2
  if r1.1 ≠ XAIE_OK then closeAndReturn env DevInst r1.1 r1.2 else
  let r2 := _XAie_PrivilegeSetPartColReset env DevInst XAIE_ENABLE r1.2
  if r2.1 ≠ XAIE_OK then closeAndReturn env DevInst r2.1 r2.2 else
  let r3 := _XAie_PmSetPartitionClock env DevInst XAIE_ENABLE r2.2
  if r3.1 ≠ XAIE_OK then closeAndReturn env DevInst r3.1 r3.2 else
  let r4 := _XAie_PrivilegeSetPartColReset env DevInst XAIE_DISABLE r3.2
  if r4.1 ≠ XAIE_OK then closeAndReturn env DevInst r4.1 r4.2 else
  let r5 := _XAie_PrivilegeRstPartShims env DevInst r4.2
  if r5.1 ≠ XAIE_OK then closeAndReturn env DevInst r5.1 r5.2 else
  let r6 := doCall env (.SetPartColClockAfterRst XAIE_ENABLE) r5.2
  if r6.1 ≠ XAIE_OK then closeAndReturn env DevInst r6.1 r6.2 else
  let r7 := doCall env .PartMemZeroInit r6.2
  if r7.1 ≠ XAIE_OK then closeAndReturn env DevInst r7.1 r7.2 else
  let r8 := _XAie_PmSetPartitionClock env DevInst XAIE_DISABLE r7.2
  if r8.1 ≠ XAIE_OK then closeAndReturn env DevInst r8.1 r8.2 else
  _XAie_PrivilegeSetPartProtectedRegs env DevInst XAIE_DISABLE r8.2

/-- Lines 686-709. -/
def _XAie_PrivilegeRequestTiles (env : Env) (DevInst : XAie_DevInst)
    (Args : XAie_BackendTilesArray) (w : World) : AieRC × World :=
  let r0 : AieRC × World :=
    if DevInst.DevProp.DevGen ≠ XAIE_DEV_GEN_AIE then
      _XAie_PrivilegeSetPartProtectedRegs env DevInst XAIE_ENABLE w
    else (XAIE_OK, w)
  if DevInst.DevProp.DevGen ≠ XAIE_DEV_GEN_AIE ∧ r0.1 ≠ XAIE_OK then r0 else
  let r := doCall env (.RequestTiles Args) r0.2
  if DevInst.DevProp.DevGen ≠ XAIE_DEV_GEN_AIE then
    (r.1, (_XAie_PrivilegeSetPartProtectedRegs env DevInst XAIE_DISABLE r.2).2)
  else r

/-- Lines 724-748. -/
def _XAie_PrivilegeSetColumnClk (env : Env) (DevInst : XAie_DevInst)
    (Args : XAie_BackendColumnReq) (w : World) : AieRC × World :=
  let r0 : AieRC × World :=
    if DevInst.DevProp.DevGen ≠ XAIE_DEV_GEN_AIE then
      _XAie_PrivilegeSetPartProtectedRegs env DevInst XAIE_ENABLE w
    else (XAIE_OK, w)
  if DevInst.DevProp.DevGen ≠ XAIE_DEV_GEN_AIE ∧ r0.1 ≠ XAIE_OK then r0 else
  let r := doCall env (.SetColumnClk Args) r0.2
  if DevInst.DevProp.DevGen ≠ XAIE_DEV_GEN_AIE then
    (r.1, (_XAie_PrivilegeSetPartProtectedRegs env DevInst XAIE_DISABLE r.2).2)
  else r

/-- The broadcast loop of lines 828-833 (and 907-912) with `n` iterations left,
at column `col`; the result of each masked write is discarded. -/
def dmaPauseLoop (env : Env) (DevInst : XAie_DevInst) (RegOff Mask FldVal : Nat) :
    Nat → Nat → World → World
  | 0, _, w => w
  | n + 1, col, w =>
    let Loc := XAie_TileLoc col 0
    let RegAddr := (RegOff + DevInst.GetTileAddr Loc.Row Loc.Col) % 2 ^ 64
    dmaPauseLoop env DevInst RegOff Mask FldVal n (col + 1)
      (doCall env (.MaskWrite32 RegAddr Mask FldVal) w).2

/-- Lines 784-816 of `XAie_NocDmaPause`: the field selected by the two
`switch` statements.  `none` is the `return XAIE_ERR` of the outer `default`;
the inner `default` only logs, so `Mask` and `Lsb` keep the indeterminate
content `Uninit` of the uninitialised locals. -/
def XAie_NocDmaPause.select (NocDma : XAie_DmaMod) (ChNum Dir : Nat)
    (Uninit : XAie_RegFldAttr) : Option XAie_RegFldAttr :=
  if ChNum = 0 then
    if Dir = DMA_S2MM then some NocDma.NocDmaPauseReg.S2mm_0
    else if Dir = DMA_MM2S then some NocDma.NocDmaPauseReg.Mm2s_0
    else some Uninit
  else if ChNum = 1 then
    if Dir = DMA_S2MM then some NocDma.NocDmaPauseReg.S2mm_1
    else if Dir = DMA_MM2S then some NocDma.NocDmaPauseReg.Mm2s_1
    else some Uninit
  else none

/-- Lines 765-848.  `DevInst` and `Loc` are pointers and may be null. -/
def XAie_NocDmaPause (env : Env) (DevInst : Option XAie_DevInst)
    (Loc : Option XAie_LocType) (ChNum Dir Pause : Nat) (Uninit : XAie_RegFldAttr)
    (w : World) : AieRC × World :=
  match DevInst with
  | none => (XAIE_ERR, w)
  | some D =>
    match (D.DevProp.DevMod XAIEGBL_TILE_TYPE_SHIMNOC).DmaMod with
    | none => (XAIE_ERR, w)
    | some NocDma =>
      match XAie_NocDmaPause.select NocDma ChNum Dir Uninit with
      | none => (XAIE_ERR, w)
      | some Fld =>
        let Mask := Fld.Mask
        let Lsb := Fld.Lsb
        let FldVal := XAie_SetField Pause Lsb Mask
        let r0 := _XAie_PrivilegeSetPartProtectedRegs env D XAIE_ENABLE w
        if r0.1 ≠ XAIE_OK then r0 else
        let w1 : World :=
          match Loc with
          | none =>
            dmaPauseLoop env D NocDma.NocDmaPauseReg.RegOff Mask FldVal D.NumCols 0 r0.2
          | some L =>
            let RegAddr := (NocDma.NocDmaPauseReg.RegOff + D.GetTileAddr L.Row L.Col) % 2 ^ 64
            (doCall env (.MaskWrite32 RegAddr Mask FldVal) r0.2).2
        let r := _XAie_PrivilegeSetPartProtectedRegs env D XAIE_DISABLE w1
        if r.1 ≠ XAIE_OK then r else (XAIE_OK, r.2)

/-- Lines 883-895 of `XAie_UcDmaPause`; `none` is the `default` case. -/
def XAie_UcDmaPause.select (UcDma : XAie_UcMod) (Dir : Nat) : Option XAie_RegFldAttr :=
  if Dir = XAIE_UC_MODULE__DMA_DIR__DM2MM then some UcDma.UcDmaPauseReg.Dm2mm
  else if Dir = XAIE_UC_MODULE__DMA_DIR__MM2DM then some UcDma.UcDmaPauseReg.Mm2dm
  else none

/-- Lines 864-927.  `DevInst` and `Loc` are pointers and may be null. -/
def XAie_UcDmaPause (env : Env) (DevInst : Option XAie_DevInst)
    (Loc : Option XAie_LocType) (Dir Pause : Nat) (w : World) : AieRC × World :=
  match DevInst with
  | none => (XAIE_ERR, w)
  | some D =>
    match (D.DevProp.DevMod XAIEGBL_TILE_TYPE_SHIMNOC).UcMod with
    | none => (XAIE_ERR, w)
    | some UcDma =>
      match XAie_UcDmaPause.select UcDma Dir with
      | none => (XAIE_INVALID_DMA_DIRECTION, w)
      | some Fld =>
        let Mask := Fld.Mask
        let Lsb := Fld.Lsb
        let FldVal := XAie_SetField Pause Lsb Mask
        let r0 := _XAie_PrivilegeSetPartProtectedRegs env D XAIE_ENABLE w
        if r0.1 ≠ XAIE_OK then r0 else
        let w1 : World :=
          match Loc with
          | none =>
            dmaPauseLoop env D UcDma.UcDmaPauseReg.RegOff Mask FldVal D.NumCols 0 r0.2
          | some L =>
            let RegAddr := (UcDma.UcDmaPauseReg.RegOff + D.GetTileAddr L.Row L.Col) % 2 ^ 64
            (doCall env (.MaskWrite32 RegAddr Mask FldVal) r0.2).2
        let r := _XAie_PrivilegeSetPartProtectedRegs env D XAIE_DISABLE w1
        if r.1 ≠ XAIE_OK then r else (XAIE_OK, r.2)

/-- Lines 943-970. -/
def XAie_PrivilegeSetAxiMMIsolation (env : Env) (DevInst : XAie_DevInst)
    (IsolationFlags : Nat) (w : World) : AieRC × World :=
  let r0 := _XAie_PrivilegeSetPartProtectedRegs env DevInst XAIE_ENABLE w
  if r0.1 ≠ XAIE_OK then r0 else
  if DevInst.DevProp.DevGen = XAIE_DEV_GEN_AIE2PS then
    let r := doCall env (.SetAxiMMIsolation IsolationFlags) r0.2
    if r.1 ≠ XAIE_OK then r
    else _XAie_PrivilegeSetPartProtectedRegs env DevInst XAIE_DISABLE r.2
  else _XAie_PrivilegeSetPartProtectedRegs env DevInst XAIE_DISABLE r0.2

/-! ## Reference call sequences

The calls each routine issues when nothing fails, read off the source, and the
interpreter that issues a list of calls up to and including the first one that
fails. -/

/-- Issue the calls of a list in order; stop after the first call whose return
code is not `XAIE_OK` and return that code. -/
def runCalls (env : Env) : List Call → World → AieRC × World
  | [], w => (XAIE_OK, w)
  | c :: cs, w =>
    let r := doCall env c w
    if r.1 ≠ XAIE_OK then r else runCalls env cs r.2

/-- Every call of the list returns `XAIE_OK` when the list is issued in order
after the calls `hist`. -/
def allOk (env : Env) : List Call → List Call → Bool
  | _, [] => true
  | hist, c :: cs => env hist c == XAIE_OK && allOk env (hist ++ [c]) cs

/-- The window-open call of a device. -/
def openCall (DevInst : XAie_DevInst) : Call :=
  .NpiSetProtectedRegEnable DevInst.NumCols XAIE_ENABLE

/-- The window-close call of a device. -/
def closeCall (DevInst : XAie_DevInst) : Call :=
  .NpiSetProtectedRegEnable DevInst.NumCols XAIE_DISABLE

/-- The register write of `_XAie_PrivilegeSetColReset` for column `C` (row 0). -/
def colResetCall (DevInst : XAie_DevInst) (RstEnable C : Nat) : Call :=
  let PlIfMod := (DevInst.DevProp.DevMod (DevInst.GetTTypefromLoc ⟨0, C⟩)).PlIfMod
  .Write32 ((PlIfMod.ColRstOff + DevInst.GetTileAddr 0 C) % 2 ^ 64)
    (XAie_SetField RstEnable PlIfMod.ColRst.Lsb PlIfMod.ColRst.Mask)

/-- The writes of `_XAie_PrivilegeSetPartColReset`: columns `0 .. NumCols - 1`. -/
def colResetCalls (DevInst : XAie_DevInst) (RstEnable : Nat) : List Call :=
  (List.range DevInst.NumCols).map (colResetCall DevInst RstEnable)

/-- The four calls of `_XAie_PrivilegeRstPartShims`. -/
def shimResetCalls : List Call :=
  [.SetPartColShimReset XAIE_ENABLE, .NpiSetShimReset XAIE_ENABLE,
   .NpiSetShimReset XAIE_DISABLE, .SetPartColShimReset XAIE_DISABLE]

/-- The calls of `_XAie_PrivilegeTeardownPart` between window-open and
window-close. -/
def teardownBody (DevInst : XAie_DevInst) : List Call :=
  [.PmSetPartitionClock XAIE_DISABLE] ++ colResetCalls DevInst XAIE_ENABLE ++
  [.PmSetPartitionClock XAIE_ENABLE] ++ colResetCalls DevInst XAIE_DISABLE ++
  shimResetCalls ++
  [.SetPartColClockAfterRst XAIE_ENABLE, .PartMemZeroInit, .PmSetPartitionClock XAIE_DISABLE]

/-- The register write of `_XAie_PrivilegeSetNmuSwitch` at column `C` of the shim
row, once the tile-type test has passed. -/
def nmuSwitchCall (DevInst : XAie_DevInst) (C FwdEastEnable FromWestEnable : Nat) : Call :=
  let PlIfMod := (DevInst.DevProp.DevMod XAIEGBL_TILE_TYPE_SHIMNOC).PlIfMod
  .Write32 ((PlIfMod.ShimNocNmuSwitchOff + DevInst.GetTileAddr DevInst.ShimRow C) % 2 ^ 64)
    (XAie_SetField FwdEastEnable PlIfMod.ShimNocNmuSwitch0.Lsb PlIfMod.ShimNocNmuSwitch0.Mask |||
      XAie_SetField FromWestEnable PlIfMod.ShimNocNmuSwitch1.Lsb PlIfMod.ShimNocNmuSwitch1.Mask)

/-- The writes of `_XAie_PrivilegeSetPartNmuSwitch`: none unless `StartCol` is 0,
else column 0 (forward east) and column 1 (from west). -/
def nmuSwitchCalls (DevInst : XAie_DevInst) : List Call :=
  if DevInst.StartCol ≠ 0 then []
  else [nmuSwitchCall DevInst 0 XAIE_ENABLE XAIE_DISABLE,
        nmuSwitchCall DevInst 1 XAIE_DISABLE XAIE_ENABLE]

/-- The register write of `_XAie_PrivilegeSetBlockAxiMmNsuErr` for column `C`
(row 0). -/
def blockErrCall (DevInst : XAie_DevInst) (BlockSlvEnable BlockDecEnable C : Nat) : Call :=
  let M := (DevInst.DevProp.DevMod (DevInst.GetTTypefromLoc ⟨0, C⟩)).PlIfMod.ShimNocAxiMM
  .Write32 ((M.RegOff + DevInst.GetTileAddr 0 C) % 2 ^ 64)
    (XAie_SetField BlockSlvEnable M.NsuSlvErr.Lsb M.NsuSlvErr.Mask |||
      XAie_SetField BlockDecEnable M.NsuDecErr.Lsb M.NsuDecErr.Mask)

/-- The writes of `_XAie_PrivilegeSetPartBlockAxiMmNsuErr`: the columns whose
tile at row 0 is a shim-NoC tile, in ascending order. -/
def blockErrCalls (DevInst : XAie_DevInst) (BlockSlvEnable BlockDecEnable : Nat) :
    List Call :=
  ((List.range DevInst.NumCols).filter
    (fun C => DevInst.GetTTypefromLoc ⟨0, C⟩ = XAIEGBL_TILE_TYPE_SHIMNOC)).map
    (blockErrCall DevInst BlockSlvEnable BlockDecEnable)

/-- The register write of `_XAie_PrivilegeSetL2IrqId` for column `C` of the
shim row. -/
def l2IrqCall (DevInst : XAie_DevInst) (C : Nat) : Call :=
  .Write32 ((DevInst.GetTileAddr DevInst.ShimRow C +
      (DevInst.DevProp.DevMod XAIEGBL_TILE_TYPE_SHIMNOC).L2IntrMod.IrqRegOff) % 2 ^ 64)
    XAIE_ERROR_NPI_INTR_ID

/-- The writes of `_XAie_PrivilegeSetL2ErrIrq`: the columns whose tile in the
shim row is a shim-NoC tile, in ascending order. -/
def l2IrqCalls (DevInst : XAie_DevInst) : List Call :=
  ((List.range DevInst.NumCols).filter
    (fun C => DevInst.GetTTypefromLoc ⟨DevInst.ShimRow, C⟩ = XAIEGBL_TILE_TYPE_SHIMNOC)).map
    (l2IrqCall DevInst)

/-- The tile request of lines 551-564, when tiles were supplied. -/
def requestTilesCalls (Opts : Option XAie_PartInitOpts) : List Call :=
  match Opts with
  | some o =>
    if o.NumUseTiles > 0 then [.RunOpRequestTiles { NumTiles := o.NumUseTiles, Locs := o.Locs }]
    else []
  | none => []

/-- Lines 462-489: the column-reset block, when its flag is set. -/
def initColumnRstCalls (DevInst : XAie_DevInst) (OptFlags : Nat) : List Call :=
  if OptFlags &&& XAIE_PART_INIT_OPT_COLUMN_RST ≠ 0 then
    [.PmSetPartitionClock XAIE_DISABLE] ++ colResetCalls DevInst XAIE_ENABLE ++
    [.PmSetPartitionClock XAIE_ENABLE] ++ colResetCalls DevInst XAIE_DISABLE
  else []

/-- Lines 491-506: the shim-reset block, when its flag is set. -/
def initShimRstCalls (DevInst : XAie_DevInst) (OptFlags : Nat) : List Call :=
  if OptFlags &&& XAIE_PART_INIT_OPT_SHIM_RST ≠ 0 then
    shimResetCalls ++
    (if DevInst.DevProp.DevGen = XAIE_DEV_GEN_AIE2PS then nmuSwitchCalls DevInst else [])
  else []

/-- Lines 508-515: the error-mask block, when its flag is set. -/
def initBlockErrCalls (DevInst : XAie_DevInst) (OptFlags : Nat) : List Call :=
  if OptFlags &&& XAIE_PART_INIT_OPT_BLOCK_NOCAXIMMERR ≠ 0 then
    blockErrCalls DevInst XAIE_ENABLE XAIE_ENABLE
  else []

/-- Lines 523-534: the one isolation call. -/
def initIsolationCall (OptFlags : Nat) : Call :=
  .SetPartIsolationAfterRst
    (if OptFlags &&& XAIE_PART_INIT_OPT_ISOLATE ≠ 0 then XAIE_INIT_ISOLATION
     else XAIE_CLEAR_ISOLATION)

/-- Lines 536-542: the memory zeroisation, when its flag is set. -/
def initZeroizeCalls (OptFlags : Nat) : List Call :=
  if OptFlags &&& XAIE_PART_INIT_OPT_ZEROIZEMEM ≠ 0 then [.PartMemZeroInit] else []

/-- Lines 570-575: the Gen1 clock disable. -/
def initGen1Calls (DevInst : XAie_DevInst) : List Call :=
  if DevInst.DevProp.DevGen = XAIE_DEV_GEN_AIE then [.PmSetPartitionClock XAIE_DISABLE] else []

/-- The calls of `_XAie_PrivilegeInitPart` between window-open and window-close
when every step succeeds, in source order. -/
def initBody (DevInst : XAie_DevInst) (Opts : Option XAie_PartInitOpts) : List Call :=
  (if optFlagsOf Opts &&& XAIE_PART_INIT_OPT_COLUMN_RST ≠ 0 then
      [.PmSetPartitionClock XAIE_DISABLE] ++ colResetCalls DevInst XAIE_ENABLE ++
      [.PmSetPartitionClock XAIE_ENABLE] ++ colResetCalls DevInst XAIE_DISABLE
    else []) ++
  (if optFlagsOf Opts &&& XAIE_PART_INIT_OPT_SHIM_RST ≠ 0 then
      shimResetCalls ++
      (if DevInst.DevProp.DevGen = XAIE_DEV_GEN_AIE2PS then nmuSwitchCalls DevInst else [])
    else []) ++
  (if optFlagsOf Opts &&& XAIE_PART_INIT_OPT_BLOCK_NOCAXIMMERR ≠ 0 then
      blockErrCalls DevInst XAIE_ENABLE XAIE_ENABLE
    else []) ++
  [.SetPartColClockAfterRst XAIE_ENABLE] ++
  [.SetPartIsolationAfterRst
    (if optFlagsOf Opts &&& XAIE_PART_INIT_OPT_ISOLATE ≠ 0 then XAIE_INIT_ISOLATION
     else XAIE_CLEAR_ISOLATION)] ++
  (if optFlagsOf Opts &&& XAIE_PART_INIT_OPT_ZEROIZEMEM ≠ 0 then [.PartMemZeroInit] else []) ++
  l2IrqCalls DevInst ++
  requestTilesCalls Opts ++
  (if DevInst.DevProp.DevGen = XAIE_DEV_GEN_AIE then [.PmSetPartitionClock XAIE_DISABLE]
   else [])

/-! ## Example devices and environments -/

/-- An example interface-module layout. -/
def exPlIfMod : XAie_PlIfMod :=
  { ColRstOff := 0xFFF28, ColRst := ⟨0, 0x1⟩,
    ShimNocAxiMM := { RegOff := 0x1E020, NsuSlvErr := ⟨0, 0x1⟩, NsuDecErr := ⟨1, 0x2⟩ },
    ShimNocNmuSwitchOff := 0x1E030,
    ShimNocNmuSwitch0 := ⟨0, 0x1⟩, ShimNocNmuSwitch1 := ⟨1, 0x2⟩ }

/-- An example module table entry, the same for every tile type. -/
def exTileMod : XAie_TileMod :=
  { PlIfMod := exPlIfMod,
    L2IntrMod := ⟨0x15010⟩,
    DmaMod := some ⟨{ RegOff := 0x1D308, S2mm_0 := ⟨0, 0x1⟩, S2mm_1 := ⟨1, 0x2⟩,
                       Mm2s_0 := ⟨2, 0x4⟩, Mm2s_1 := ⟨3, 0x8⟩ }⟩,
    UcMod := some ⟨{ RegOff := 0xC0120, Dm2mm := ⟨0, 0x1⟩, Mm2dm := ⟨1, 0x2⟩ }⟩ }

/-- Example device of generation `gen`: start column 0, four columns, six rows,
shim row 0, every tile of row 0 of the type `shimType C` of its column. -/
def exDev (gen : Nat) (shimType : Nat → Nat) : XAie_DevInst :=
  { StartCol := 0, NumRows := 6, NumCols := 4, ShimRow := 0,
    DevProp := { DevGen := gen, DevMod := fun _ => exTileMod },
    GetTTypefromLoc := fun Loc =>
      if Loc.Row = 0 then shimType Loc.Col else XAIEGBL_TILE_TYPE_AIETILE,
    GetTileAddr := fun R C => (R <<< 20) ||| (C <<< 25) }

/-- The scenario device of the specification: Gen2PS, start column 0, four
columns, shim row 0, all shim tiles NoC tiles. -/
def exDev2PS : XAie_DevInst := exDev XAIE_DEV_GEN_AIE2PS (fun _ => XAIEGBL_TILE_TYPE_SHIMNOC)

/-- A Gen2PS device like `exDev2PS` whose tile at column 0 of the shim row is a
shim-PL tile. -/
def exDevPlShim : XAie_DevInst :=
  exDev XAIE_DEV_GEN_AIE2PS
    (fun C => if C = 0 then XAIEGBL_TILE_TYPE_SHIMPL else XAIEGBL_TILE_TYPE_SHIMNOC)

/-- An AIE-ML device, all shim tiles NoC tiles. -/
def exDevML : XAie_DevInst := exDev XAIE_DEV_GEN_AIEML (fun _ => XAIEGBL_TILE_TYPE_SHIMNOC)

/-- The options of the scenario: ColumnReset, ShimReset, Isolate; no tiles. -/
def exOptsScenario : XAie_PartInitOpts :=
  { Locs := [], NumUseTiles := 0,
    InitOpts := XAIE_PART_INIT_OPT_COLUMN_RST ||| XAIE_PART_INIT_OPT_SHIM_RST |||
      XAIE_PART_INIT_OPT_ISOLATE }

/-- Options Isolate and ZeroizeMemory; no tiles. -/
def exOptsIsolateZeroize : XAie_PartInitOpts :=
  { Locs := [], NumUseTiles := 0,
    InitOpts := XAIE_PART_INIT_OPT_ISOLATE ||| XAIE_PART_INIT_OPT_ZEROIZEMEM }

/-- Options with no flag set and no tiles. -/
def exOptsPlain : XAie_PartInitOpts := { Locs := [], NumUseTiles := 0, InitOpts := 0 }

/-- The environment in which every call succeeds. -/
def envOk : Env := fun _ _ => XAIE_OK

/-- The environment in which exactly the call `c` fails, with code `e`. -/
def envFailOn (c : Call) (e : AieRC) : Env := fun _ c1 => if c1 = c then e else XAIE_OK

/-- The environment in which the call `c` fails with code `e`, every
window-close fails with code `eClose`, and every other call succeeds. -/
def envFailOnAndClose (c : Call) (e eClose : AieRC) : Env :=
  fun _ c1 => if c1 = c then e else if isClose c1 then eClose else XAIE_OK

/-- The empty world: no call issued, every tile marked in use. -/
def World.init : World := { trace := [], TilesInUse := fun _ => true }

/-- One guarded stage of a lifecycle routine: issue the calls `cs`; on a
failure close the window and return the failing code, otherwise continue with `k`. -/
def seqThen (env : Env) (DevInst : XAie_DevInst) (cs : List Call)
    (k : World → AieRC × World) (w : World) : AieRC × World :=
  if (runCalls env cs w).1 ≠ XAIE_OK then
    closeAndReturn env DevInst (runCalls env cs w).1 (runCalls env cs w).2
  else k (runCalls env cs w).2

/-- The routine `f` runs to completion on the calls `cs`: whenever every call of
`cs` succeeds, `f` returns `XAIE_OK` having issued exactly `cs`. -/
def CompletesWith (env : Env) (f : World → AieRC × World) (cs : List Call) : Prop :=
  ∀ w, allOk env w.trace cs = true → (f w).1 = XAIE_OK ∧ (f w).2.trace = w.trace ++ cs

/-- The world after the calls `cs` were issued in `w`. -/
def World.extend (w : World) (cs : List Call) : World :=
  { w with trace := w.trace ++ cs }

/-! ## Further reference definitions and example devices -/

/-- The gating pattern of the tile request, with the delegate call as a
parameter: on a device that is not Gen1, open the window, return at once if
that fails, issue the delegate, close the window discarding the result of the
close, and return the result of the delegate; on Gen1 issue the delegate alone. -/
def gatingPattern (env : Env) (DevInst : XAie_DevInst) (delegate : Call) (w : World) :
    AieRC × World :=
  if DevInst.DevProp.DevGen ≠ XAIE_DEV_GEN_AIE then
    let r0 := doCall env (openCall DevInst) w
    if r0.1 ≠ XAIE_OK then r0 else
    let r := doCall env delegate r0.2
    (r.1, (doCall env (closeCall DevInst) r.2).2)
  else doCall env delegate w

/-- The masked write of the DMA pause routines for the tile at `Row`, `Col`. -/
def dmaPauseCall (DevInst : XAie_DevInst) (RegOff Mask FldVal Row Col : Nat) : Call :=
  .MaskWrite32 ((RegOff + DevInst.GetTileAddr Row Col) % 2 ^ 64) Mask FldVal

/-- The address of the NMU-switch register of column `C` of the shim row. -/
def nmuSwitchAddr (DevInst : XAie_DevInst) (C : Nat) : Nat :=
  ((DevInst.DevProp.DevMod XAIEGBL_TILE_TYPE_SHIMNOC).PlIfMod.ShimNocNmuSwitchOff +
    DevInst.GetTileAddr DevInst.ShimRow C) % 2 ^ 64

/-- A register write to one of the two NMU-switch registers the driver
configures, those of columns 0 and 1 of the shim row. -/
def isNmuSwitchWrite (DevInst : XAie_DevInst) : Call → Bool
  | .Write32 RegAddr _ =>
    RegAddr == nmuSwitchAddr DevInst 0 || RegAddr == nmuSwitchAddr DevInst 1
  | _ => false

/-- Every call the routine `f` issues satisfies `Q`, whatever the environment
answers: the trace after `f` is the trace before it followed by calls that all
satisfy `Q`. -/
def Emits (f : World → AieRC × World) (Q : Call → Prop) : Prop :=
  ∀ w, ∃ d, (f w).2.trace = w.trace ++ d ∧ ∀ c ∈ d, Q c

/-- A Gen1 device, all shim tiles NoC tiles. -/
def exDevGen1 : XAie_DevInst := exDev XAIE_DEV_GEN_AIE (fun _ => XAIEGBL_TILE_TYPE_SHIMNOC)

/-- A Gen2PS device like `exDev2PS` whose shim row is row 1. -/
def exDevShimRow1 : XAie_DevInst := { exDev2PS with ShimRow := 1 }

/-- A Gen2PS device like `exDev2PS` that starts at column 4. -/
def exDevStart4 : XAie_DevInst := { exDev2PS with StartCol := 4 }

/-- A Gen2PS device like `exDev2PS` whose tiles at columns 1 and 2 of row 0 are
shim-PL tiles. -/
def exDevMixed : XAie_DevInst :=
  exDev XAIE_DEV_GEN_AIE2PS
    (fun C => if C = 1 ∨ C = 2 then XAIEGBL_TILE_TYPE_SHIMPL else XAIEGBL_TILE_TYPE_SHIMNOC)

/-- Example argument of the tile request. -/
def exTiles : XAie_BackendTilesArray := { NumTiles := 2, Locs := [⟨1, 0⟩, ⟨2, 0⟩] }

/-- Example argument of the column clock request. -/
def exColumnReq : XAie_BackendColumnReq := { StartCol := 0, NumCols := 2, Enable := 1 }

/-- The field `XAie_NocDmaPause` selects for channel 0 or 1 and direction
`DMA_S2MM` or `DMA_MM2S` (lines 784-812). -/
def nocPauseField (M : XAie_DmaMod) (ChNum Dir : Nat) : XAie_RegFldAttr :=
  if ChNum = 0 then
    (if Dir = DMA_S2MM then M.NocDmaPauseReg.S2mm_0 else M.NocDmaPauseReg.Mm2s_0)
  else
    (if Dir = DMA_S2MM then M.NocDmaPauseReg.S2mm_1 else M.NocDmaPauseReg.Mm2s_1)

/-- The field `XAie_UcDmaPause` selects for direction DM2MM or MM2DM (lines
883-891). -/
def ucPauseField (U : XAie_UcMod) (Dir : Nat) : XAie_RegFldAttr :=
  if Dir = XAIE_UC_MODULE__DMA_DIR__DM2MM then U.UcDmaPauseReg.Dm2mm
  else U.UcDmaPauseReg.Mm2dm

/-- Every call `_XAie_PrivilegeInitPart` and `_XAie_PrivilegeTeardownPart` can
issue outside the NMU-switch step, whatever the option flags: the two
protected-register requests, the clock calls, the column-reset writes, the
shim-reset calls, the error-mask writes, the column-clock, isolation and
zeroisation calls, the L2 interrupt writes and the tile request. -/
def initCallPool (DevInst : XAie_DevInst) (Opts : Option XAie_PartInitOpts) : List Call :=
  [openCall DevInst, closeCall DevInst,
   .PmSetPartitionClock XAIE_DISABLE, .PmSetPartitionClock XAIE_ENABLE] ++
  colResetCalls DevInst XAIE_ENABLE ++ colResetCalls DevInst XAIE_DISABLE ++
  shimResetCalls ++ blockErrCalls DevInst XAIE_ENABLE XAIE_ENABLE ++
  [.SetPartColClockAfterRst XAIE_ENABLE, .SetPartIsolationAfterRst XAIE_INIT_ISOLATION,
   .SetPartIsolationAfterRst XAIE_CLEAR_ISOLATION, .PartMemZeroInit] ++
  l2IrqCalls DevInst ++ requestTilesCalls Opts

/-- Like `exDev2PS`, without a UC module descriptor for the shim-NoC tiles. -/
def exDevNoUc : XAie_DevInst :=
  { exDev2PS with
    DevProp := { DevGen := XAIE_DEV_GEN_AIE2PS,
                 DevMod := fun _ => { exTileMod with UcMod := none } } }

/-- The isolation call of Initialize, whatever its mode. -/
def isIsolation : Call → Bool
  | .SetPartIsolationAfterRst _ => true
  | _ => false

/-- Every call `_XAie_PrivilegeInitPart` can issue after its isolation call:
the window-close, the memory zeroisation, the L2 interrupt writes, the tile
request and the Gen1 clock disable. -/
def initTailPool (DevInst : XAie_DevInst) (Opts : Option XAie_PartInitOpts) : List Call :=
  [closeCall DevInst, .PmSetPartitionClock XAIE_DISABLE, .PartMemZeroInit] ++
  l2IrqCalls DevInst ++ requestTilesCalls Opts

/-- Shape of a run with respect to the isolation step.  The routine `f`, from
any world and whatever the environment answers, either fails without an
isolation call, or issues the isolation call exactly once, with mode `m` and
right after `SetPartColClockAfterRst(enable)`. -/
def IsolatesOnce (f : World → AieRC × World) (m : Nat) : Prop :=
  ∀ w, ∃ d, (f w).2.trace = w.trace ++ d ∧
    (((f w).1 ≠ XAIE_OK ∧ ∀ c ∈ d, isIsolation c = false) ∨
     ∃ pre post, d = pre ++ Call.SetPartColClockAfterRst XAIE_ENABLE ::
        Call.SetPartIsolationAfterRst m :: post ∧
      (∀ c ∈ pre, isIsolation c = false) ∧ ∀ c ∈ post, isIsolation c = false)

/-- The routine `f` only adds calls to the trace: it leaves the `TilesInUse`
bitmap as it found it. -/
def OnlyCalls (f : World → AieRC × World) : Prop :=
  ∀ w, ∃ d, (f w).2 = w.extend d

/-- What a stage of Initialize does to the `TilesInUse` bitmap, whatever the
environment answers: nothing on a generation other than Gen1; on Gen1 a run
that returns `XAIE_OK` has applied the clearing loop of lines 577-585. -/
def TilesAfterInit (DevInst : XAie_DevInst) (f : World → AieRC × World) : Prop :=
  ∀ w,
    (DevInst.DevProp.DevGen ≠ XAIE_DEV_GEN_AIE → (f w).2.TilesInUse = w.TilesInUse) ∧
    (DevInst.DevProp.DevGen = XAIE_DEV_GEN_AIE → (f w).1 = XAIE_OK →
      (f w).2.TilesInUse =
        _XAie_PrivilegeInitPart.clrLoop DevInst DevInst.NumCols 0 w.TilesInUse)

/-- The calls of a succeeding Initialize between the window-open and the Gen1
step, in source order: every step up to and including the tile request. -/
def initStepsToTileRequest (DevInst : XAie_DevInst) (Opts : Option XAie_PartInitOpts) :
    List Call :=
  initColumnRstCalls DevInst (optFlagsOf Opts) ++ initShimRstCalls DevInst (optFlagsOf Opts) ++
  initBlockErrCalls DevInst (optFlagsOf Opts) ++ [.SetPartColClockAfterRst XAIE_ENABLE] ++
  [initIsolationCall (optFlagsOf Opts)] ++ initZeroizeCalls (optFlagsOf Opts) ++
  l2IrqCalls DevInst ++ requestTilesCalls Opts

/-! ## Register file -/

/-- Modelled from the spec: the MMIO primitives behind `Write32`, `MaskWrite32`
and `Read32` are not among the sources.  A register file gives the 32-bit
content of the register at each address. -/
abbrev RegFile := Nat → Nat

/-- Modelled from the spec: the content a masked write leaves in a register,
`(reg & ~Mask) | (Value & Mask)` with the complement taken in 32 bits. -/
def maskWriteVal (reg Mask Value : Nat) : Nat :=
  (reg &&& ((2 ^ 32 - 1) ^^^ Mask)) ||| (Value &&& Mask)

/-- Modelled from the spec: `Write32(Addr, Data)` stores the 32-bit `Data` at
`Addr`. -/
def XAieGbl_Write32 (regs : RegFile) (Addr Data : Nat) : RegFile :=
  fun x => if x = Addr then Data % 2 ^ 32 else regs x

/-- Modelled from the spec: `MaskWrite32(Addr, Mask, Data)` sets
`reg[Addr] := (reg[Addr] & ~Mask) | (Data & Mask)`. -/
def XAieGbl_MaskWrite32 (regs : RegFile) (Addr Mask Data : Nat) : RegFile :=
  fun x => if x = Addr then maskWriteVal (regs Addr) Mask Data else regs x

/-- Modelled from the spec: `Read32(Addr)` returns the content at `Addr`. -/
def XAieGbl_Read32 (regs : RegFile) (Addr : Nat) : Nat := regs Addr

/-- The effect of one backend call on the register file: the two register
writes change it, every other call leaves it as it is. -/
def applyCall (regs : RegFile) : Call → RegFile
  | .Write32 a v => XAieGbl_Write32 regs a v
  | .MaskWrite32 a m v => XAieGbl_MaskWrite32 regs a m v
  | _ => regs

/-- The register file after the calls of a trace, in order. -/
def applyCalls (regs : RegFile) (cs : List Call) : RegFile := cs.foldl applyCall regs

/-- The registers a DMA pause call targets: the pause register of row 0 of
every column when no location is given (lines 828-833), else the pause
register of the location (lines 835-838). -/
def dmaPauseTargets (DevInst : XAie_DevInst) (RegOff : Nat)
    (Loc : Option XAie_LocType) : List Nat :=
  match Loc with
  | none => (List.range DevInst.NumCols).map
      (fun C => (RegOff + DevInst.GetTileAddr 0 C) % 2 ^ 64)
  | some L => [(RegOff + DevInst.GetTileAddr L.Row L.Col) % 2 ^ 64]

/-! ## The performance counter routines of `xaie_perfcnt.c`

The routines read and write registers directly through `XAieGbl_Read32`,
`XAieGbl_Write32` and `XAieGbl_MaskWrite32`; they take and return the register
file.  The types and constants of the headers are not among the sources: the
structures below hold the fields the routines read. -/

/-- Header constant (`xaiegbl.h`), the third and fourth error codes after
`XAIE_ERR`. -/
abbrev XAIE_INVALID_ARGS : AieRC := 4
abbrev XAIE_INVALID_TILE : AieRC := 5

/-- Header constant: the value of `IsReady` of an initialised device instance. -/
abbrev XAIE_COMPONENT_IS_READY : Nat := 1

/-- Header constant: the first memory-module counter of `XAie_PerfCounters`;
the comment of lines 66-70 gives the memory-module counters the numbers 4 and 5. -/
abbrev XAIE_MEMPERFCOUNTER_0 : Nat := 4

/-- Header constant: the entry of `XAie_EventNumber` for an event a module does
not have. -/
abbrev XAIE_EVENT_INVALID : Nat := 255

namespace PerfCnt

/-- The fields of `XAie_PerfMod` the routines read. -/
structure XAie_PerfMod where
  MaxCounterVal : Nat
  StartStopShift : Nat
  ResetShift : Nat
  PerfCounterOffsetAdd : Nat
  PerfCtrlBaseAddr : Nat
  PerfCtrlOffsetAdd : Nat
  PerfCtrlResetBaseAddr : Nat
  PerfCounterBaseAddr : Nat
  PerfCounterEvtValBaseAddr : Nat
  Start : XAie_RegFldAttr
  Stop : XAie_RegFldAttr
  Reset : XAie_RegFldAttr

/-- The fields of `XAie_EvntMod` the routines read; `XAie_EventNumber` is the
array from module-relative event to hardware event number. -/
structure XAie_EvntMod where
  EventMin : Nat
  EventMax : Nat
  XAie_EventNumber : Nat → Nat

/-- Module descriptors of one tile type: `PerfMod[0]`, `PerfMod[1]`,
`EvntMod[0]`, `EvntMod[1]`. -/
structure XAie_TileMod where
  PerfMod : Nat → XAie_PerfMod
  EvntMod : Nat → XAie_EvntMod

/-- The fields of `XAie_DevInst` the routines read.  `GetTileTypefromLoc` and
`GetTileAddr` stand for the helpers `_XAie_GetTileTypefromLoc` and
`_XAie_GetTileAddr`, which are not among the sources. -/
structure XAie_DevInst where
  IsReady : Nat
  BaseAddr : Nat
  DevMod : Nat → XAie_TileMod
  GetTileTypefromLoc : XAie_LocType → Nat
  GetTileAddr : Nat → Nat → Nat

/-- Lines 45-90.  The result is a `u32`: an error code or the register content. -/
def XAie_PerfCounterGet (DevInst : Option XAie_DevInst) (Loc : XAie_LocType)
    (Counter : Nat) (regs : RegFile) : Nat :=
  match DevInst with
  | none => XAIE_INVALID_ARGS
  | some D =>
    if D.IsReady ≠ XAIE_COMPONENT_IS_READY then XAIE_INVALID_ARGS else
    let TileType := D.GetTileTypefromLoc Loc
    if TileType = XAIEGBL_TILE_TYPE_MAX then XAIE_INVALID_TILE else
    let PerfMod := if Counter ≥ XAIE_MEMPERFCOUNTER_0 then (D.DevMod TileType).PerfMod 1
      else (D.DevMod TileType).PerfMod 0
    let Counter := if Counter ≥ XAIE_MEMPERFCOUNTER_0 then Counter - XAIE_MEMPERFCOUNTER_0
      else Counter
    if Counter ≥ PerfMod.MaxCounterVal then XAIE_INVALID_ARGS else
    let CounterRegOffset :=
      (PerfMod.PerfCounterBaseAddr + Counter * PerfMod.PerfCounterOffsetAdd) % 2 ^ 32
    let CounterRegAddr :=
      (D.BaseAddr + D.GetTileAddr Loc.Row Loc.Col + CounterRegOffset) % 2 ^ 64
    XAieGbl_Read32 regs CounterRegAddr

/-- Lines 290-336. -/
def XAie_PerfCounterSet (DevInst : Option XAie_DevInst) (Loc : XAie_LocType)
    (Counter CounterVal : Nat) (regs : RegFile) : AieRC × RegFile :=
  match DevInst with
  | none => (XAIE_INVALID_ARGS, regs)
  | some D =>
    if D.IsReady ≠ XAIE_COMPONENT_IS_READY then (XAIE_INVALID_ARGS, regs) else
    let TileType := D.GetTileTypefromLoc Loc
    if TileType = XAIEGBL_TILE_TYPE_MAX then (XAIE_INVALID_TILE, regs) else
    let PerfMod := if Counter ≥ XAIE_MEMPERFCOUNTER_0 then (D.DevMod TileType).PerfMod 1
      else (D.DevMod TileType).PerfMod 0
    let Counter := if Counter ≥ XAIE_MEMPERFCOUNTER_0 then Counter - XAIE_MEMPERFCOUNTER_0
      else Counter
    if Counter ≥ PerfMod.MaxCounterVal then (XAIE_INVALID_ARGS, regs) else
    let CounterRegOffset :=
      (PerfMod.PerfCounterBaseAddr + Counter * PerfMod.PerfCounterOffsetAdd) % 2 ^ 32
    let CounterRegAddr :=
      (D.BaseAddr + D.GetTileAddr Loc.Row Loc.Col + CounterRegOffset) % 2 ^ 64
    (XAIE_OK, XAieGbl_Write32 regs CounterRegAddr CounterVal)

/-- Lines 349-395. -/
def XAie_PerfCounterEventValueSet (DevInst : Option XAie_DevInst) (Loc : XAie_LocType)
    (Counter EventVal : Nat) (regs : RegFile) : AieRC × RegFile :=
  match DevInst with
  | none => (XAIE_INVALID_ARGS, regs)
  | some D =>
    if D.IsReady ≠ XAIE_COMPONENT_IS_READY then (XAIE_INVALID_ARGS, regs) else
    let TileType := D.GetTileTypefromLoc Loc
    if TileType = XAIEGBL_TILE_TYPE_MAX then (XAIE_INVALID_TILE, regs) else
    let PerfMod := if Counter ≥ XAIE_MEMPERFCOUNTER_0 then (D.DevMod TileType).PerfMod 1
      else (D.DevMod TileType).PerfMod 0
    let Counter := if Counter ≥ XAIE_MEMPERFCOUNTER_0 then Counter - XAIE_MEMPERFCOUNTER_0
      else Counter
    if Counter ≥ PerfMod.MaxCounterVal then (XAIE_INVALID_ARGS, regs) else
    let CounterRegOffset :=
      (PerfMod.PerfCounterEvtValBaseAddr + Counter * PerfMod.PerfCounterOffsetAdd) % 2 ^ 32
    let CounterRegAddr :=
      (D.BaseAddr + D.GetTileAddr Loc.Row Loc.Col + CounterRegOffset) % 2 ^ 64
    (XAIE_OK, XAieGbl_Write32 regs CounterRegAddr EventVal)

end PerfCnt

namespace PerfCnt

/-- The performance module lines 65-76 select for a counter: `PerfMod[1]` of
the tile type for a counter from `XAIE_MEMPERFCOUNTER_0` on, else `PerfMod[0]`. -/
def selectedPerfMod (DevInst : XAie_DevInst) (Loc : XAie_LocType) (Counter : Nat) :
    XAie_PerfMod :=
  if Counter ≥ XAIE_MEMPERFCOUNTER_0 then
    (DevInst.DevMod (DevInst.GetTileTypefromLoc Loc)).PerfMod 1
  else (DevInst.DevMod (DevInst.GetTileTypefromLoc Loc)).PerfMod 0

/-- The module-relative counter of lines 71-76. -/
def relCounter (Counter : Nat) : Nat :=
  if Counter ≥ XAIE_MEMPERFCOUNTER_0 then Counter - XAIE_MEMPERFCOUNTER_0 else Counter

/-- The address of the counter register as lines 84-89 and 328-333 compute
it: a 32-bit offset, then a 64-bit sum. -/
def counterRegAddr (DevInst : XAie_DevInst) (Loc : XAie_LocType) (Counter : Nat) : Nat :=
  (DevInst.BaseAddr + DevInst.GetTileAddr Loc.Row Loc.Col +
    ((selectedPerfMod DevInst Loc Counter).PerfCounterBaseAddr +
      relCounter Counter * (selectedPerfMod DevInst Loc Counter).PerfCounterOffsetAdd)
      % 2 ^ 32) % 2 ^ 64

/-- Example core-module descriptor: four counters. -/
def exCorePerfMod : XAie_PerfMod :=
  { MaxCounterVal := 4, StartStopShift := 16, ResetShift := 8, PerfCounterOffsetAdd := 4,
    PerfCtrlBaseAddr := 0x31000, PerfCtrlOffsetAdd := 4, PerfCtrlResetBaseAddr := 0x31008,
    PerfCounterBaseAddr := 0x31020, PerfCounterEvtValBaseAddr := 0x31080,
    Start := ⟨0, 0x7F⟩, Stop := ⟨8, 0x7F00⟩, Reset := ⟨0, 0x7F⟩ }

/-- Example memory-module descriptor: two counters. -/
def exMemPerfMod : XAie_PerfMod :=
  { MaxCounterVal := 2, StartStopShift := 16, ResetShift := 8, PerfCounterOffsetAdd := 4,
    PerfCtrlBaseAddr := 0x11000, PerfCtrlOffsetAdd := 4, PerfCtrlResetBaseAddr := 0x11008,
    PerfCounterBaseAddr := 0x11020, PerfCounterEvtValBaseAddr := 0x11080,
    Start := ⟨0, 0x7F⟩, Stop := ⟨8, 0x7F00⟩, Reset := ⟨0, 0x7F⟩ }

/-- Example event module: events 0 to 127, mapped to themselves. -/
def exEvntMod : XAie_EvntMod := { EventMin := 0, EventMax := 127, XAie_EventNumber := id }

/-- Example ready device: six rows, row 0 the shim row, rows from 6 on outside
the array. -/
def exPerfDev : XAie_DevInst :=
  { IsReady := XAIE_COMPONENT_IS_READY, BaseAddr := 0x20000000000,
    DevMod := fun _ =>
      { PerfMod := fun k => if k = 1 then exMemPerfMod else exCorePerfMod,
        EvntMod := fun _ => exEvntMod },
    GetTileTypefromLoc := fun Loc =>
      if Loc.Row = 0 then XAIEGBL_TILE_TYPE_SHIMNOC
      else if Loc.Row < 6 then XAIEGBL_TILE_TYPE_AIETILE else XAIEGBL_TILE_TYPE_MAX,
    GetTileAddr := fun R C => (R <<< 20) ||| (C <<< 25) }

end PerfCnt

namespace PerfCnt

/-- Lines 105-187, in source order: device check, tile type check, module
selection, event range check, event mapping, counter check, then one masked
write.  The shifts and the offset are 32-bit. -/
def XAie_PerfCounterControlSet (DevInst : Option XAie_DevInst) (Loc : XAie_LocType)
    (Counter StartEvent StopEvent : Nat) (regs : RegFile) : AieRC × RegFile :=
  match DevInst with
  | none => (XAIE_INVALID_ARGS, regs)
  | some D =>
    if D.IsReady ≠ XAIE_COMPONENT_IS_READY then (XAIE_INVALID_ARGS, regs) else
    let TileType := D.GetTileTypefromLoc Loc
    if TileType = XAIEGBL_TILE_TYPE_MAX then (XAIE_INVALID_TILE, regs) else
    let PerfMod := if Counter ≥ XAIE_MEMPERFCOUNTER_0 then (D.DevMod TileType).PerfMod 1
      else (D.DevMod TileType).PerfMod 0
    let EvntMod := if Counter ≥ XAIE_MEMPERFCOUNTER_0 then (D.DevMod TileType).EvntMod 1
      else (D.DevMod TileType).EvntMod 0
    let Counter := if Counter ≥ XAIE_MEMPERFCOUNTER_0 then Counter - XAIE_MEMPERFCOUNTER_0
      else Counter
    if StartEvent < EvntMod.EventMin ∨ StartEvent > EvntMod.EventMax ∨
        StopEvent < EvntMod.EventMin ∨ StopEvent > EvntMod.EventMax then
      (XAIE_INVALID_ARGS, regs) else
    let StartEvent := StartEvent - EvntMod.EventMin
    let StopEvent := StopEvent - EvntMod.EventMin
    let IntStartEvent := EvntMod.XAie_EventNumber StartEvent
    let IntStopEvent := EvntMod.XAie_EventNumber StopEvent
    if IntStartEvent = XAIE_EVENT_INVALID ∨ IntStopEvent = XAIE_EVENT_INVALID then
      (XAIE_INVALID_ARGS, regs) else
    if Counter ≥ PerfMod.MaxCounterVal then (XAIE_INVALID_ARGS, regs) else
    let RegOffset :=
      (PerfMod.PerfCtrlBaseAddr + Counter / 2 * PerfMod.PerfCtrlOffsetAdd) % 2 ^ 32
    let FldMask := ((PerfMod.Start.Mask ||| PerfMod.Stop.Mask) <<<
      (PerfMod.StartStopShift * (Counter % 2))) % 2 ^ 32
    let FldVal :=
      XAie_SetField IntStartEvent
        (PerfMod.Start.Lsb + PerfMod.StartStopShift * (Counter % 2))
        ((PerfMod.Start.Mask <<< (PerfMod.StartStopShift * (Counter % 2))) % 2 ^ 32) |||
      XAie_SetField IntStopEvent
        (PerfMod.Stop.Lsb + PerfMod.StartStopShift * (Counter % 2))
        ((PerfMod.Stop.Mask <<< (PerfMod.StartStopShift * (Counter % 2))) % 2 ^ 32)
    let RegAddr := (D.BaseAddr + D.GetTileAddr Loc.Row Loc.Col + RegOffset) % 2 ^ 64
    (XAIE_OK, XAieGbl_MaskWrite32 regs RegAddr FldMask FldVal)

/-- Lines 202-276. -/
def XAie_PerfCounterResetControlSet (DevInst : Option XAie_DevInst) (Loc : XAie_LocType)
    (Counter ResetEvent : Nat) (regs : RegFile) : AieRC × RegFile :=
  match DevInst with
  | none => (XAIE_INVALID_ARGS, regs)
  | some D =>
    if D.IsReady ≠ XAIE_COMPONENT_IS_READY then (XAIE_INVALID_ARGS, regs) else
    let TileType := D.GetTileTypefromLoc Loc
    if TileType = XAIEGBL_TILE_TYPE_MAX then (XAIE_INVALID_TILE, regs) else
    let PerfMod := if Counter ≥ XAIE_MEMPERFCOUNTER_0 then (D.DevMod TileType).PerfMod 1
      else (D.DevMod TileType).PerfMod 0
    let EvntMod := if Counter ≥ XAIE_MEMPERFCOUNTER_0 then (D.DevMod TileType).EvntMod 1
      else (D.DevMod TileType).EvntMod 0
    let Counter := if Counter ≥ XAIE_MEMPERFCOUNTER_0 then Counter - XAIE_MEMPERFCOUNTER_0
      else Counter
    if ResetEvent < EvntMod.EventMin ∨ ResetEvent > EvntMod.EventMax then
      (XAIE_INVALID_ARGS, regs) else
    let ResetEvent := ResetEvent - EvntMod.EventMin
    let IntResetEvent := EvntMod.XAie_EventNumber ResetEvent
    if IntResetEvent = XAIE_EVENT_INVALID then (XAIE_INVALID_ARGS, regs) else
    if Counter ≥ PerfMod.MaxCounterVal then (XAIE_INVALID_ARGS, regs) else
    let ResetRegOffset := PerfMod.PerfCtrlResetBaseAddr
    let ResetFldMask := (PerfMod.Reset.Mask <<< (PerfMod.ResetShift * Counter)) % 2 ^ 32
    let ResetFldVal :=
      XAie_SetField IntResetEvent (PerfMod.Reset.Lsb + PerfMod.ResetShift * Counter)
        ((PerfMod.Reset.Mask <<< (PerfMod.ResetShift * Counter)) % 2 ^ 32)
    let ResetRegAddr :=
      (D.BaseAddr + D.GetTileAddr Loc.Row Loc.Col + ResetRegOffset) % 2 ^ 64
    (XAIE_OK, XAieGbl_MaskWrite32 regs ResetRegAddr ResetFldMask ResetFldVal)

/-- The event module lines 127-138 select for a counter: `EvntMod[1]` of the
tile type for a counter from `XAIE_MEMPERFCOUNTER_0` on, else `EvntMod[0]`. -/
def selectedEvntMod (DevInst : XAie_DevInst) (Loc : XAie_LocType) (Counter : Nat) :
    XAie_EvntMod :=
  if Counter ≥ XAIE_MEMPERFCOUNTER_0 then
    (DevInst.DevMod (DevInst.GetTileTypefromLoc Loc)).EvntMod 1
  else (DevInst.DevMod (DevInst.GetTileTypefromLoc Loc)).EvntMod 0

/-- The hardware event number of an event of the selected event module
(lines 147-152). -/
def intEvent (DevInst : XAie_DevInst) (Loc : XAie_LocType) (Counter Event : Nat) : Nat :=
  (selectedEvntMod DevInst Loc Counter).XAie_EventNumber
    (Event - (selectedEvntMod DevInst Loc Counter).EventMin)

/-- The shift of lines 173-181: `StartStopShift` for an odd module-relative
counter, 0 for an even one. -/
def ctrlShift (DevInst : XAie_DevInst) (Loc : XAie_LocType) (Counter : Nat) : Nat :=
  (selectedPerfMod DevInst Loc Counter).StartStopShift * (relCounter Counter % 2)

/-- The 32-bit register offset of lines 168-169. -/
def ctrlRegOffset (DevInst : XAie_DevInst) (Loc : XAie_LocType) (Counter : Nat) : Nat :=
  ((selectedPerfMod DevInst Loc Counter).PerfCtrlBaseAddr +
    relCounter Counter / 2 * (selectedPerfMod DevInst Loc Counter).PerfCtrlOffsetAdd) % 2 ^ 32

/-- The address of the control register (lines 183-185). -/
def ctrlRegAddr (DevInst : XAie_DevInst) (Loc : XAie_LocType) (Counter : Nat) : Nat :=
  (DevInst.BaseAddr + DevInst.GetTileAddr Loc.Row Loc.Col +
    ctrlRegOffset DevInst Loc Counter) % 2 ^ 64

/-- The mask of lines 171-173. -/
def ctrlFldMask (DevInst : XAie_DevInst) (Loc : XAie_LocType) (Counter : Nat) : Nat :=
  (((selectedPerfMod DevInst Loc Counter).Start.Mask |||
      (selectedPerfMod DevInst Loc Counter).Stop.Mask) <<<
    ctrlShift DevInst Loc Counter) % 2 ^ 32

/-- The value of lines 175-181. -/
def ctrlFldVal (DevInst : XAie_DevInst) (Loc : XAie_LocType)
    (Counter StartEvent StopEvent : Nat) : Nat :=
  XAie_SetField (intEvent DevInst Loc Counter StartEvent)
    ((selectedPerfMod DevInst Loc Counter).Start.Lsb + ctrlShift DevInst Loc Counter)
    (((selectedPerfMod DevInst Loc Counter).Start.Mask <<< ctrlShift DevInst Loc Counter)
      % 2 ^ 32) |||
  XAie_SetField (intEvent DevInst Loc Counter StopEvent)
    ((selectedPerfMod DevInst Loc Counter).Stop.Lsb + ctrlShift DevInst Loc Counter)
    (((selectedPerfMod DevInst Loc Counter).Stop.Mask <<< ctrlShift DevInst Loc Counter)
      % 2 ^ 32)

/-- The events pass the checks of lines 140-160: both lie in the range of the
selected event module and neither maps to `XAIE_EVENT_INVALID`. -/
def eventsAccepted (DevInst : XAie_DevInst) (Loc : XAie_LocType)
    (Counter StartEvent StopEvent : Nat) : Prop :=
  ((selectedEvntMod DevInst Loc Counter).EventMin ≤ StartEvent ∧
    StartEvent ≤ (selectedEvntMod DevInst Loc Counter).EventMax ∧
    (selectedEvntMod DevInst Loc Counter).EventMin ≤ StopEvent ∧
    StopEvent ≤ (selectedEvntMod DevInst Loc Counter).EventMax) ∧
  intEvent DevInst Loc Counter StartEvent ≠ XAIE_EVENT_INVALID ∧
  intEvent DevInst Loc Counter StopEvent ≠ XAIE_EVENT_INVALID

end PerfCnt

namespace PerfCnt

/-- The address of the event-value register (lines 387-392). -/
def evtValRegAddr (DevInst : XAie_DevInst) (Loc : XAie_LocType) (Counter : Nat) : Nat :=
  (DevInst.BaseAddr + DevInst.GetTileAddr Loc.Row Loc.Col +
    ((selectedPerfMod DevInst Loc Counter).PerfCounterEvtValBaseAddr +
      relCounter Counter * (selectedPerfMod DevInst Loc Counter).PerfCounterOffsetAdd)
      % 2 ^ 32) % 2 ^ 64

/-- The address of the reset-control register (lines 259, 270-271). -/
def resetRegAddr (DevInst : XAie_DevInst) (Loc : XAie_LocType) (Counter : Nat) : Nat :=
  (DevInst.BaseAddr + DevInst.GetTileAddr Loc.Row Loc.Col +
    (selectedPerfMod DevInst Loc Counter).PerfCtrlResetBaseAddr) % 2 ^ 64

/-- The mask of lines 262-263. -/
def resetFldMask (DevInst : XAie_DevInst) (Loc : XAie_LocType) (Counter : Nat) : Nat :=
  ((selectedPerfMod DevInst Loc Counter).Reset.Mask <<<
    ((selectedPerfMod DevInst Loc Counter).ResetShift * relCounter Counter)) % 2 ^ 32

/-- The value of lines 265-267. -/
def resetFldVal (DevInst : XAie_DevInst) (Loc : XAie_LocType)
    (Counter ResetEvent : Nat) : Nat :=
  XAie_SetField (intEvent DevInst Loc Counter ResetEvent)
    ((selectedPerfMod DevInst Loc Counter).Reset.Lsb +
      (selectedPerfMod DevInst Loc Counter).ResetShift * relCounter Counter)
    (((selectedPerfMod DevInst Loc Counter).Reset.Mask <<<
      ((selectedPerfMod DevInst Loc Counter).ResetShift * relCounter Counter)) % 2 ^ 32)

/-- The device whose module index 0 holds the descriptors `DevInst` has at
module index 1: on it counter `n` below `XAIE_MEMPERFCOUNTER_0` is counter `n`
of the memory module of `DevInst`. -/
def onMemModule (DevInst : XAie_DevInst) : XAie_DevInst :=
  { DevInst with
    DevMod := fun t =>
      { PerfMod := fun _ => (DevInst.DevMod t).PerfMod 1,
        EvntMod := fun _ => (DevInst.DevMod t).EvntMod 1 } }

end PerfCnt

/-! ## Basic facts about issuing calls -/

@[simp] theorem World.extend_trace (w : World) (cs : List Call) :
    (w.extend cs).trace = w.trace ++ cs := rfl

@[simp] theorem World.extend_tiles (w : World) (cs : List Call) :
    (w.extend cs).TilesInUse = w.TilesInUse := rfl

@[simp] theorem World.extend_nil (w : World) : w.extend [] = w := by
  cases w; simp [World.extend]

@[simp] theorem World.extend_extend (w : World) (as bs : List Call) :
    (w.extend as).extend bs = w.extend (as ++ bs) := by
  simp [World.extend, List.append_assoc]

theorem doCall_eq (env : Env) (c : Call) (w : World) :
    doCall env c w = (env w.trace c, w.extend [c]) := rfl

@[simp] theorem callsSince_extend (w : World) (cs : List Call) :
    callsSince w (w.extend cs) = cs := by
  simp [callsSince]

theorem runCalls_append (env : Env) (as bs : List Call) (w : World) :
    runCalls env (as ++ bs) w =
      if (runCalls env as w).1 ≠ XAIE_OK then runCalls env as w
      else runCalls env bs (runCalls env as w).2 := by
  induction as generalizing w with
  | nil => simp [runCalls]
  | cons a as ih =>
    simp only [List.cons_append, runCalls]
    by_cases h : (doCall env a w).1 = XAIE_OK
    · simp [h, ih]
    · simp [h]

theorem runCalls_of_allOk (env : Env) (cs : List Call) (w : World)
    (h : allOk env w.trace cs = true) :
    runCalls env cs w = (XAIE_OK, w.extend cs) := by
  induction cs generalizing w with
  | nil => simp [runCalls]
  | cons c cs ih =>
    simp only [allOk, Bool.and_eq_true, beq_iff_eq] at h
    have h2 := ih (w.extend [c]) (by simpa using h.2)
    simp [runCalls, doCall_eq, h.1, h2]

theorem runCalls_first_fail (env : Env) (p : List Call) (c : Call) (rest : List Call)
    (w : World) (hp : allOk env w.trace p = true)
    (hc : env (w.trace ++ p) c ≠ XAIE_OK) :
    runCalls env (p ++ c :: rest) w = (env (w.trace ++ p) c, w.extend (p ++ [c])) := by
  rw [runCalls_append, runCalls_of_allOk env p w hp]
  simp [runCalls, doCall_eq, hc]

theorem allOk_nil (env : Env) (hist : List Call) : allOk env hist [] = true := rfl

theorem allOk_cons (env : Env) (hist : List Call) (c : Call) (cs : List Call) :
    allOk env hist (c :: cs) = (env hist c == XAIE_OK && allOk env (hist ++ [c]) cs) := rfl

theorem allOk_append (env : Env) (hist as bs : List Call) :
    allOk env hist (as ++ bs) = (allOk env hist as && allOk env (hist ++ as) bs) := by
  induction as generalizing hist with
  | nil => simp [allOk]
  | cons a as ih => simp [allOk, ih, Bool.and_assoc]

/-- Every run of `runCalls` ends in one of two ways: all calls succeeded, or
the calls up to a first failing one were issued. -/
theorem runCalls_cases (env : Env) (cs : List Call) (w : World) :
    (allOk env w.trace cs = true ∧ runCalls env cs w = (XAIE_OK, w.extend cs)) ∨
    (∃ p c rest, cs = p ++ c :: rest ∧ allOk env w.trace p = true ∧
      env (w.trace ++ p) c ≠ XAIE_OK ∧
      runCalls env cs w = (env (w.trace ++ p) c, w.extend (p ++ [c]))) := by
  induction cs generalizing w with
  | nil => left; simp [allOk, runCalls]
  | cons c cs ih =>
    by_cases h : env w.trace c = XAIE_OK
    · rcases ih (w.extend [c]) with ⟨h1, h2⟩ | ⟨p, c', rest, h1, h2, h3, h4⟩
      · left
        have h1' : allOk env (w.trace ++ [c]) cs = true := by simpa using h1
        refine ⟨by simp [allOk, h, h1'], ?_⟩
        simp [runCalls, doCall_eq, h, h2]
      · right
        have h2' : allOk env (w.trace ++ [c]) p = true := by simpa using h2
        have h3' : env (w.trace ++ c :: p) c' ≠ XAIE_OK := by simpa using h3
        refine ⟨c :: p, c', rest, by simp [h1], by simp [allOk, h, h2'], by simpa using h3', ?_⟩
        simp only [runCalls, doCall_eq, h]
        simp only [ne_eq, not_true_eq_false, if_false]
        rw [h4]
        simp
    · right
      refine ⟨[], c, cs, by simp, by simp [allOk], by simpa using h, ?_⟩
      simp [runCalls, doCall_eq, h]

/-! ## The sequential routines as call lists -/

theorem setColReset_eq (env : Env) (D : XAie_DevInst) (C en : Nat) (w : World) :
    _XAie_PrivilegeSetColReset env D (XAie_TileLoc C 0) en w =
      doCall env (colResetCall D en C) w := rfl

theorem setPartColReset_loop_eq (env : Env) (D : XAie_DevInst) (en : Nat) (n C : Nat)
    (w : World) :
    _XAie_PrivilegeSetPartColReset.loop env D en n C XAIE_OK w =
      runCalls env ((List.range' C n).map (colResetCall D en)) w := by
  induction n generalizing C w with
  | zero => simp [_XAie_PrivilegeSetPartColReset.loop, runCalls]
  | succ n ih =>
    simp only [_XAie_PrivilegeSetPartColReset.loop, setColReset_eq, List.range'_succ,
      List.map_cons, runCalls]
    by_cases h : (doCall env (colResetCall D en C) w).1 = XAIE_OK
    · simp only [h, ne_eq, not_true_eq_false, if_false]
      exact ih (C + 1) _
    · simp [h]

theorem setPartColReset_eq (env : Env) (D : XAie_DevInst) (en : Nat) (w : World) :
    _XAie_PrivilegeSetPartColReset env D en w = runCalls env (colResetCalls D en) w := by
  simp [_XAie_PrivilegeSetPartColReset, colResetCalls, setPartColReset_loop_eq,
    List.range_eq_range']

theorem rstPartShims_eq (env : Env) (D : XAie_DevInst) (w : World) :
    _XAie_PrivilegeRstPartShims env D w = runCalls env shimResetCalls w := by
  simp only [_XAie_PrivilegeRstPartShims, shimResetCalls, runCalls]
  by_cases h1 : (doCall env (.SetPartColShimReset XAIE_ENABLE) w).1 = XAIE_OK
  · by_cases h2 : (doCall env (.NpiSetShimReset XAIE_ENABLE)
        (doCall env (.SetPartColShimReset XAIE_ENABLE) w).2).1 = XAIE_OK
    · by_cases h3 : (doCall env (.NpiSetShimReset XAIE_DISABLE)
          (doCall env (.NpiSetShimReset XAIE_ENABLE)
            (doCall env (.SetPartColShimReset XAIE_ENABLE) w).2).2).1 = XAIE_OK
      · by_cases h4 : (doCall env (.SetPartColShimReset XAIE_DISABLE)
            (doCall env (.NpiSetShimReset XAIE_DISABLE)
              (doCall env (.NpiSetShimReset XAIE_ENABLE)
                (doCall env (.SetPartColShimReset XAIE_ENABLE) w).2).2).2).1 = XAIE_OK
        · simp only [h1, h2, h3, h4, ne_eq, not_true_eq_false, if_false]
          exact Prod.ext h4 rfl
        · simp [h1, h2, h3, h4]
      · simp [h1, h2, h3]
    · simp [h1, h2]
  · simp [h1]

theorem pmSetPartitionClock_eq (env : Env) (D : XAie_DevInst) (en : Nat) (w : World) :
    _XAie_PmSetPartitionClock env D en w = runCalls env [.PmSetPartitionClock en] w := by
  simp only [_XAie_PmSetPartitionClock, runCalls]
  by_cases h : (doCall env (.PmSetPartitionClock en) w).1 = XAIE_OK
  · simp only [h, ne_eq, not_true_eq_false, if_false]
    exact Prod.ext h rfl
  · simp [h]

theorem doCall_eq_runCalls (env : Env) (c : Call) (w : World) :
    doCall env c w = runCalls env [c] w := by
  simp only [runCalls]
  by_cases h : (doCall env c w).1 = XAIE_OK
  · simp only [h, ne_eq, not_true_eq_false, if_false]
    exact Prod.ext h rfl
  · simp [h]

theorem seqThen_append (env : Env) (D : XAie_DevInst) (as bs : List Call)
    (k : World → AieRC × World) (w : World) :
    seqThen env D as (seqThen env D bs k) w = seqThen env D (as ++ bs) k w := by
  simp only [seqThen]
  rw [runCalls_append]
  by_cases h : (runCalls env as w).1 = XAIE_OK
  · simp [h]
  · simp [h]

/-- Teardown is: open; the body up to its first failing call; close. -/
theorem teardownPart_eq (env : Env) (D : XAie_DevInst) (w : World) :
    _XAie_PrivilegeTeardownPart env D w =
      if (doCall env (openCall D) w).1 ≠ XAIE_OK then doCall env (openCall D) w
      else seqThen env D (teardownBody D) (doCall env (closeCall D))
        (doCall env (openCall D) w).2 := by
  have h : ∀ w1, seqThen env D (teardownBody D) (doCall env (closeCall D)) w1 =
      seqThen env D [.PmSetPartitionClock XAIE_DISABLE]
        (seqThen env D (colResetCalls D XAIE_ENABLE)
          (seqThen env D [.PmSetPartitionClock XAIE_ENABLE]
            (seqThen env D (colResetCalls D XAIE_DISABLE)
              (seqThen env D shimResetCalls
                (seqThen env D [.SetPartColClockAfterRst XAIE_ENABLE]
                  (seqThen env D [.PartMemZeroInit]
                    (seqThen env D [.PmSetPartitionClock XAIE_DISABLE]
                      (doCall env (closeCall D))))))))) w1 := by
    intro w1
    simp only [seqThen_append, teardownBody, List.append_assoc, List.cons_append,
      List.nil_append]
  rw [h]
  simp only [_XAie_PrivilegeTeardownPart, _XAie_PrivilegeSetPartProtectedRegs,
    setPartColReset_eq, rstPartShims_eq, pmSetPartitionClock_eq]
  rw [doCall_eq_runCalls env (.SetPartColClockAfterRst XAIE_ENABLE),
    doCall_eq_runCalls env .PartMemZeroInit]
  rfl

/-- A guarded body followed by the window-close: the calls issued are a prefix
of the body and then the close. -/
theorem seqThen_close_calls (env : Env) (D : XAie_DevInst) (cs : List Call) (w : World) :
    ∃ q, q <+: cs ∧
      (seqThen env D cs (doCall env (closeCall D)) w).2 = w.extend (q ++ [closeCall D]) := by
  rcases runCalls_cases env cs w with ⟨_, h2⟩ | ⟨p, c, rest, h1, _, h3, h4⟩
  · refine ⟨cs, List.prefix_refl _, ?_⟩
    simp [seqThen, h2, doCall_eq]
  · refine ⟨p ++ [c], ?_, ?_⟩
    · rw [h1]
      exact ⟨rest, by simp⟩
    · simp [seqThen, h4, h3, closeAndReturn, _XAie_PrivilegeSetPartProtectedRegs, doCall_eq,
        closeCall]

theorem teardownBody_not_gate (D : XAie_DevInst) (c : Call) (hc : c ∈ teardownBody D) :
    isGate c = false := by
  simp only [teardownBody, colResetCalls, shimResetCalls, List.mem_append, List.mem_map,
    List.mem_cons, List.mem_singleton, List.not_mem_nil, or_false] at hc
  rcases hc with ((((h | ⟨_, _, h⟩) | h) | ⟨_, _, h⟩) | h | h | h | h) | h | h | h <;>
    subst h <;> rfl

theorem isClose_le_isGate (c : Call) (h : isGate c = false) : isClose c = false := by
  cases c <;> simp_all [isGate, isClose]

/-! ## Teardown -/

/-- C4.  Teardown (`_XAie_PrivilegeTeardownPart`): for every device and every
behaviour of the backend calls in which the window-open succeeds, the calls
issued contain exactly one window-close and it is the last call, whichever
intermediate step fails and when none fails. -/
theorem teardown_closes_once_and_last (env : Env) (D : XAie_DevInst) (w : World)
    (hOpen : env w.trace (openCall D) = XAIE_OK) :
    (callsSince w (_XAie_PrivilegeTeardownPart env D w).2).countP isClose = 1 ∧
    (callsSince w (_XAie_PrivilegeTeardownPart env D w).2).getLast? = some (closeCall D) ∧
    (callsSince w (_XAie_PrivilegeTeardownPart env D w).2).head? = some (openCall D) ∧
    (callsSince w (_XAie_PrivilegeTeardownPart env D w).2).countP isOpen = 1 := by
  obtain ⟨q, hq, hw⟩ := seqThen_close_calls env D (teardownBody D) (w.extend [openCall D])
  have hres : (_XAie_PrivilegeTeardownPart env D w).2 =
      w.extend (openCall D :: q ++ [closeCall D]) := by
    rw [teardownPart_eq]
    simp only [doCall_eq, hOpen, ne_eq, not_true_eq_false, if_false, hw]
    simp
  have hq0 : ∀ c ∈ q, isGate c = false := fun c hc =>
    teardownBody_not_gate D c (hq.subset hc)
  have hcl : q.countP isClose = 0 := by
    rw [List.countP_eq_zero]
    intro c hc
    simp [isClose_le_isGate c (hq0 c hc)]
  have hop : q.countP isOpen = 0 := by
    rw [List.countP_eq_zero]
    intro c hc
    have := hq0 c hc
    cases c <;> simp_all [isGate, isOpen]
  rw [hres, callsSince_extend]
  refine ⟨?_, ?_, ?_, ?_⟩
  · simp [List.countP_cons, List.countP_append, hcl, isClose, openCall, closeCall]
  · rw [show openCall D :: q ++ [closeCall D] = (openCall D :: q) ++ [closeCall D] from rfl,
      List.getLast?_concat]
  · simp
  · simp [List.countP_cons, List.countP_append, hop, isOpen, openCall, closeCall]

theorem teardown_closes_once_and_last_witness :
    envFailOn (.NpiSetShimReset XAIE_ENABLE) XAIE_ERR World.init.trace (openCall exDev2PS)
      = XAIE_OK ∧
    ((callsSince World.init (_XAie_PrivilegeTeardownPart
        (envFailOn (.NpiSetShimReset XAIE_ENABLE) XAIE_ERR) exDev2PS World.init).2).countP
        isClose = 1 ∧
     (callsSince World.init (_XAie_PrivilegeTeardownPart
        (envFailOn (.NpiSetShimReset XAIE_ENABLE) XAIE_ERR) exDev2PS World.init).2).getLast?
        = some (closeCall exDev2PS) ∧
     (callsSince World.init (_XAie_PrivilegeTeardownPart
        (envFailOn (.NpiSetShimReset XAIE_ENABLE) XAIE_ERR) exDev2PS World.init).2).head?
        = some (openCall exDev2PS) ∧
     (callsSince World.init (_XAie_PrivilegeTeardownPart
        (envFailOn (.NpiSetShimReset XAIE_ENABLE) XAIE_ERR) exDev2PS World.init).2).countP
        isOpen = 1) :=
  ⟨by decide, teardown_closes_once_and_last _ exDev2PS World.init (by decide)⟩

/-- C5.  Teardown: when the window-open succeeds, the calls `p` of the body
succeed and the next call `c` of the body fails, Teardown issues exactly
open, `p`, `c`, close — no later call of the body — and returns the code of `c`,
whatever the environment answers to the window-close. -/
theorem teardown_returns_first_error (env : Env) (D : XAie_DevInst) (w : World)
    (p : List Call) (c : Call) (rest : List Call)
    (hBody : teardownBody D = p ++ c :: rest)
    (hOpen : env w.trace (openCall D) = XAIE_OK)
    (hPre : allOk env (w.trace ++ [openCall D]) p = true)
    (hFail : env (w.trace ++ openCall D :: p) c ≠ XAIE_OK) :
    _XAie_PrivilegeTeardownPart env D w =
      (env (w.trace ++ openCall D :: p) c,
       w.extend (openCall D :: p ++ [c, closeCall D])) := by
  have hFail' : env ((w.extend [openCall D]).trace ++ p) c ≠ XAIE_OK := by
    simpa using hFail
  have hrun := runCalls_first_fail env p c rest (w.extend [openCall D]) hPre hFail'
  rw [teardownPart_eq, hBody]
  simp only [doCall_eq, hOpen, ne_eq, not_true_eq_false, if_false, seqThen, hrun]
  simp only [World.extend_trace, List.append_assoc, List.singleton_append] at hFail' ⊢
  simp [hFail', closeAndReturn, _XAie_PrivilegeSetPartProtectedRegs, doCall_eq, closeCall]

/-- The scenario of the specification: the NPI shim-reset assert fails with
`XAIE_ERR`, and so does every window-close (with another code). -/
theorem teardown_returns_first_error_witness :
    _XAie_PrivilegeTeardownPart
        (envFailOnAndClose (.NpiSetShimReset XAIE_ENABLE) XAIE_ERR 9) exDev2PS World.init =
      (XAIE_ERR,
       World.init.extend (openCall exDev2PS ::
         ([Call.PmSetPartitionClock XAIE_DISABLE] ++ colResetCalls exDev2PS XAIE_ENABLE ++
          [Call.PmSetPartitionClock XAIE_ENABLE] ++ colResetCalls exDev2PS XAIE_DISABLE ++
          [Call.SetPartColShimReset XAIE_ENABLE]) ++
         [Call.NpiSetShimReset XAIE_ENABLE, closeCall exDev2PS])) :=
  teardown_returns_first_error
    (envFailOnAndClose (.NpiSetShimReset XAIE_ENABLE) XAIE_ERR 9) exDev2PS World.init
    ([Call.PmSetPartitionClock XAIE_DISABLE] ++ colResetCalls exDev2PS XAIE_ENABLE ++
      [Call.PmSetPartitionClock XAIE_ENABLE] ++ colResetCalls exDev2PS XAIE_DISABLE ++
      [Call.SetPartColShimReset XAIE_ENABLE])
    (Call.NpiSetShimReset XAIE_ENABLE)
    [Call.NpiSetShimReset XAIE_DISABLE, Call.SetPartColShimReset XAIE_DISABLE,
     Call.SetPartColClockAfterRst XAIE_ENABLE, Call.PartMemZeroInit,
     Call.PmSetPartitionClock XAIE_DISABLE]
    (by decide) (by decide) (by decide) (by decide)

/-- C7.  Teardown: when every call of the sequence succeeds, the calls issued
are exactly: window-open; partition clock disable; column-reset assert on
columns `0 .. NumCols-1`; partition clock enable; column-reset de-assert on
columns `0 .. NumCols-1`; the four shim-reset calls; `SetPartColClockAfterRst`
(enable); `PartMemZeroInit`; partition clock disable; window-close — and the
result is `XAIE_OK`. -/
theorem teardown_success_trace (env : Env) (D : XAie_DevInst) (w : World)
    (hOk : allOk env w.trace (openCall D :: teardownBody D ++ [closeCall D]) = true) :
    _XAie_PrivilegeTeardownPart env D w =
      (XAIE_OK,
       w.extend (
        [Call.NpiSetProtectedRegEnable D.NumCols XAIE_ENABLE] ++
        [Call.PmSetPartitionClock XAIE_DISABLE] ++
        (List.range D.NumCols).map (colResetCall D XAIE_ENABLE) ++
        [Call.PmSetPartitionClock XAIE_ENABLE] ++
        (List.range D.NumCols).map (colResetCall D XAIE_DISABLE) ++
        [Call.SetPartColShimReset XAIE_ENABLE, Call.NpiSetShimReset XAIE_ENABLE,
         Call.NpiSetShimReset XAIE_DISABLE, Call.SetPartColShimReset XAIE_DISABLE] ++
        [Call.SetPartColClockAfterRst XAIE_ENABLE] ++
        [Call.PartMemZeroInit] ++
        [Call.PmSetPartitionClock XAIE_DISABLE] ++
        [Call.NpiSetProtectedRegEnable D.NumCols XAIE_DISABLE])) := by
  rw [allOk_append, allOk_cons, allOk_cons, allOk_nil] at hOk
  simp only [Bool.and_eq_true, beq_iff_eq, and_true] at hOk
  obtain ⟨⟨hOpen, hBody⟩, hClose⟩ := hOk
  have hrun := runCalls_of_allOk env (teardownBody D) (w.extend [openCall D]) hBody
  rw [teardownPart_eq]
  simp only [doCall_eq, hOpen, ne_eq, not_true_eq_false, if_false, seqThen, hrun]
  simp only [World.extend_trace, World.extend_extend]
  have hClose' : env (w.trace ++ ([openCall D] ++ teardownBody D)) (closeCall D) = XAIE_OK := by
    simpa using hClose
  rw [hClose']
  simp [teardownBody, colResetCalls, shimResetCalls, openCall, closeCall]

theorem teardown_success_trace_witness :
    _XAie_PrivilegeTeardownPart envOk exDev2PS World.init =
      (XAIE_OK,
       World.init.extend (
        [Call.NpiSetProtectedRegEnable 4 XAIE_ENABLE] ++
        [Call.PmSetPartitionClock XAIE_DISABLE] ++
        (List.range 4).map (colResetCall exDev2PS XAIE_ENABLE) ++
        [Call.PmSetPartitionClock XAIE_ENABLE] ++
        (List.range 4).map (colResetCall exDev2PS XAIE_DISABLE) ++
        [Call.SetPartColShimReset XAIE_ENABLE, Call.NpiSetShimReset XAIE_ENABLE,
         Call.NpiSetShimReset XAIE_DISABLE, Call.SetPartColShimReset XAIE_DISABLE] ++
        [Call.SetPartColClockAfterRst XAIE_ENABLE] ++
        [Call.PartMemZeroInit] ++
        [Call.PmSetPartitionClock XAIE_DISABLE] ++
        [Call.NpiSetProtectedRegEnable 4 XAIE_DISABLE])) :=
  teardown_success_trace envOk exDev2PS World.init (by decide)

/-! ## Column reset and shim reset -/

theorem range_split (n k : Nat) (hk : k < n) :
    ∃ rest, List.range n = List.range k ++ k :: rest := by
  induction n with
  | zero => omega
  | succ m ih =>
    rw [List.range_succ]
    by_cases h : k = m
    · subst h
      exact ⟨[], rfl⟩
    · obtain ⟨rest, hrest⟩ := ih (by omega)
      exact ⟨rest ++ [m], by rw [hrest]; simp⟩

/-- C9.  Partition column reset (`_XAie_PrivilegeSetPartColReset`): the write
for column `C` targets row 0 of column `C`; the columns are written in
ascending order; when the write for column `k` is the first to fail, exactly
the `k + 1` writes for columns `0 .. k` are made and the code of that write is
returned; when none fails, exactly `NumCols` writes are made and `XAIE_OK` is
returned (also for `NumCols = 0`). -/
theorem setPartColReset_ascending_first_failure (env : Env) (D : XAie_DevInst)
    (RstEnable : Nat) (w : World) :
    (∀ C, colResetCall D RstEnable C =
      Call.Write32
        (((D.DevProp.DevMod (D.GetTTypefromLoc (XAie_TileLoc C 0))).PlIfMod.ColRstOff +
          D.GetTileAddr 0 C) % 2 ^ 64)
        (XAie_SetField RstEnable
          (D.DevProp.DevMod (D.GetTTypefromLoc (XAie_TileLoc C 0))).PlIfMod.ColRst.Lsb
          (D.DevProp.DevMod (D.GetTTypefromLoc (XAie_TileLoc C 0))).PlIfMod.ColRst.Mask)) ∧
    (∀ k, k < D.NumCols →
      allOk env w.trace ((List.range k).map (colResetCall D RstEnable)) = true →
      env (w.trace ++ (List.range k).map (colResetCall D RstEnable))
        (colResetCall D RstEnable k) ≠ XAIE_OK →
      _XAie_PrivilegeSetPartColReset env D RstEnable w =
        (env (w.trace ++ (List.range k).map (colResetCall D RstEnable))
            (colResetCall D RstEnable k),
         w.extend ((List.range (k + 1)).map (colResetCall D RstEnable)))) ∧
    (allOk env w.trace ((List.range D.NumCols).map (colResetCall D RstEnable)) = true →
      _XAie_PrivilegeSetPartColReset env D RstEnable w =
        (XAIE_OK, w.extend ((List.range D.NumCols).map (colResetCall D RstEnable)))) := by
  refine ⟨fun C => rfl, ?_, ?_⟩
  · intro k hk hpre hfail
    obtain ⟨rest, hrest⟩ := range_split D.NumCols k hk
    rw [setPartColReset_eq, colResetCalls, hrest, List.map_append, List.map_cons,
      runCalls_first_fail env _ _ _ w hpre hfail, List.range_succ, List.map_append]
    rfl
  · intro hall
    rw [setPartColReset_eq, colResetCalls, runCalls_of_allOk env _ w hall]

/-- On the example device the write for column 2 fails: columns 0, 1 and 2 are
written, column 3 is not. -/
theorem setPartColReset_ascending_first_failure_witness :
    _XAie_PrivilegeSetPartColReset
        (envFailOn (colResetCall exDev2PS XAIE_ENABLE 2) XAIE_ERR) exDev2PS XAIE_ENABLE
        World.init =
      (XAIE_ERR, World.init.extend [colResetCall exDev2PS XAIE_ENABLE 0,
        colResetCall exDev2PS XAIE_ENABLE 1, colResetCall exDev2PS XAIE_ENABLE 2]) :=
  (setPartColReset_ascending_first_failure
      (envFailOn (colResetCall exDev2PS XAIE_ENABLE 2) XAIE_ERR) exDev2PS XAIE_ENABLE
      World.init).2.1 2 (by decide) (by decide) (by decide)

/-- C10.  Shim reset (`_XAie_PrivilegeRstPartShims`): the calls are made in the
order `SetPartColShimReset(enable)`, `NpiSetShimReset(enable)`,
`NpiSetShimReset(disable)`, `SetPartColShimReset(disable)`; the calls issued are
this sequence up to and including the first failing call, and the result is
the code of that call, or the code of the fourth call when the first three
succeed. -/
theorem rstPartShims_prefix_to_first_failure (env : Env) (D : XAie_DevInst) (w : World) :
    _XAie_PrivilegeRstPartShims env D w =
      if env w.trace (.SetPartColShimReset XAIE_ENABLE) ≠ XAIE_OK then
        (env w.trace (.SetPartColShimReset XAIE_ENABLE),
         w.extend [.SetPartColShimReset XAIE_ENABLE])
      else if env (w.trace ++ [.SetPartColShimReset XAIE_ENABLE])
          (.NpiSetShimReset XAIE_ENABLE) ≠ XAIE_OK then
        (env (w.trace ++ [.SetPartColShimReset XAIE_ENABLE]) (.NpiSetShimReset XAIE_ENABLE),
         w.extend [.SetPartColShimReset XAIE_ENABLE, .NpiSetShimReset XAIE_ENABLE])
      else if env (w.trace ++ [.SetPartColShimReset XAIE_ENABLE, .NpiSetShimReset XAIE_ENABLE])
          (.NpiSetShimReset XAIE_DISABLE) ≠ XAIE_OK then
        (env (w.trace ++ [.SetPartColShimReset XAIE_ENABLE, .NpiSetShimReset XAIE_ENABLE])
            (.NpiSetShimReset XAIE_DISABLE),
         w.extend [.SetPartColShimReset XAIE_ENABLE, .NpiSetShimReset XAIE_ENABLE,
           .NpiSetShimReset XAIE_DISABLE])
      else
        (env (w.trace ++ [.SetPartColShimReset XAIE_ENABLE, .NpiSetShimReset XAIE_ENABLE,
              .NpiSetShimReset XAIE_DISABLE]) (.SetPartColShimReset XAIE_DISABLE),
         w.extend [.SetPartColShimReset XAIE_ENABLE, .NpiSetShimReset XAIE_ENABLE,
           .NpiSetShimReset XAIE_DISABLE, .SetPartColShimReset XAIE_DISABLE]) := by
  simp only [_XAie_PrivilegeRstPartShims, doCall_eq, World.extend_trace, World.extend_extend,
    List.append_assoc, List.singleton_append, List.cons_append, List.nil_append]

/-! ## A failing window-open -/

/-- C6.  For each gated operation — Initialize, Teardown, RequestTiles and
SetColumnClock on a device that is not Gen1, the NoC and UC DMA pause with a
device, a module descriptor and a channel and direction the routine accepts,
and SetAxiMMIsolation — when the window-open call fails with code `e`, the
operation returns `e` and the only call it issues is that open: no
window-close, no other backend call, no register write. -/
theorem open_failure_returns_without_close (env : Env) (D : XAie_DevInst) (w : World)
    (hFail : env w.trace (openCall D) ≠ XAIE_OK) :
    (∀ Opts, _XAie_PrivilegeInitPart env D Opts w =
      (env w.trace (openCall D), w.extend [openCall D])) ∧
    _XAie_PrivilegeTeardownPart env D w =
      (env w.trace (openCall D), w.extend [openCall D]) ∧
    (D.DevProp.DevGen ≠ XAIE_DEV_GEN_AIE →
      ∀ Args, _XAie_PrivilegeRequestTiles env D Args w =
        (env w.trace (openCall D), w.extend [openCall D])) ∧
    (D.DevProp.DevGen ≠ XAIE_DEV_GEN_AIE →
      ∀ Args, _XAie_PrivilegeSetColumnClk env D Args w =
        (env w.trace (openCall D), w.extend [openCall D])) ∧
    (∀ Loc ChNum Dir Pause Uninit,
      (D.DevProp.DevMod XAIEGBL_TILE_TYPE_SHIMNOC).DmaMod ≠ none →
      (ChNum = 0 ∨ ChNum = 1) → (Dir = DMA_S2MM ∨ Dir = DMA_MM2S) →
      XAie_NocDmaPause env (some D) Loc ChNum Dir Pause Uninit w =
        (env w.trace (openCall D), w.extend [openCall D])) ∧
    (∀ Loc Dir Pause,
      (D.DevProp.DevMod XAIEGBL_TILE_TYPE_SHIMNOC).UcMod ≠ none →
      (Dir = XAIE_UC_MODULE__DMA_DIR__DM2MM ∨ Dir = XAIE_UC_MODULE__DMA_DIR__MM2DM) →
      XAie_UcDmaPause env (some D) Loc Dir Pause w =
        (env w.trace (openCall D), w.extend [openCall D])) ∧
    (∀ IsolationFlags, XAie_PrivilegeSetAxiMMIsolation env D IsolationFlags w =
      (env w.trace (openCall D), w.extend [openCall D])) := by
  have hFail' : env w.trace (Call.NpiSetProtectedRegEnable D.NumCols XAIE_ENABLE) ≠ XAIE_OK :=
    hFail
  refine ⟨?_, ?_, ?_, ?_, ?_, ?_, ?_⟩
  · intro Opts
    simp [_XAie_PrivilegeInitPart, _XAie_PrivilegeSetPartProtectedRegs, doCall_eq, hFail',
      openCall]
  · simp [_XAie_PrivilegeTeardownPart, _XAie_PrivilegeSetPartProtectedRegs, doCall_eq, hFail',
      openCall]
  · intro hGen Args
    simp [_XAie_PrivilegeRequestTiles, _XAie_PrivilegeSetPartProtectedRegs, doCall_eq, hFail',
      openCall, hGen]
  · intro hGen Args
    simp [_XAie_PrivilegeSetColumnClk, _XAie_PrivilegeSetPartProtectedRegs, doCall_eq, hFail',
      openCall, hGen]
  · intro Loc ChNum Dir Pause Uninit hMod hCh hDir
    cases hm : (D.DevProp.DevMod XAIEGBL_TILE_TYPE_SHIMNOC).DmaMod with
    | none => exact absurd hm hMod
    | some NocDma =>
      rcases hCh with rfl | rfl <;> rcases hDir with rfl | rfl <;>
        simp [XAie_NocDmaPause, XAie_NocDmaPause.select, hm,
          _XAie_PrivilegeSetPartProtectedRegs, doCall_eq, hFail', openCall]
  · intro Loc Dir Pause hMod hDir
    cases hm : (D.DevProp.DevMod XAIEGBL_TILE_TYPE_SHIMNOC).UcMod with
    | none => exact absurd hm hMod
    | some UcDma =>
      rcases hDir with rfl | rfl <;>
        simp [XAie_UcDmaPause, XAie_UcDmaPause.select, hm,
          _XAie_PrivilegeSetPartProtectedRegs, doCall_eq, hFail', openCall]
  · intro IsolationFlags
    simp [XAie_PrivilegeSetAxiMMIsolation, _XAie_PrivilegeSetPartProtectedRegs, doCall_eq,
      hFail', openCall]

/-- On the Gen2PS example device the window-open is refused with code 7. -/
theorem open_failure_returns_without_close_witness :
    (∀ Opts, _XAie_PrivilegeInitPart (envFailOn (openCall exDev2PS) 7) exDev2PS Opts World.init =
      (7, World.init.extend [openCall exDev2PS])) ∧
    _XAie_PrivilegeTeardownPart (envFailOn (openCall exDev2PS) 7) exDev2PS World.init =
      (7, World.init.extend [openCall exDev2PS]) ∧
    (∀ Args, _XAie_PrivilegeRequestTiles (envFailOn (openCall exDev2PS) 7) exDev2PS Args
        World.init = (7, World.init.extend [openCall exDev2PS])) ∧
    (∀ Args, _XAie_PrivilegeSetColumnClk (envFailOn (openCall exDev2PS) 7) exDev2PS Args
        World.init = (7, World.init.extend [openCall exDev2PS])) ∧
    XAie_NocDmaPause (envFailOn (openCall exDev2PS) 7) (some exDev2PS) none 1 DMA_MM2S 1 ⟨0, 0⟩
        World.init = (7, World.init.extend [openCall exDev2PS]) ∧
    XAie_UcDmaPause (envFailOn (openCall exDev2PS) 7) (some exDev2PS) none
        XAIE_UC_MODULE__DMA_DIR__MM2DM 1 World.init =
      (7, World.init.extend [openCall exDev2PS]) ∧
    XAie_PrivilegeSetAxiMMIsolation (envFailOn (openCall exDev2PS) 7) exDev2PS 0xF World.init =
      (7, World.init.extend [openCall exDev2PS]) :=
  have h := open_failure_returns_without_close (envFailOn (openCall exDev2PS) 7) exDev2PS
    World.init (by decide)
  ⟨h.1, h.2.1, h.2.2.1 (by decide), h.2.2.2.1 (by decide),
   h.2.2.2.2.1 none 1 DMA_MM2S 1 ⟨0, 0⟩ (by decide) (Or.inr rfl) (Or.inr rfl),
   h.2.2.2.2.2.1 none XAIE_UC_MODULE__DMA_DIR__MM2DM 1 (by decide) (Or.inr rfl),
   h.2.2.2.2.2.2 0xF⟩

/-! ## Initialize: the loops and stages as call lists -/

theorem setL2ErrIrq_loop_eq (env : Env) (D : XAie_DevInst) (n C : Nat) (w : World) :
    _XAie_PrivilegeSetL2ErrIrq.loop env D n C w =
      runCalls env (((List.range' C n).filter
        (fun C => D.GetTTypefromLoc ⟨D.ShimRow, C⟩ = XAIEGBL_TILE_TYPE_SHIMNOC)).map
        (l2IrqCall D)) w := by
  induction n generalizing C w with
  | zero => simp [_XAie_PrivilegeSetL2ErrIrq.loop, runCalls]
  | succ n ih =>
    simp only [_XAie_PrivilegeSetL2ErrIrq.loop, List.range'_succ, List.filter_cons, XAie_TileLoc]
    by_cases ht : D.GetTTypefromLoc ⟨D.ShimRow, C⟩ = XAIEGBL_TILE_TYPE_SHIMNOC
    · simp only [ht, ne_eq, not_true_eq_false, if_false, decide_True, if_true, List.map_cons,
        runCalls]
      have hc : _XAie_PrivilegeSetL2IrqId env D ⟨D.ShimRow, C⟩ XAIE_ERROR_NPI_INTR_ID w =
          doCall env (l2IrqCall D C) w := rfl
      rw [hc]
      by_cases h : (doCall env (l2IrqCall D C) w).1 = XAIE_OK
      · simp only [h, ne_eq, not_true_eq_false, if_false]
        exact ih (C + 1) _
      · simp [h]
    · simp only [ht, ne_eq, not_false_eq_true, if_true, decide_False]
      exact ih (C + 1) w

theorem setL2ErrIrq_eq (env : Env) (D : XAie_DevInst) (w : World) :
    _XAie_PrivilegeSetL2ErrIrq env D w = runCalls env (l2IrqCalls D) w := by
  simp [_XAie_PrivilegeSetL2ErrIrq, l2IrqCalls, setL2ErrIrq_loop_eq, List.range_eq_range']

theorem setPartBlockAxiMmNsuErr_loop_eq (env : Env) (D : XAie_DevInst) (s d n C : Nat)
    (w : World) :
    _XAie_PrivilegeSetPartBlockAxiMmNsuErr.loop env D s d n C XAIE_OK w =
      runCalls env (((List.range' C n).filter
        (fun C => D.GetTTypefromLoc ⟨0, C⟩ = XAIEGBL_TILE_TYPE_SHIMNOC)).map
        (blockErrCall D s d)) w := by
  induction n generalizing C w with
  | zero => simp [_XAie_PrivilegeSetPartBlockAxiMmNsuErr.loop, runCalls]
  | succ n ih =>
    simp only [_XAie_PrivilegeSetPartBlockAxiMmNsuErr.loop, List.range'_succ, List.filter_cons,
      XAie_TileLoc]
    by_cases ht : D.GetTTypefromLoc ⟨0, C⟩ = XAIEGBL_TILE_TYPE_SHIMNOC
    · simp only [ht, ne_eq, not_true_eq_false, if_false, decide_True, if_true, List.map_cons,
        runCalls]
      have hc : _XAie_PrivilegeSetBlockAxiMmNsuErr env D ⟨0, C⟩ s d w =
          doCall env (blockErrCall D s d C) w := rfl
      rw [hc]
      by_cases h : (doCall env (blockErrCall D s d C) w).1 = XAIE_OK
      · simp only [h, ne_eq, not_true_eq_false, if_false]
        exact ih (C + 1) _
      · simp [h]
    · simp only [ht, ne_eq, not_false_eq_true, if_true, decide_False]
      exact ih (C + 1) w

theorem setPartBlockAxiMmNsuErr_eq (env : Env) (D : XAie_DevInst) (s d : Nat) (w : World) :
    _XAie_PrivilegeSetPartBlockAxiMmNsuErr env D s d w =
      runCalls env (blockErrCalls D s d) w := by
  simp [_XAie_PrivilegeSetPartBlockAxiMmNsuErr, blockErrCalls,
    setPartBlockAxiMmNsuErr_loop_eq, List.range_eq_range']

/-- With shim-NoC tiles at columns 0 and 1 of the shim row (or a start column
other than 0) the NMU-switch routine is its list of writes. -/
theorem setPartNmuSwitch_eq (env : Env) (D : XAie_DevInst) (w : World)
    (hT : D.StartCol = 0 →
      D.GetTTypefromLoc (XAie_TileLoc 0 D.ShimRow) = XAIEGBL_TILE_TYPE_SHIMNOC ∧
      D.GetTTypefromLoc (XAie_TileLoc 1 D.ShimRow) = XAIEGBL_TILE_TYPE_SHIMNOC) :
    _XAie_PrivilegeSetPartNmuSwitch env D w = runCalls env (nmuSwitchCalls D) w := by
  by_cases hs : D.StartCol = 0
  · obtain ⟨h0, h1⟩ := hT hs
    have e0 : ∀ w1, _XAie_PrivilegeSetNmuSwitch env D (XAie_TileLoc 0 D.ShimRow)
        XAIE_ENABLE XAIE_DISABLE w1 =
        doCall env (nmuSwitchCall D 0 XAIE_ENABLE XAIE_DISABLE) w1 := by
      intro w1
      simp only [_XAie_PrivilegeSetNmuSwitch, h0, ne_eq, not_true_eq_false, if_false]
      rfl
    have e1 : ∀ w1, _XAie_PrivilegeSetNmuSwitch env D (XAie_TileLoc 1 D.ShimRow)
        XAIE_DISABLE XAIE_ENABLE w1 =
        doCall env (nmuSwitchCall D 1 XAIE_DISABLE XAIE_ENABLE) w1 := by
      intro w1
      simp only [_XAie_PrivilegeSetNmuSwitch, h1, ne_eq, not_true_eq_false, if_false]
      rfl
    simp only [_XAie_PrivilegeSetPartNmuSwitch, nmuSwitchCalls, hs, ne_eq, not_true_eq_false,
      if_false, e0, e1, runCalls]
    by_cases ha : (doCall env (nmuSwitchCall D 0 XAIE_ENABLE XAIE_DISABLE) w).1 = XAIE_OK
    · by_cases hb : (doCall env (nmuSwitchCall D 1 XAIE_DISABLE XAIE_ENABLE)
          (doCall env (nmuSwitchCall D 0 XAIE_ENABLE XAIE_DISABLE) w).2).1 = XAIE_OK
      · simp only [ha, hb, ne_eq, not_true_eq_false, if_false]
        exact Prod.ext hb rfl
      · simp [ha, hb]
    · simp [ha]
  · simp [_XAie_PrivilegeSetPartNmuSwitch, nmuSwitchCalls, hs, runCalls]

theorem completesWith_step (env : Env) (A B : List Call) (f g : World → AieRC × World)
    (hf : ∀ w, runCalls env A w = (XAIE_OK, w.extend A) → f w = g (w.extend A))
    (hg : CompletesWith env g B) : CompletesWith env f (A ++ B) := by
  intro w h
  rw [allOk_append, Bool.and_eq_true] at h
  have hrun := runCalls_of_allOk env A w h.1
  rw [hf w hrun]
  have := hg (w.extend A) h.2
  simpa [List.append_assoc] using this

theorem completesWith_seqThen (env : Env) (D : XAie_DevInst) (A B : List Call)
    (g : World → AieRC × World) (hg : CompletesWith env g B) :
    CompletesWith env (seqThen env D A g) (A ++ B) := by
  refine completesWith_step env A B _ g ?_ hg
  intro w hrun
  simp [seqThen, hrun]

theorem completesWith_congr (env : Env) (f g : World → AieRC × World) (A B : List Call)
    (hfg : ∀ w, f w = g w) (hAB : A = B) (hg : CompletesWith env g B) :
    CompletesWith env f A := by
  subst hAB
  intro w h
  rw [hfg w]
  exact hg w h

theorem atGen1Workaround_completes (env : Env) (D : XAie_DevInst) :
    CompletesWith env (_XAie_PrivilegeInitPart.atGen1Workaround env D)
      (initGen1Calls D ++ [closeCall D]) := by
  intro w h
  by_cases hg : D.DevProp.DevGen = XAIE_DEV_GEN_AIE
  · simp only [initGen1Calls, hg, if_true, List.singleton_append, allOk_cons, allOk_nil,
      Bool.and_eq_true, beq_iff_eq, and_true] at h
    obtain ⟨h1, h2⟩ := h
    have h2' : env (w.trace ++ [Call.PmSetPartitionClock XAIE_DISABLE])
        (Call.NpiSetProtectedRegEnable D.NumCols XAIE_DISABLE) = XAIE_OK := h2
    simp [_XAie_PrivilegeInitPart.atGen1Workaround, initGen1Calls, hg,
      _XAie_PmSetPartitionClock, _XAie_PrivilegeSetPartProtectedRegs, doCall, h1, h2',
      closeCall]
  · simp only [initGen1Calls, hg, if_false, List.nil_append, allOk_cons, allOk_nil,
      Bool.and_eq_true, beq_iff_eq, and_true] at h
    have h' : env w.trace (Call.NpiSetProtectedRegEnable D.NumCols XAIE_DISABLE) = XAIE_OK := h
    simp [_XAie_PrivilegeInitPart.atGen1Workaround, initGen1Calls, hg,
      _XAie_PrivilegeSetPartProtectedRegs, doCall, h', closeCall]

theorem atRequestTiles_completes (env : Env) (D : XAie_DevInst)
    (Opts : Option XAie_PartInitOpts) :
    CompletesWith env (_XAie_PrivilegeInitPart.atRequestTiles env D Opts)
      (requestTilesCalls Opts ++ (initGen1Calls D ++ [closeCall D])) := by
  have hnext := atGen1Workaround_completes env D
  cases Opts with
  | none => simpa [requestTilesCalls, _XAie_PrivilegeInitPart.atRequestTiles] using hnext
  | some o =>
    by_cases hn : o.NumUseTiles > 0
    · have := completesWith_seqThen env D
        [Call.RunOpRequestTiles { NumTiles := o.NumUseTiles, Locs := o.Locs }] _ _ hnext
      refine completesWith_congr env _ _ _ _ ?_ ?_ this
      · intro w
        simp only [_XAie_PrivilegeInitPart.atRequestTiles, hn, if_true, seqThen,
          doCall_eq_runCalls]
      · simp [requestTilesCalls, hn]
    · refine completesWith_congr env _ _ _ _ ?_ ?_ hnext
      · intro w
        simp only [_XAie_PrivilegeInitPart.atRequestTiles, hn, if_false]
      · simp [requestTilesCalls, hn]

theorem atL2ErrIrq_completes (env : Env) (D : XAie_DevInst)
    (Opts : Option XAie_PartInitOpts) :
    CompletesWith env (_XAie_PrivilegeInitPart.atL2ErrIrq env D Opts)
      (l2IrqCalls D ++ (requestTilesCalls Opts ++ (initGen1Calls D ++ [closeCall D]))) := by
  refine completesWith_step env _ _ _ _ ?_ (atRequestTiles_completes env D Opts)
  intro w hrun
  simp [_XAie_PrivilegeInitPart.atL2ErrIrq, setL2ErrIrq_eq, hrun]

theorem atZeroize_completes (env : Env) (D : XAie_DevInst)
    (Opts : Option XAie_PartInitOpts) (F : Nat) :
    CompletesWith env (_XAie_PrivilegeInitPart.atZeroize env D Opts F)
      (initZeroizeCalls F ++ (l2IrqCalls D ++ (requestTilesCalls Opts ++
        (initGen1Calls D ++ [closeCall D])))) := by
  have hnext := atL2ErrIrq_completes env D Opts
  by_cases hf : F &&& XAIE_PART_INIT_OPT_ZEROIZEMEM ≠ 0
  · have := completesWith_seqThen env D [Call.PartMemZeroInit] _ _ hnext
    refine completesWith_congr env _ _ _ _ ?_ ?_ this
    · intro w
      simp only [_XAie_PrivilegeInitPart.atZeroize, if_pos hf, seqThen, doCall_eq_runCalls]
    · simp only [initZeroizeCalls, if_pos hf, List.append_assoc, List.cons_append,
        List.nil_append, List.singleton_append]
  · refine completesWith_congr env _ _ _ _ ?_ ?_ hnext
    · intro w
      simp only [_XAie_PrivilegeInitPart.atZeroize, if_neg hf]
    · simp only [initZeroizeCalls, if_neg hf, List.append_assoc, List.cons_append,
        List.nil_append, List.singleton_append]

theorem atIsolation_completes (env : Env) (D : XAie_DevInst)
    (Opts : Option XAie_PartInitOpts) (F : Nat) :
    CompletesWith env (_XAie_PrivilegeInitPart.atIsolation env D Opts F)
      ([initIsolationCall F] ++ (initZeroizeCalls F ++ (l2IrqCalls D ++
        (requestTilesCalls Opts ++ (initGen1Calls D ++ [closeCall D]))))) := by
  refine completesWith_step env _ _ _ _ ?_ (atZeroize_completes env D Opts F)
  intro w hrun
  by_cases hf : F &&& XAIE_PART_INIT_OPT_ISOLATE ≠ 0
  · simp only [initIsolationCall, if_pos hf] at hrun
    simp only [_XAie_PrivilegeInitPart.atIsolation, if_pos hf, doCall_eq_runCalls, hrun,
      initIsolationCall]
    simp
  · simp only [initIsolationCall, if_neg hf] at hrun
    simp only [_XAie_PrivilegeInitPart.atIsolation, if_neg hf, doCall_eq_runCalls, hrun,
      initIsolationCall]
    simp

theorem atColClock_completes (env : Env) (D : XAie_DevInst)
    (Opts : Option XAie_PartInitOpts) (F : Nat) :
    CompletesWith env (_XAie_PrivilegeInitPart.atColClock env D Opts F)
      ([Call.SetPartColClockAfterRst XAIE_ENABLE] ++ ([initIsolationCall F] ++
        (initZeroizeCalls F ++ (l2IrqCalls D ++
        (requestTilesCalls Opts ++ (initGen1Calls D ++ [closeCall D])))))) := by
  have := completesWith_seqThen env D [Call.SetPartColClockAfterRst XAIE_ENABLE] _ _
    (atIsolation_completes env D Opts F)
  refine completesWith_congr env _ _ _ _ ?_ rfl this
  intro w
  simp only [_XAie_PrivilegeInitPart.atColClock, seqThen, doCall_eq_runCalls]

theorem atBlockErr_completes (env : Env) (D : XAie_DevInst)
    (Opts : Option XAie_PartInitOpts) (F : Nat) :
    CompletesWith env (_XAie_PrivilegeInitPart.atBlockErr env D Opts F)
      (initBlockErrCalls D F ++ ([Call.SetPartColClockAfterRst XAIE_ENABLE] ++
        ([initIsolationCall F] ++ (initZeroizeCalls F ++ (l2IrqCalls D ++
        (requestTilesCalls Opts ++ (initGen1Calls D ++ [closeCall D]))))))) := by
  have hnext := atColClock_completes env D Opts F
  by_cases hf : F &&& XAIE_PART_INIT_OPT_BLOCK_NOCAXIMMERR ≠ 0
  · have := completesWith_seqThen env D (blockErrCalls D XAIE_ENABLE XAIE_ENABLE) _ _ hnext
    refine completesWith_congr env _ _ _ _ ?_ ?_ this
    · intro w
      simp only [_XAie_PrivilegeInitPart.atBlockErr, if_pos hf, seqThen,
        setPartBlockAxiMmNsuErr_eq]
    · simp only [initBlockErrCalls, if_pos hf, List.append_assoc, List.cons_append,
        List.nil_append, List.singleton_append]
  · refine completesWith_congr env _ _ _ _ ?_ ?_ hnext
    · intro w
      simp only [_XAie_PrivilegeInitPart.atBlockErr, if_neg hf]
    · simp only [initBlockErrCalls, if_neg hf, List.append_assoc, List.cons_append,
        List.nil_append, List.singleton_append]

theorem atShimRst_completes (env : Env) (D : XAie_DevInst)
    (Opts : Option XAie_PartInitOpts) (F : Nat)
    (hT : F &&& XAIE_PART_INIT_OPT_SHIM_RST ≠ 0 →
      D.DevProp.DevGen = XAIE_DEV_GEN_AIE2PS → D.StartCol = 0 →
      D.GetTTypefromLoc (XAie_TileLoc 0 D.ShimRow) = XAIEGBL_TILE_TYPE_SHIMNOC ∧
      D.GetTTypefromLoc (XAie_TileLoc 1 D.ShimRow) = XAIEGBL_TILE_TYPE_SHIMNOC) :
    CompletesWith env (_XAie_PrivilegeInitPart.atShimRst env D Opts F)
      (initShimRstCalls D F ++ (initBlockErrCalls D F ++
        ([Call.SetPartColClockAfterRst XAIE_ENABLE] ++
        ([initIsolationCall F] ++ (initZeroizeCalls F ++ (l2IrqCalls D ++
        (requestTilesCalls Opts ++ (initGen1Calls D ++ [closeCall D])))))))) := by
  have hnext := atBlockErr_completes env D Opts F
  by_cases hf : F &&& XAIE_PART_INIT_OPT_SHIM_RST ≠ 0
  · by_cases hg : D.DevProp.DevGen = XAIE_DEV_GEN_AIE2PS
    · have := completesWith_seqThen env D shimResetCalls _ _
        (completesWith_seqThen env D (nmuSwitchCalls D) _ _ hnext)
      refine completesWith_congr env _ _ _ _ ?_ ?_ this
      · intro w
        simp only [_XAie_PrivilegeInitPart.atShimRst, if_pos hf, if_pos hg, seqThen,
          rstPartShims_eq, setPartNmuSwitch_eq env D _ (hT hf hg)]
      · simp only [initShimRstCalls, if_pos hf, if_pos hg, List.append_assoc, List.cons_append,
        List.nil_append, List.singleton_append]
    · have := completesWith_seqThen env D shimResetCalls _ _ hnext
      refine completesWith_congr env _ _ _ _ ?_ ?_ this
      · intro w
        simp only [_XAie_PrivilegeInitPart.atShimRst, if_pos hf, if_neg hg, seqThen,
          rstPartShims_eq]
      · simp only [initShimRstCalls, if_pos hf, if_neg hg, List.append_assoc, List.cons_append,
        List.nil_append, List.singleton_append]
  · refine completesWith_congr env _ _ _ _ ?_ ?_ hnext
    · intro w
      simp only [_XAie_PrivilegeInitPart.atShimRst, if_neg hf]
    · simp only [initShimRstCalls, if_neg hf, List.append_assoc, List.cons_append,
        List.nil_append, List.singleton_append]

theorem atColumnRst_completes (env : Env) (D : XAie_DevInst)
    (Opts : Option XAie_PartInitOpts) (F : Nat)
    (hT : F &&& XAIE_PART_INIT_OPT_SHIM_RST ≠ 0 →
      D.DevProp.DevGen = XAIE_DEV_GEN_AIE2PS → D.StartCol = 0 →
      D.GetTTypefromLoc (XAie_TileLoc 0 D.ShimRow) = XAIEGBL_TILE_TYPE_SHIMNOC ∧
      D.GetTTypefromLoc (XAie_TileLoc 1 D.ShimRow) = XAIEGBL_TILE_TYPE_SHIMNOC) :
    CompletesWith env (_XAie_PrivilegeInitPart.atColumnRst env D Opts F)
      (initColumnRstCalls D F ++ (initShimRstCalls D F ++ (initBlockErrCalls D F ++
        ([Call.SetPartColClockAfterRst XAIE_ENABLE] ++
        ([initIsolationCall F] ++ (initZeroizeCalls F ++ (l2IrqCalls D ++
        (requestTilesCalls Opts ++ (initGen1Calls D ++ [closeCall D]))))))))) := by
  have hnext := atShimRst_completes env D Opts F hT
  by_cases hf : F &&& XAIE_PART_INIT_OPT_COLUMN_RST ≠ 0
  · have := completesWith_seqThen env D [Call.PmSetPartitionClock XAIE_DISABLE] _ _
      (completesWith_seqThen env D (colResetCalls D XAIE_ENABLE) _ _
        (completesWith_seqThen env D [Call.PmSetPartitionClock XAIE_ENABLE] _ _
          (completesWith_seqThen env D (colResetCalls D XAIE_DISABLE) _ _ hnext)))
    refine completesWith_congr env _ _ _ _ ?_ ?_ this
    · intro w
      simp only [_XAie_PrivilegeInitPart.atColumnRst, if_pos hf, seqThen,
        pmSetPartitionClock_eq, setPartColReset_eq]
    · simp only [initColumnRstCalls, if_pos hf, List.append_assoc, List.cons_append,
        List.nil_append, List.singleton_append]
  · refine completesWith_congr env _ _ _ _ ?_ ?_ hnext
    · intro w
      simp only [_XAie_PrivilegeInitPart.atColumnRst, if_neg hf]
    · simp only [initColumnRstCalls, if_neg hf, List.append_assoc, List.cons_append,
        List.nil_append, List.singleton_append]

theorem initBody_eq (D : XAie_DevInst) (Opts : Option XAie_PartInitOpts) :
    initBody D Opts =
      initColumnRstCalls D (optFlagsOf Opts) ++ (initShimRstCalls D (optFlagsOf Opts) ++
        (initBlockErrCalls D (optFlagsOf Opts) ++
        ([Call.SetPartColClockAfterRst XAIE_ENABLE] ++
        ([initIsolationCall (optFlagsOf Opts)] ++ (initZeroizeCalls (optFlagsOf Opts) ++
        (l2IrqCalls D ++ (requestTilesCalls Opts ++ initGen1Calls D))))))) := by
  simp only [initBody, initColumnRstCalls, initShimRstCalls, initBlockErrCalls,
    initIsolationCall, initZeroizeCalls, initGen1Calls, List.append_assoc]

/-! ## Initialize -/

/-- C8 (amended).  Initialize (`_XAie_PrivilegeInitPart`): provided the tiles
at columns 0 and 1 of the shim row are shim-NoC tiles whenever the NMU-switch
step applies to them (ShimReset set, Gen2PS, start column 0), and every call of
the sequence succeeds, the calls issued are exactly window-open, the reference
sequence `initBody` determined by the option flags and the generation, and
window-close, and the result is `XAIE_OK`. -/
theorem initPart_success_trace (env : Env) (D : XAie_DevInst)
    (Opts : Option XAie_PartInitOpts) (w : World)
    (hT : optFlagsOf Opts &&& XAIE_PART_INIT_OPT_SHIM_RST ≠ 0 →
      D.DevProp.DevGen = XAIE_DEV_GEN_AIE2PS → D.StartCol = 0 →
      D.GetTTypefromLoc (XAie_TileLoc 0 D.ShimRow) = XAIEGBL_TILE_TYPE_SHIMNOC ∧
      D.GetTTypefromLoc (XAie_TileLoc 1 D.ShimRow) = XAIEGBL_TILE_TYPE_SHIMNOC)
    (hOk : allOk env w.trace (openCall D :: initBody D Opts ++ [closeCall D]) = true) :
    (_XAie_PrivilegeInitPart env D Opts w).1 = XAIE_OK ∧
    callsSince w (_XAie_PrivilegeInitPart env D Opts w).2 =
      openCall D :: initBody D Opts ++ [closeCall D] := by
  rw [allOk_append, allOk_cons, Bool.and_eq_true, Bool.and_eq_true, beq_iff_eq] at hOk
  obtain ⟨⟨hOpen, hBody⟩, hClose⟩ := hOk
  have hOpen' : env w.trace (Call.NpiSetProtectedRegEnable D.NumCols XAIE_ENABLE) = XAIE_OK :=
    hOpen
  have hAll : allOk env (w.extend [openCall D]).trace (initBody D Opts ++ [closeCall D])
      = true := by
    rw [allOk_append, Bool.and_eq_true]
    refine ⟨hBody, ?_⟩
    simpa using hClose
  rw [initBody_eq] at hAll
  have h := atColumnRst_completes env D Opts (optFlagsOf Opts) hT (w.extend [openCall D])
    (by simpa [List.append_assoc] using hAll)
  have hrw : _XAie_PrivilegeInitPart env D Opts w =
      _XAie_PrivilegeInitPart.atColumnRst env D Opts (optFlagsOf Opts)
        (w.extend [openCall D]) := by
    simp [_XAie_PrivilegeInitPart, _XAie_PrivilegeSetPartProtectedRegs, doCall_eq, hOpen',
      openCall]
  rw [hrw]
  refine ⟨h.1, ?_⟩
  rw [callsSince, h.2, initBody_eq]
  simp [List.append_assoc]

/-- The scenario of the specification: Gen2PS, start column 0, four columns,
shim row 0, options ColumnReset, ShimReset, Isolate, every call succeeding. -/
theorem initPart_success_trace_witness :
    (_XAie_PrivilegeInitPart envOk exDev2PS (some exOptsScenario) World.init).1 = XAIE_OK ∧
    callsSince World.init
        (_XAie_PrivilegeInitPart envOk exDev2PS (some exOptsScenario) World.init).2 =
      [Call.NpiSetProtectedRegEnable 4 XAIE_ENABLE,
       Call.PmSetPartitionClock XAIE_DISABLE,
       Call.Write32 1048360 1, Call.Write32 34602792 1,
       Call.Write32 68157224 1, Call.Write32 101711656 1,
       Call.PmSetPartitionClock XAIE_ENABLE,
       Call.Write32 1048360 0, Call.Write32 34602792 0,
       Call.Write32 68157224 0, Call.Write32 101711656 0,
       Call.SetPartColShimReset XAIE_ENABLE, Call.NpiSetShimReset XAIE_ENABLE,
       Call.NpiSetShimReset XAIE_DISABLE, Call.SetPartColShimReset XAIE_DISABLE,
       Call.Write32 122928 1, Call.Write32 33677360 2,
       Call.SetPartColClockAfterRst XAIE_ENABLE,
       Call.SetPartIsolationAfterRst XAIE_INIT_ISOLATION,
       Call.Write32 86032 1, Call.Write32 33640464 1,
       Call.Write32 67194896 1, Call.Write32 100749328 1,
       Call.NpiSetProtectedRegEnable 4 XAIE_DISABLE] :=
  initPart_success_trace envOk exDev2PS (some exOptsScenario) World.init
    (by decide) (by decide)

/-- C8 as stated fails: on a Gen2PS device with start column 0 whose tile at
column 0 of the shim row is a shim-PL tile, with ShimReset set and every
backend call succeeding, Initialize returns `XAIE_ERR` after the shim reset;
`SetPartColClockAfterRst` and everything after it in the reference sequence is
never issued. -/
theorem initPart_success_trace_counterexample :
    allOk envOk World.init.trace
      (openCall exDevPlShim :: initBody exDevPlShim (some exOptsScenario) ++
        [closeCall exDevPlShim]) = true ∧
    (_XAie_PrivilegeInitPart envOk exDevPlShim (some exOptsScenario) World.init).1 = XAIE_ERR ∧
    callsSince World.init
        (_XAie_PrivilegeInitPart envOk exDevPlShim (some exOptsScenario) World.init).2 =
      [Call.NpiSetProtectedRegEnable 4 XAIE_ENABLE,
       Call.PmSetPartitionClock XAIE_DISABLE,
       Call.Write32 1048360 1, Call.Write32 34602792 1,
       Call.Write32 68157224 1, Call.Write32 101711656 1,
       Call.PmSetPartitionClock XAIE_ENABLE,
       Call.Write32 1048360 0, Call.Write32 34602792 0,
       Call.Write32 68157224 0, Call.Write32 101711656 0,
       Call.SetPartColShimReset XAIE_ENABLE, Call.NpiSetShimReset XAIE_ENABLE,
       Call.NpiSetShimReset XAIE_DISABLE, Call.SetPartColShimReset XAIE_DISABLE,
       Call.NpiSetProtectedRegEnable 4 XAIE_DISABLE] ∧
    callsSince World.init
        (_XAie_PrivilegeInitPart envOk exDevPlShim (some exOptsScenario) World.init).2 ≠
      openCall exDevPlShim :: initBody exDevPlShim (some exOptsScenario) ++
        [closeCall exDevPlShim] := by
  decide

/-- C1 fails on the code.  Scenario device and options.  When only the
isolation call fails, the window is closed twice; when only the first L2
interrupt-routing write fails, the routine returns the error and the window is
never closed. -/
theorem initPart_close_count_at_single_failures :
    envFailOn (.SetPartIsolationAfterRst XAIE_INIT_ISOLATION) XAIE_ERR World.init.trace
      (openCall exDev2PS) = XAIE_OK ∧
    (callsSince World.init
      (_XAie_PrivilegeInitPart (envFailOn (.SetPartIsolationAfterRst XAIE_INIT_ISOLATION) XAIE_ERR)
        exDev2PS (some exOptsScenario) World.init).2).countP isClose = 2 ∧
    envFailOn (l2IrqCall exDev2PS 0) XAIE_ERR World.init.trace (openCall exDev2PS) = XAIE_OK ∧
    (_XAie_PrivilegeInitPart (envFailOn (l2IrqCall exDev2PS 0) XAIE_ERR)
        exDev2PS (some exOptsScenario) World.init).1 = XAIE_ERR ∧
    (callsSince World.init
      (_XAie_PrivilegeInitPart (envFailOn (l2IrqCall exDev2PS 0) XAIE_ERR)
        exDev2PS (some exOptsScenario) World.init).2).countP isClose = 0 ∧
    (callsSince World.init
      (_XAie_PrivilegeInitPart (envFailOn (l2IrqCall exDev2PS 0) XAIE_ERR)
        exDev2PS (some exOptsScenario) World.init).2).getLast? = some (l2IrqCall exDev2PS 0) := by
  decide

/-- C2 fails on the code.  Scenario device, options Isolate and
ZeroizeMemory.  The isolation call is answered `XAIE_ERR`; Initialize closes
the window, then still zeroises the memory, writes the four L2 interrupt
registers, closes the window again and returns `XAIE_OK`. -/
theorem initPart_continues_after_isolation_failure :
    envFailOn (.SetPartIsolationAfterRst XAIE_INIT_ISOLATION) XAIE_ERR
      [Call.NpiSetProtectedRegEnable 4 XAIE_ENABLE, Call.SetPartColClockAfterRst XAIE_ENABLE]
      (Call.SetPartIsolationAfterRst XAIE_INIT_ISOLATION) = XAIE_ERR ∧
    (_XAie_PrivilegeInitPart (envFailOn (.SetPartIsolationAfterRst XAIE_INIT_ISOLATION) XAIE_ERR)
        exDev2PS (some exOptsIsolateZeroize) World.init).1 = XAIE_OK ∧
    callsSince World.init
      (_XAie_PrivilegeInitPart (envFailOn (.SetPartIsolationAfterRst XAIE_INIT_ISOLATION) XAIE_ERR)
        exDev2PS (some exOptsIsolateZeroize) World.init).2 =
      [Call.NpiSetProtectedRegEnable 4 XAIE_ENABLE,
       Call.SetPartColClockAfterRst XAIE_ENABLE,
       Call.SetPartIsolationAfterRst XAIE_INIT_ISOLATION,
       Call.NpiSetProtectedRegEnable 4 XAIE_DISABLE,
       Call.PartMemZeroInit,
       Call.Write32 86032 1, Call.Write32 33640464 1,
       Call.Write32 67194896 1, Call.Write32 100749328 1,
       Call.NpiSetProtectedRegEnable 4 XAIE_DISABLE] := by
  decide

/-- C3 fails on the code.  An AIE-ML device, no option flag set.  The
isolation call (mode cleared) is answered `XAIE_ERR`, every other call
succeeds: Initialize returns `XAIE_OK` with one window-open and two
window-closes in its trace. -/
theorem initPart_ok_with_two_closes :
    (_XAie_PrivilegeInitPart (envFailOn (.SetPartIsolationAfterRst XAIE_CLEAR_ISOLATION) XAIE_ERR)
        exDevML (some exOptsPlain) World.init).1 = XAIE_OK ∧
    (callsSince World.init
      (_XAie_PrivilegeInitPart (envFailOn (.SetPartIsolationAfterRst XAIE_CLEAR_ISOLATION) XAIE_ERR)
        exDevML (some exOptsPlain) World.init).2).countP isOpen = 1 ∧
    (callsSince World.init
      (_XAie_PrivilegeInitPart (envFailOn (.SetPartIsolationAfterRst XAIE_CLEAR_ISOLATION) XAIE_ERR)
        exDevML (some exOptsPlain) World.init).2).countP isClose = 2 ∧
    callsSince World.init
      (_XAie_PrivilegeInitPart (envFailOn (.SetPartIsolationAfterRst XAIE_CLEAR_ISOLATION) XAIE_ERR)
        exDevML (some exOptsPlain) World.init).2 =
      [Call.NpiSetProtectedRegEnable 4 XAIE_ENABLE,
       Call.SetPartColClockAfterRst XAIE_ENABLE,
       Call.SetPartIsolationAfterRst XAIE_CLEAR_ISOLATION,
       Call.NpiSetProtectedRegEnable 4 XAIE_DISABLE,
       Call.Write32 86032 1, Call.Write32 33640464 1,
       Call.Write32 67194896 1, Call.Write32 100749328 1,
       Call.NpiSetProtectedRegEnable 4 XAIE_DISABLE] := by
  decide

/-! ## NoC-switch routing -/

/-- C13.  NoC-switch routing (`_XAie_PrivilegeSetPartNmuSwitch`) with start
column 0 and shim-NoC tiles at columns 0 and 1 of the shim row: the first write
goes to the NMU-switch register of column 0 of the shim row with the
forward-east field set from 1 and the from-west field set from 0; only when it
succeeds the second write goes to column 1 with forward-east 0 and from-west 1;
a failing first write is returned and no second write is made.  A field set
from 0 is 0. -/
theorem setPartNmuSwitch_east_then_west (env : Env) (D : XAie_DevInst) (w : World)
    (hS : D.StartCol = 0)
    (h0 : D.GetTTypefromLoc (XAie_TileLoc 0 D.ShimRow) = XAIEGBL_TILE_TYPE_SHIMNOC)
    (h1 : D.GetTTypefromLoc (XAie_TileLoc 1 D.ShimRow) = XAIEGBL_TILE_TYPE_SHIMNOC) :
    _XAie_PrivilegeSetPartNmuSwitch env D w =
      (if env w.trace (nmuSwitchCall D 0 XAIE_ENABLE XAIE_DISABLE) ≠ XAIE_OK then
        (env w.trace (nmuSwitchCall D 0 XAIE_ENABLE XAIE_DISABLE),
         w.extend [nmuSwitchCall D 0 XAIE_ENABLE XAIE_DISABLE])
       else
        (env (w.trace ++ [nmuSwitchCall D 0 XAIE_ENABLE XAIE_DISABLE])
            (nmuSwitchCall D 1 XAIE_DISABLE XAIE_ENABLE),
         w.extend [nmuSwitchCall D 0 XAIE_ENABLE XAIE_DISABLE,
           nmuSwitchCall D 1 XAIE_DISABLE XAIE_ENABLE])) ∧
    nmuSwitchCall D 0 XAIE_ENABLE XAIE_DISABLE =
      Call.Write32
        (((D.DevProp.DevMod XAIEGBL_TILE_TYPE_SHIMNOC).PlIfMod.ShimNocNmuSwitchOff +
          D.GetTileAddr D.ShimRow 0) % 2 ^ 64)
        (XAie_SetField 1
            (D.DevProp.DevMod XAIEGBL_TILE_TYPE_SHIMNOC).PlIfMod.ShimNocNmuSwitch0.Lsb
            (D.DevProp.DevMod XAIEGBL_TILE_TYPE_SHIMNOC).PlIfMod.ShimNocNmuSwitch0.Mask |||
          XAie_SetField 0
            (D.DevProp.DevMod XAIEGBL_TILE_TYPE_SHIMNOC).PlIfMod.ShimNocNmuSwitch1.Lsb
            (D.DevProp.DevMod XAIEGBL_TILE_TYPE_SHIMNOC).PlIfMod.ShimNocNmuSwitch1.Mask) ∧
    nmuSwitchCall D 1 XAIE_DISABLE XAIE_ENABLE =
      Call.Write32
        (((D.DevProp.DevMod XAIEGBL_TILE_TYPE_SHIMNOC).PlIfMod.ShimNocNmuSwitchOff +
          D.GetTileAddr D.ShimRow 1) % 2 ^ 64)
        (XAie_SetField 0
            (D.DevProp.DevMod XAIEGBL_TILE_TYPE_SHIMNOC).PlIfMod.ShimNocNmuSwitch0.Lsb
            (D.DevProp.DevMod XAIEGBL_TILE_TYPE_SHIMNOC).PlIfMod.ShimNocNmuSwitch0.Mask |||
          XAie_SetField 1
            (D.DevProp.DevMod XAIEGBL_TILE_TYPE_SHIMNOC).PlIfMod.ShimNocNmuSwitch1.Lsb
            (D.DevProp.DevMod XAIEGBL_TILE_TYPE_SHIMNOC).PlIfMod.ShimNocNmuSwitch1.Mask) ∧
    (∀ Lsb Mask, XAie_SetField 0 Lsb Mask = 0) := by
  refine ⟨?_, rfl, rfl, ?_⟩
  · rw [setPartNmuSwitch_eq env D w (fun _ => ⟨h0, h1⟩)]
    simp only [nmuSwitchCalls, hS, ne_eq, not_true_eq_false, if_false, runCalls, doCall_eq,
      World.extend_trace, World.extend_extend, List.singleton_append]
    by_cases ha : env w.trace (nmuSwitchCall D 0 XAIE_ENABLE XAIE_DISABLE) = XAIE_OK
    · by_cases hb : env (w.trace ++ [nmuSwitchCall D 0 XAIE_ENABLE XAIE_DISABLE])
          (nmuSwitchCall D 1 XAIE_DISABLE XAIE_ENABLE) = XAIE_OK
      · simp [ha, hb]
      · simp [ha, hb]
    · simp [ha]
  · intro Lsb Mask
    simp [XAie_SetField]

/-- On the scenario device the write for column 0 is refused: it is the only
write, and its code is returned. -/
theorem setPartNmuSwitch_east_then_west_witness :
    _XAie_PrivilegeSetPartNmuSwitch
        (envFailOn (nmuSwitchCall exDev2PS 0 XAIE_ENABLE XAIE_DISABLE) 7) exDev2PS World.init =
      (7, World.init.extend [Call.Write32 122928 1]) ∧
    _XAie_PrivilegeSetPartNmuSwitch envOk exDev2PS World.init =
      (XAIE_OK, World.init.extend [Call.Write32 122928 1, Call.Write32 33677360 2]) :=
  ⟨(setPartNmuSwitch_east_then_west
      (envFailOn (nmuSwitchCall exDev2PS 0 XAIE_ENABLE XAIE_DISABLE) 7) exDev2PS World.init
      (by decide) (by decide) (by decide)).1,
   (setPartNmuSwitch_east_then_west envOk exDev2PS World.init
      (by decide) (by decide) (by decide)).1⟩

/-! ## RequestTiles and SetColumnClock -/

theorem gatingPattern_eq (env : Env) (D : XAie_DevInst) (delegate : Call) (w : World) :
    gatingPattern env D delegate w =
      if D.DevProp.DevGen = XAIE_DEV_GEN_AIE then
        (env w.trace delegate, w.extend [delegate])
      else if env w.trace (openCall D) ≠ XAIE_OK then
        (env w.trace (openCall D), w.extend [openCall D])
      else
        (env (w.trace ++ [openCall D]) delegate,
         w.extend [openCall D, delegate, closeCall D]) := by
  by_cases hg : D.DevProp.DevGen = XAIE_DEV_GEN_AIE
  · simp [gatingPattern, hg, doCall_eq]
  · by_cases ho : env w.trace (openCall D) = XAIE_OK
    · simp [gatingPattern, hg, doCall_eq, ho]
    · simp [gatingPattern, hg, doCall_eq, ho]

theorem requestTiles_eq_gatingPattern (env : Env) (D : XAie_DevInst)
    (Args : XAie_BackendTilesArray) (w : World) :
    _XAie_PrivilegeRequestTiles env D Args w = gatingPattern env D (.RequestTiles Args) w := by
  by_cases hg : D.DevProp.DevGen = XAIE_DEV_GEN_AIE
  · simp [_XAie_PrivilegeRequestTiles, gatingPattern, hg]
  · by_cases ho : env w.trace (Call.NpiSetProtectedRegEnable D.NumCols XAIE_ENABLE) = XAIE_OK
    · simp [_XAie_PrivilegeRequestTiles, gatingPattern, hg, _XAie_PrivilegeSetPartProtectedRegs,
        doCall_eq, openCall, closeCall, ho]
    · simp [_XAie_PrivilegeRequestTiles, gatingPattern, hg, _XAie_PrivilegeSetPartProtectedRegs,
        doCall_eq, openCall, closeCall, ho]

theorem setColumnClk_eq_gatingPattern (env : Env) (D : XAie_DevInst)
    (Args : XAie_BackendColumnReq) (w : World) :
    _XAie_PrivilegeSetColumnClk env D Args w = gatingPattern env D (.SetColumnClk Args) w := by
  by_cases hg : D.DevProp.DevGen = XAIE_DEV_GEN_AIE
  · simp [_XAie_PrivilegeSetColumnClk, gatingPattern, hg]
  · by_cases ho : env w.trace (Call.NpiSetProtectedRegEnable D.NumCols XAIE_ENABLE) = XAIE_OK
    · simp [_XAie_PrivilegeSetColumnClk, gatingPattern, hg, _XAie_PrivilegeSetPartProtectedRegs,
        doCall_eq, openCall, closeCall, ho]
    · simp [_XAie_PrivilegeSetColumnClk, gatingPattern, hg, _XAie_PrivilegeSetPartProtectedRegs,
        doCall_eq, openCall, closeCall, ho]

/-- C16.  RequestTiles and SetColumnClock on a Gen1 device: the only call issued
is the delegate (`DevOps->RequestTiles`, `DevOps->SetColumnClk`) with the
caller's argument; no protected-register request is made, and the result is
the delegate's result. -/
theorem gen1_delegates_without_gate (env : Env) (D : XAie_DevInst) (w : World)
    (hGen : D.DevProp.DevGen = XAIE_DEV_GEN_AIE) :
    (∀ Args, _XAie_PrivilegeRequestTiles env D Args w =
      (env w.trace (.RequestTiles Args), w.extend [.RequestTiles Args])) ∧
    (∀ Args, _XAie_PrivilegeSetColumnClk env D Args w =
      (env w.trace (.SetColumnClk Args), w.extend [.SetColumnClk Args])) := by
  refine ⟨fun Args => ?_, fun Args => ?_⟩
  · rw [requestTiles_eq_gatingPattern, gatingPattern_eq, if_pos hGen]
  · rw [setColumnClk_eq_gatingPattern, gatingPattern_eq, if_pos hGen]

/-- On the Gen1 example device with a delegate that fails with code 7. -/
theorem gen1_delegates_without_gate_witness :
    _XAie_PrivilegeRequestTiles (envFailOn (.RequestTiles exTiles) 7) exDevGen1 exTiles
        World.init = (7, World.init.extend [.RequestTiles exTiles]) ∧
    _XAie_PrivilegeSetColumnClk envOk exDevGen1 exColumnReq World.init =
      (XAIE_OK, World.init.extend [.SetColumnClk exColumnReq]) :=
  ⟨(gen1_delegates_without_gate (envFailOn (.RequestTiles exTiles) 7) exDevGen1 World.init
      (by decide)).1 exTiles,
   (gen1_delegates_without_gate envOk exDevGen1 World.init (by decide)).2 exColumnReq⟩

/-- C17.  SetColumnClock has the gating pattern of RequestTiles: each routine is
the one pattern `gatingPattern` applied to its own delegate call, for every
device and every environment.  The pattern in closed form: on Gen1 the
delegate alone; otherwise the open alone when it fails, else open, delegate,
close; the result is the delegate's (or the failed open's) in both routines. -/
theorem setColumnClk_same_pattern_as_requestTiles (env : Env) (D : XAie_DevInst)
    (ArgsT : XAie_BackendTilesArray) (ArgsC : XAie_BackendColumnReq) (w : World) :
    _XAie_PrivilegeRequestTiles env D ArgsT w =
      gatingPattern env D (.RequestTiles ArgsT) w ∧
    _XAie_PrivilegeSetColumnClk env D ArgsC w =
      gatingPattern env D (.SetColumnClk ArgsC) w ∧
    (∀ delegate, gatingPattern env D delegate w =
      if D.DevProp.DevGen = XAIE_DEV_GEN_AIE then
        (env w.trace delegate, w.extend [delegate])
      else if env w.trace (openCall D) ≠ XAIE_OK then
        (env w.trace (openCall D), w.extend [openCall D])
      else
        (env (w.trace ++ [openCall D]) delegate,
         w.extend [openCall D, delegate, closeCall D])) ∧
    ((∀ hist, env hist (.SetColumnClk ArgsC) = env hist (.RequestTiles ArgsT)) →
      (_XAie_PrivilegeSetColumnClk env D ArgsC w).1 =
        (_XAie_PrivilegeRequestTiles env D ArgsT w).1 ∧
      (callsSince w (_XAie_PrivilegeSetColumnClk env D ArgsC w).2).length =
        (callsSince w (_XAie_PrivilegeRequestTiles env D ArgsT w).2).length ∧
      (callsSince w (_XAie_PrivilegeSetColumnClk env D ArgsC w).2).map isGate =
        (callsSince w (_XAie_PrivilegeRequestTiles env D ArgsT w).2).map isGate) := by
  refine ⟨requestTiles_eq_gatingPattern env D ArgsT w,
    setColumnClk_eq_gatingPattern env D ArgsC w, fun d => gatingPattern_eq env D d w, ?_⟩
  intro hd
  rw [setColumnClk_eq_gatingPattern, requestTiles_eq_gatingPattern, gatingPattern_eq,
    gatingPattern_eq]
  by_cases hg : D.DevProp.DevGen = XAIE_DEV_GEN_AIE
  · simp [hg, hd, isGate]
  · by_cases ho : env w.trace (openCall D) = XAIE_OK
    · simp [hg, ho, hd, isGate]
    · simp [hg, ho]

/-- RequestTiles on a device that is not Gen1, in general: a failing
window-open is returned; after a successful open the calls are open, delegate,
close and the result is exactly the delegate's result — the result of the
window-close is discarded. -/
theorem requestTiles_returns_open_or_delegate_result (env : Env) (D : XAie_DevInst)
    (Args : XAie_BackendTilesArray) (w : World)
    (hGen : D.DevProp.DevGen ≠ XAIE_DEV_GEN_AIE) :
    (env w.trace (openCall D) ≠ XAIE_OK →
      (_XAie_PrivilegeRequestTiles env D Args w).1 = env w.trace (openCall D)) ∧
    (env w.trace (openCall D) = XAIE_OK →
      (_XAie_PrivilegeRequestTiles env D Args w).1 =
        env (w.trace ++ [openCall D]) (.RequestTiles Args) ∧
      callsSince w (_XAie_PrivilegeRequestTiles env D Args w).2 =
        [openCall D, .RequestTiles Args, closeCall D]) := by
  rw [requestTiles_eq_gatingPattern, gatingPattern_eq, if_neg hGen]
  constructor
  · intro ho
    simp [ho]
  · intro ho
    simp [ho]

/-- On the scenario device the delegate succeeds and the window-close fails
with code 9: the routine returns `XAIE_OK`. -/
theorem requestTiles_returns_open_or_delegate_result_witness :
    (_XAie_PrivilegeRequestTiles (envFailOn (closeCall exDev2PS) 9) exDev2PS exTiles
        World.init).1 = XAIE_OK ∧
    callsSince World.init
      (_XAie_PrivilegeRequestTiles (envFailOn (closeCall exDev2PS) 9) exDev2PS exTiles
        World.init).2 = [openCall exDev2PS, .RequestTiles exTiles, closeCall exDev2PS] :=
  (requestTiles_returns_open_or_delegate_result (envFailOn (closeCall exDev2PS) 9) exDev2PS
    exTiles World.init (by decide)).2 (by decide)

/-- C15 fails on the code.  On the scenario device (Gen2PS) the delegate
succeeds, the window-close is answered with error 9, and RequestTiles returns
`XAIE_OK`: the result of the close is discarded. -/
theorem requestTiles_close_error_not_reported :
    exDev2PS.DevProp.DevGen ≠ XAIE_DEV_GEN_AIE ∧
    envFailOn (closeCall exDev2PS) 9 [openCall exDev2PS] (.RequestTiles exTiles) = XAIE_OK ∧
    envFailOn (closeCall exDev2PS) 9 [openCall exDev2PS, .RequestTiles exTiles]
      (closeCall exDev2PS) = 9 ∧
    callsSince World.init
      (_XAie_PrivilegeRequestTiles (envFailOn (closeCall exDev2PS) 9) exDev2PS exTiles
        World.init).2 = [openCall exDev2PS, .RequestTiles exTiles, closeCall exDev2PS] ∧
    (_XAie_PrivilegeRequestTiles (envFailOn (closeCall exDev2PS) 9) exDev2PS exTiles
        World.init).1 = XAIE_OK := by
  decide

/-! ## DMA pause -/

theorem dmaPauseLoop_eq (env : Env) (D : XAie_DevInst) (RegOff Mask FldVal : Nat)
    (n col : Nat) (w : World) :
    dmaPauseLoop env D RegOff Mask FldVal n col w =
      w.extend ((List.range' col n).map (dmaPauseCall D RegOff Mask FldVal 0)) := by
  induction n generalizing col w with
  | zero => simp [dmaPauseLoop]
  | succ n ih =>
    simp only [dmaPauseLoop, List.range'_succ, List.map_cons, XAie_TileLoc]
    rw [ih]
    simp [doCall_eq, dmaPauseCall]

/-- The calls a DMA pause routine issues between window-open and window-close:
one masked write per column at row 0 when no location is given, else the one
masked write at the location. -/
theorem dmaPause_writes_eq (env : Env) (D : XAie_DevInst) (RegOff Mask FldVal : Nat)
    (Loc : Option XAie_LocType) (w : World) :
    (match Loc with
      | none => dmaPauseLoop env D RegOff Mask FldVal D.NumCols 0 w
      | some L =>
        (doCall env (.MaskWrite32 ((RegOff + D.GetTileAddr L.Row L.Col) % 2 ^ 64) Mask FldVal)
          w).2) =
      w.extend (match Loc with
        | none => (List.range D.NumCols).map (dmaPauseCall D RegOff Mask FldVal 0)
        | some L => [dmaPauseCall D RegOff Mask FldVal L.Row L.Col]) := by
  cases Loc with
  | none => simp [dmaPauseLoop_eq, List.range_eq_range']
  | some L => simp [doCall_eq, dmaPauseCall]

theorem nocDmaPause_run (env : Env) (D : XAie_DevInst) (Loc : Option XAie_LocType)
    (ChNum Dir Pause : Nat) (Uninit : XAie_RegFldAttr) (w : World)
    (M : XAie_DmaMod) (Fld : XAie_RegFldAttr)
    (hM : (D.DevProp.DevMod XAIEGBL_TILE_TYPE_SHIMNOC).DmaMod = some M)
    (hSel : XAie_NocDmaPause.select M ChNum Dir Uninit = some Fld)
    (hOpen : env w.trace (openCall D) = XAIE_OK) :
    XAie_NocDmaPause env (some D) Loc ChNum Dir Pause Uninit w =
      (env (w.trace ++ openCall D ::
          (match Loc with
            | none => (List.range D.NumCols).map (dmaPauseCall D M.NocDmaPauseReg.RegOff
                Fld.Mask (XAie_SetField Pause Fld.Lsb Fld.Mask) 0)
            | some L => [dmaPauseCall D M.NocDmaPauseReg.RegOff Fld.Mask
                (XAie_SetField Pause Fld.Lsb Fld.Mask) L.Row L.Col])) (closeCall D),
       w.extend (openCall D ::
          (match Loc with
            | none => (List.range D.NumCols).map (dmaPauseCall D M.NocDmaPauseReg.RegOff
                Fld.Mask (XAie_SetField Pause Fld.Lsb Fld.Mask) 0)
            | some L => [dmaPauseCall D M.NocDmaPauseReg.RegOff Fld.Mask
                (XAie_SetField Pause Fld.Lsb Fld.Mask) L.Row L.Col]) ++ [closeCall D])) := by
  have hOpen' : env w.trace (Call.NpiSetProtectedRegEnable D.NumCols XAIE_ENABLE) = XAIE_OK :=
    hOpen
  simp only [XAie_NocDmaPause, hM, hSel, _XAie_PrivilegeSetPartProtectedRegs]
  rw [dmaPause_writes_eq]
  simp only [doCall_eq, hOpen', ne_eq, not_true_eq_false, if_false, World.extend_trace,
    World.extend_extend]
  split_ifs <;> simp_all [openCall, closeCall, List.append_assoc]

theorem ucDmaPause_run (env : Env) (D : XAie_DevInst) (Loc : Option XAie_LocType)
    (Dir Pause : Nat) (w : World) (U : XAie_UcMod) (Fld : XAie_RegFldAttr)
    (hU : (D.DevProp.DevMod XAIEGBL_TILE_TYPE_SHIMNOC).UcMod = some U)
    (hSel : XAie_UcDmaPause.select U Dir = some Fld)
    (hOpen : env w.trace (openCall D) = XAIE_OK) :
    XAie_UcDmaPause env (some D) Loc Dir Pause w =
      (env (w.trace ++ openCall D ::
          (match Loc with
            | none => (List.range D.NumCols).map (dmaPauseCall D U.UcDmaPauseReg.RegOff
                Fld.Mask (XAie_SetField Pause Fld.Lsb Fld.Mask) 0)
            | some L => [dmaPauseCall D U.UcDmaPauseReg.RegOff Fld.Mask
                (XAie_SetField Pause Fld.Lsb Fld.Mask) L.Row L.Col])) (closeCall D),
       w.extend (openCall D ::
          (match Loc with
            | none => (List.range D.NumCols).map (dmaPauseCall D U.UcDmaPauseReg.RegOff
                Fld.Mask (XAie_SetField Pause Fld.Lsb Fld.Mask) 0)
            | some L => [dmaPauseCall D U.UcDmaPauseReg.RegOff Fld.Mask
                (XAie_SetField Pause Fld.Lsb Fld.Mask) L.Row L.Col]) ++ [closeCall D])) := by
  have hOpen' : env w.trace (Call.NpiSetProtectedRegEnable D.NumCols XAIE_ENABLE) = XAIE_OK :=
    hOpen
  simp only [XAie_UcDmaPause, hU, hSel, _XAie_PrivilegeSetPartProtectedRegs]
  rw [dmaPause_writes_eq]
  simp only [doCall_eq, hOpen', ne_eq, not_true_eq_false, if_false, World.extend_trace,
    World.extend_extend]
  split_ifs <;> simp_all [openCall, closeCall, List.append_assoc]

theorem nocDmaPause_select_valid (M : XAie_DmaMod) (ChNum Dir : Nat) (Uninit : XAie_RegFldAttr)
    (hCh : ChNum = 0 ∨ ChNum = 1) (hDir : Dir = DMA_S2MM ∨ Dir = DMA_MM2S) :
    XAie_NocDmaPause.select M ChNum Dir Uninit =
      some (nocPauseField M ChNum Dir) := by
  rcases hCh with rfl | rfl <;> rcases hDir with rfl | rfl <;>
    simp [XAie_NocDmaPause.select, nocPauseField]

theorem ucDmaPause_select_valid (U : XAie_UcMod) (Dir : Nat)
    (hDir : Dir = XAIE_UC_MODULE__DMA_DIR__DM2MM ∨ Dir = XAIE_UC_MODULE__DMA_DIR__MM2DM) :
    XAie_UcDmaPause.select U Dir =
      some (ucPauseField U Dir) := by
  rcases hDir with rfl | rfl <;> simp [XAie_UcDmaPause.select, ucPauseField]

/-- C18 (amended).  DMA pause (`XAie_NocDmaPause`, `XAie_UcDmaPause`) with a
valid channel and direction and a successful window-open: with no location it
issues, between open and close, exactly `NumCols` masked writes, one per column
`0 .. NumCols-1` in ascending order, each to the pause register of the tile at
row 0 of that column; with a location it issues exactly one masked write, to
the pause register of that location. -/
theorem dmaPause_broadcast_or_single (env : Env) (D : XAie_DevInst) (w : World) (Pause : Nat)
    (hOpen : env w.trace (openCall D) = XAIE_OK) :
    (∀ M ChNum Dir Uninit,
      (D.DevProp.DevMod XAIEGBL_TILE_TYPE_SHIMNOC).DmaMod = some M →
      (ChNum = 0 ∨ ChNum = 1) → (Dir = DMA_S2MM ∨ Dir = DMA_MM2S) →
      callsSince w (XAie_NocDmaPause env (some D) none ChNum Dir Pause Uninit w).2 =
        openCall D ::
          (List.range D.NumCols).map (fun C =>
            Call.MaskWrite32 ((M.NocDmaPauseReg.RegOff + D.GetTileAddr 0 C) % 2 ^ 64)
              (nocPauseField M ChNum Dir).Mask
              (XAie_SetField Pause (nocPauseField M ChNum Dir).Lsb
                (nocPauseField M ChNum Dir).Mask)) ++ [closeCall D] ∧
      ∀ L, callsSince w (XAie_NocDmaPause env (some D) (some L) ChNum Dir Pause Uninit w).2 =
        [openCall D,
         Call.MaskWrite32 ((M.NocDmaPauseReg.RegOff + D.GetTileAddr L.Row L.Col) % 2 ^ 64)
              (nocPauseField M ChNum Dir).Mask
              (XAie_SetField Pause (nocPauseField M ChNum Dir).Lsb
                (nocPauseField M ChNum Dir).Mask),
         closeCall D]) ∧
    (∀ U Dir,
      (D.DevProp.DevMod XAIEGBL_TILE_TYPE_SHIMNOC).UcMod = some U →
      (Dir = XAIE_UC_MODULE__DMA_DIR__DM2MM ∨ Dir = XAIE_UC_MODULE__DMA_DIR__MM2DM) →
      callsSince w (XAie_UcDmaPause env (some D) none Dir Pause w).2 =
        openCall D ::
          (List.range D.NumCols).map (fun C =>
            Call.MaskWrite32 ((U.UcDmaPauseReg.RegOff + D.GetTileAddr 0 C) % 2 ^ 64)
              (ucPauseField U Dir).Mask
              (XAie_SetField Pause (ucPauseField U Dir).Lsb (ucPauseField U Dir).Mask)) ++
          [closeCall D] ∧
      ∀ L, callsSince w (XAie_UcDmaPause env (some D) (some L) Dir Pause w).2 =
        [openCall D,
         Call.MaskWrite32 ((U.UcDmaPauseReg.RegOff + D.GetTileAddr L.Row L.Col) % 2 ^ 64)
              (ucPauseField U Dir).Mask
              (XAie_SetField Pause (ucPauseField U Dir).Lsb (ucPauseField U Dir).Mask),
         closeCall D]) := by
  constructor
  · intro M ChNum Dir Uninit hM hCh hDir
    have hSel := nocDmaPause_select_valid M ChNum Dir Uninit hCh hDir
    constructor
    · rw [nocDmaPause_run env D none ChNum Dir Pause Uninit w M _ hM hSel hOpen]
      simp only [callsSince_extend]
      rfl
    · intro L
      rw [nocDmaPause_run env D (some L) ChNum Dir Pause Uninit w M _ hM hSel hOpen]
      simp only [callsSince_extend]
      rfl
  · intro U Dir hU hDir
    have hSel := ucDmaPause_select_valid U Dir hDir
    constructor
    · rw [ucDmaPause_run env D none Dir Pause w U _ hU hSel hOpen]
      simp only [callsSince_extend]
      rfl
    · intro L
      rw [ucDmaPause_run env D (some L) Dir Pause w U _ hU hSel hOpen]
      simp only [callsSince_extend]
      rfl

/-- On the scenario device: a broadcast pause of NoC channel 1, MM2S, and a
pause of the UC DMA, MM2DM, at the tile of column 2, row 0. -/
theorem dmaPause_broadcast_or_single_witness :
    callsSince World.init
        (XAie_NocDmaPause envOk (some exDev2PS) none 1 DMA_MM2S 1 ⟨0, 0⟩ World.init).2 =
      [Call.NpiSetProtectedRegEnable 4 XAIE_ENABLE,
       Call.MaskWrite32 119560 8 8, Call.MaskWrite32 33673992 8 8,
       Call.MaskWrite32 67228424 8 8, Call.MaskWrite32 100782856 8 8,
       Call.NpiSetProtectedRegEnable 4 XAIE_DISABLE] ∧
    callsSince World.init
        (XAie_UcDmaPause envOk (some exDev2PS) (some ⟨0, 2⟩) XAIE_UC_MODULE__DMA_DIR__MM2DM 1
          World.init).2 =
      [Call.NpiSetProtectedRegEnable 4 XAIE_ENABLE,
       Call.MaskWrite32 67895584 2 2,
       Call.NpiSetProtectedRegEnable 4 XAIE_DISABLE] :=
  ⟨((dmaPause_broadcast_or_single envOk exDev2PS World.init 1 (by decide)).1
      _ 1 DMA_MM2S ⟨0, 0⟩ rfl (Or.inr rfl) (Or.inr rfl)).1,
   ((dmaPause_broadcast_or_single envOk exDev2PS World.init 1 (by decide)).2
      _ XAIE_UC_MODULE__DMA_DIR__MM2DM rfl (Or.inr rfl)).2 ⟨0, 2⟩⟩

/-- C18 as stated fails: on a device whose shim row is row 1, the broadcast
pause writes the pause registers of the tiles of row 0; none of its writes
targets a tile of the shim row. -/
theorem dmaPause_broadcast_row_counterexample :
    exDevShimRow1.ShimRow = 1 ∧
    callsSince World.init
        (XAie_NocDmaPause envOk (some exDevShimRow1) none 0 DMA_S2MM 1 ⟨0, 0⟩ World.init).2 =
      [Call.NpiSetProtectedRegEnable 4 XAIE_ENABLE,
       Call.MaskWrite32 (119560 + exDevShimRow1.GetTileAddr 0 0) 1 1,
       Call.MaskWrite32 (119560 + exDevShimRow1.GetTileAddr 0 1) 1 1,
       Call.MaskWrite32 (119560 + exDevShimRow1.GetTileAddr 0 2) 1 1,
       Call.MaskWrite32 (119560 + exDevShimRow1.GetTileAddr 0 3) 1 1,
       Call.NpiSetProtectedRegEnable 4 XAIE_DISABLE] ∧
    (∀ C, C < 4 →
      Call.MaskWrite32 (119560 + exDevShimRow1.GetTileAddr exDevShimRow1.ShimRow C) 1 1 ∉
        callsSince World.init
          (XAie_NocDmaPause envOk (some exDevShimRow1) none 0 DMA_S2MM 1 ⟨0, 0⟩
            World.init).2) ∧
    (∀ C, C < 4 →
      Call.MaskWrite32 (786720 + exDevShimRow1.GetTileAddr exDevShimRow1.ShimRow C) 1 1 ∉
        callsSince World.init
          (XAie_UcDmaPause envOk (some exDevShimRow1) none XAIE_UC_MODULE__DMA_DIR__DM2MM 1
            World.init).2) := by
  decide

/-- C19 fails on the code.  On the scenario device, channel 0 with direction
value 2 (neither `DMA_S2MM` nor `DMA_MM2S`), every call succeeding: the routine
opens the window, writes the pause register of every column with the
indeterminate content of its uninitialised `Mask` and `Lsb`, closes the window
and returns `XAIE_OK`.  A channel other than 0 and 1 is refused with `XAIE_ERR`
before any call. -/
theorem nocDmaPause_invalid_direction_carries_on :
    (∀ Uninit : XAie_RegFldAttr,
      XAie_NocDmaPause envOk (some exDev2PS) none 0 2 1 Uninit World.init =
        (XAIE_OK,
         World.init.extend
          [Call.NpiSetProtectedRegEnable 4 XAIE_ENABLE,
           Call.MaskWrite32 119560 Uninit.Mask (XAie_SetField 1 Uninit.Lsb Uninit.Mask),
           Call.MaskWrite32 33673992 Uninit.Mask (XAie_SetField 1 Uninit.Lsb Uninit.Mask),
           Call.MaskWrite32 67228424 Uninit.Mask (XAie_SetField 1 Uninit.Lsb Uninit.Mask),
           Call.MaskWrite32 100782856 Uninit.Mask (XAie_SetField 1 Uninit.Lsb Uninit.Mask),
           Call.NpiSetProtectedRegEnable 4 XAIE_DISABLE])) ∧
    (∀ (env : Env) (DevInst : Option XAie_DevInst) (Loc : Option XAie_LocType)
        (ChNum Dir Pause : Nat) (Uninit : XAie_RegFldAttr) (w : World),
      ChNum ≠ 0 → ChNum ≠ 1 →
      XAie_NocDmaPause env DevInst Loc ChNum Dir Pause Uninit w = (XAIE_ERR, w)) := by
  constructor
  · intro Uninit
    rfl
  · intro env DevInst Loc ChNum Dir Pause Uninit w h0 h1
    cases DevInst with
    | none => rfl
    | some D =>
      cases hM : (D.DevProp.DevMod XAIEGBL_TILE_TYPE_SHIMNOC).DmaMod with
      | none => simp [XAie_NocDmaPause, hM]
      | some M => simp [XAie_NocDmaPause, hM, XAie_NocDmaPause.select, h0, h1]

/-- DMA pause with a valid channel and direction and a successful window-open,
in general: the results of the masked writes are discarded; the
routine returns what the environment answers to the window-close issued after
the writes, whether or not a write failed. -/
theorem dmaPause_returns_close_result (env : Env) (D : XAie_DevInst) (w : World)
    (Loc : Option XAie_LocType) (Pause : Nat)
    (hOpen : env w.trace (openCall D) = XAIE_OK) :
    (∀ M ChNum Dir Uninit,
      (D.DevProp.DevMod XAIEGBL_TILE_TYPE_SHIMNOC).DmaMod = some M →
      (ChNum = 0 ∨ ChNum = 1) → (Dir = DMA_S2MM ∨ Dir = DMA_MM2S) →
      ∃ writes,
        callsSince w (XAie_NocDmaPause env (some D) Loc ChNum Dir Pause Uninit w).2 =
          openCall D :: writes ++ [closeCall D] ∧
        (∀ c ∈ writes, ∃ a m v, c = Call.MaskWrite32 a m v) ∧
        (XAie_NocDmaPause env (some D) Loc ChNum Dir Pause Uninit w).1 =
          env (w.trace ++ openCall D :: writes) (closeCall D)) ∧
    (∀ U Dir,
      (D.DevProp.DevMod XAIEGBL_TILE_TYPE_SHIMNOC).UcMod = some U →
      (Dir = XAIE_UC_MODULE__DMA_DIR__DM2MM ∨ Dir = XAIE_UC_MODULE__DMA_DIR__MM2DM) →
      ∃ writes,
        callsSince w (XAie_UcDmaPause env (some D) Loc Dir Pause w).2 =
          openCall D :: writes ++ [closeCall D] ∧
        (∀ c ∈ writes, ∃ a m v, c = Call.MaskWrite32 a m v) ∧
        (XAie_UcDmaPause env (some D) Loc Dir Pause w).1 =
          env (w.trace ++ openCall D :: writes) (closeCall D)) := by
  constructor
  · intro M ChNum Dir Uninit hM hCh hDir
    have hSel := nocDmaPause_select_valid M ChNum Dir Uninit hCh hDir
    rw [nocDmaPause_run env D Loc ChNum Dir Pause Uninit w M _ hM hSel hOpen]
    refine ⟨_, by simp only [callsSince_extend], ?_, rfl⟩
    intro c hc
    cases Loc with
    | none =>
      simp only [List.mem_map] at hc
      obtain ⟨C, _, rfl⟩ := hc
      exact ⟨_, _, _, rfl⟩
    | some L =>
      simp only [List.mem_singleton] at hc
      subst hc
      exact ⟨_, _, _, rfl⟩
  · intro U Dir hU hDir
    have hSel := ucDmaPause_select_valid U Dir hDir
    rw [ucDmaPause_run env D Loc Dir Pause w U _ hU hSel hOpen]
    refine ⟨_, by simp only [callsSince_extend], ?_, rfl⟩
    intro c hc
    cases Loc with
    | none =>
      simp only [List.mem_map] at hc
      obtain ⟨C, _, rfl⟩ := hc
      exact ⟨_, _, _, rfl⟩
    | some L =>
      simp only [List.mem_singleton] at hc
      subst hc
      exact ⟨_, _, _, rfl⟩

/-- On the scenario device the one masked write of a NoC DMA pause at column 2
fails with `XAIE_ERR`; the close succeeds and the routine returns `XAIE_OK`. -/
theorem dmaPause_returns_close_result_witness :
    ∃ writes,
      callsSince World.init
        (XAie_NocDmaPause (envFailOn (Call.MaskWrite32 67228424 1 1) XAIE_ERR) (some exDev2PS)
          (some ⟨0, 2⟩) 0 DMA_S2MM 1 ⟨0, 0⟩ World.init).2 =
        openCall exDev2PS :: writes ++ [closeCall exDev2PS] ∧
      (∀ c ∈ writes, ∃ a m v, c = Call.MaskWrite32 a m v) ∧
      (XAie_NocDmaPause (envFailOn (Call.MaskWrite32 67228424 1 1) XAIE_ERR) (some exDev2PS)
          (some ⟨0, 2⟩) 0 DMA_S2MM 1 ⟨0, 0⟩ World.init).1 =
        envFailOn (Call.MaskWrite32 67228424 1 1) XAIE_ERR
          (World.init.trace ++ openCall exDev2PS :: writes) (closeCall exDev2PS) :=
  (dmaPause_returns_close_result (envFailOn (Call.MaskWrite32 67228424 1 1) XAIE_ERR) exDev2PS
    World.init (some ⟨0, 2⟩) 1 (by decide)).1 _ 0 DMA_S2MM ⟨0, 0⟩ rfl (Or.inl rfl) (Or.inl rfl)

/-- C20 fails on the code.  On the scenario device the masked write of the
pause at column 2 is answered `XAIE_ERR`, the window-close succeeds, and both
pause routines return `XAIE_OK`: the result of the write is discarded. -/
theorem dmaPause_write_error_not_reported :
    envFailOn (Call.MaskWrite32 67228424 1 1) XAIE_ERR [openCall exDev2PS]
      (Call.MaskWrite32 67228424 1 1) = XAIE_ERR ∧
    XAie_NocDmaPause (envFailOn (Call.MaskWrite32 67228424 1 1) XAIE_ERR) (some exDev2PS)
        (some ⟨0, 2⟩) 0 DMA_S2MM 1 ⟨0, 0⟩ World.init =
      (XAIE_OK, World.init.extend [openCall exDev2PS, Call.MaskWrite32 67228424 1 1,
        closeCall exDev2PS]) ∧
    envFailOn (Call.MaskWrite32 67895584 1 1) XAIE_ERR [openCall exDev2PS]
      (Call.MaskWrite32 67895584 1 1) = XAIE_ERR ∧
    XAie_UcDmaPause (envFailOn (Call.MaskWrite32 67895584 1 1) XAIE_ERR) (some exDev2PS)
        (some ⟨0, 2⟩) XAIE_UC_MODULE__DMA_DIR__DM2MM 1 World.init =
      (XAIE_OK, World.init.extend [openCall exDev2PS, Call.MaskWrite32 67895584 1 1,
        closeCall exDev2PS]) := by
  refine ⟨by decide, rfl, by decide, rfl⟩

/-! ## Error mask and interrupt routing -/

/-- Issuing one call per element of a list: the calls issued are those of a
prefix of the list, the whole list when the result is `XAIE_OK`. -/
theorem runCalls_map_prefix {α : Type} (env : Env) (f : α → Call) (L : List α) (w : World) :
    ∃ cols, cols <+: L ∧
      (runCalls env (L.map f) w).2 = w.extend (cols.map f) ∧
      ((runCalls env (L.map f) w).1 = XAIE_OK → cols = L) := by
  induction L generalizing w with
  | nil => exact ⟨[], List.prefix_refl _, by simp [runCalls], fun _ => rfl⟩
  | cons a L ih =>
    by_cases h : env w.trace (f a) = XAIE_OK
    · obtain ⟨cols, hp, hw, hall⟩ := ih (w.extend [f a])
      refine ⟨a :: cols, ?_, ?_, ?_⟩
      · obtain ⟨t, ht⟩ := hp
        exact ⟨t, by simp [ht]⟩
      · simp [runCalls, doCall_eq, h, hw]
      · intro hr
        simp only [List.map_cons, runCalls, doCall_eq, h, ne_eq, not_true_eq_false,
          if_false] at hr
        rw [hall hr]
    · refine ⟨[a], ⟨L, rfl⟩, by simp [runCalls, doCall_eq, h], ?_⟩
      intro hr
      simp only [List.map_cons, runCalls, doCall_eq, ne_eq, h, not_false_eq_true,
        if_true] at hr

/-- C14.  Error-mask configuration (`_XAie_PrivilegeSetPartBlockAxiMmNsuErr`) and
interrupt routing (`_XAie_PrivilegeSetL2ErrIrq`), for every device, tile-type
assignment and environment: the writes issued are the writes for a list `cols`
of columns, in order; `cols` is an initial part of the ascending list of the
columns below `NumCols` whose scanned tile (row 0, resp. the shim row) is a
shim-NoC tile — so a column whose scanned tile is not shim-NoC gets no write and
the scan goes on past it — and it is that whole list when the routine
returns `XAIE_OK`.  The write for column `C` targets the scanned tile of
column `C`. -/
theorem shimNoc_scans_write_only_shimNoc (env : Env) (D : XAie_DevInst) (w : World)
    (BlockSlvEnable BlockDecEnable : Nat) :
    (∃ cols,
      cols <+: (List.range D.NumCols).filter
        (fun C => D.GetTTypefromLoc ⟨0, C⟩ = XAIEGBL_TILE_TYPE_SHIMNOC) ∧
      (∀ C ∈ cols, C < D.NumCols ∧ D.GetTTypefromLoc ⟨0, C⟩ = XAIEGBL_TILE_TYPE_SHIMNOC) ∧
      callsSince w
          (_XAie_PrivilegeSetPartBlockAxiMmNsuErr env D BlockSlvEnable BlockDecEnable w).2 =
        cols.map (blockErrCall D BlockSlvEnable BlockDecEnable) ∧
      ((_XAie_PrivilegeSetPartBlockAxiMmNsuErr env D BlockSlvEnable BlockDecEnable w).1 = XAIE_OK →
        cols = (List.range D.NumCols).filter
          (fun C => D.GetTTypefromLoc ⟨0, C⟩ = XAIEGBL_TILE_TYPE_SHIMNOC))) ∧
    (∃ cols,
      cols <+: (List.range D.NumCols).filter
        (fun C => D.GetTTypefromLoc ⟨D.ShimRow, C⟩ = XAIEGBL_TILE_TYPE_SHIMNOC) ∧
      (∀ C ∈ cols, C < D.NumCols ∧
        D.GetTTypefromLoc ⟨D.ShimRow, C⟩ = XAIEGBL_TILE_TYPE_SHIMNOC) ∧
      callsSince w (_XAie_PrivilegeSetL2ErrIrq env D w).2 = cols.map (l2IrqCall D) ∧
      ((_XAie_PrivilegeSetL2ErrIrq env D w).1 = XAIE_OK →
        cols = (List.range D.NumCols).filter
          (fun C => D.GetTTypefromLoc ⟨D.ShimRow, C⟩ = XAIEGBL_TILE_TYPE_SHIMNOC))) ∧
    (∀ C, ∃ v, blockErrCall D BlockSlvEnable BlockDecEnable C =
      Call.Write32
        (((D.DevProp.DevMod (D.GetTTypefromLoc ⟨0, C⟩)).PlIfMod.ShimNocAxiMM.RegOff +
          D.GetTileAddr 0 C) % 2 ^ 64) v) ∧
    (∀ C, l2IrqCall D C =
      Call.Write32
        ((D.GetTileAddr D.ShimRow C +
          (D.DevProp.DevMod XAIEGBL_TILE_TYPE_SHIMNOC).L2IntrMod.IrqRegOff) % 2 ^ 64)
        XAIE_ERROR_NPI_INTR_ID) := by
  refine ⟨?_, ?_, fun C => ⟨_, rfl⟩, fun C => rfl⟩
  · obtain ⟨cols, hp, hw, hall⟩ := runCalls_map_prefix env
      (blockErrCall D BlockSlvEnable BlockDecEnable)
      ((List.range D.NumCols).filter
        (fun C => D.GetTTypefromLoc ⟨0, C⟩ = XAIEGBL_TILE_TYPE_SHIMNOC)) w
    refine ⟨cols, hp, ?_, ?_, ?_⟩
    · intro C hC
      have := hp.subset hC
      simpa [List.mem_filter] using this
    · rw [setPartBlockAxiMmNsuErr_eq, blockErrCalls, hw, callsSince_extend]
    · rw [setPartBlockAxiMmNsuErr_eq, blockErrCalls]
      exact hall
  · obtain ⟨cols, hp, hw, hall⟩ := runCalls_map_prefix env (l2IrqCall D)
      ((List.range D.NumCols).filter
        (fun C => D.GetTTypefromLoc ⟨D.ShimRow, C⟩ = XAIEGBL_TILE_TYPE_SHIMNOC)) w
    refine ⟨cols, hp, ?_, ?_, ?_⟩
    · intro C hC
      have := hp.subset hC
      simpa [List.mem_filter] using this
    · rw [setL2ErrIrq_eq, l2IrqCalls, hw, callsSince_extend]
    · rw [setL2ErrIrq_eq, l2IrqCalls]
      exact hall

/-- On a device whose tiles at columns 1 and 2 of row 0 are shim-PL tiles, both
scans write columns 0 and 3 only. -/
theorem shimNoc_scans_on_mixed_tiles :
    callsSince World.init
        (_XAie_PrivilegeSetPartBlockAxiMmNsuErr envOk exDevMixed XAIE_ENABLE XAIE_ENABLE
          World.init).2 =
      [blockErrCall exDevMixed XAIE_ENABLE XAIE_ENABLE 0,
       blockErrCall exDevMixed XAIE_ENABLE XAIE_ENABLE 3] ∧
    callsSince World.init (_XAie_PrivilegeSetL2ErrIrq envOk exDevMixed World.init).2 =
      [l2IrqCall exDevMixed 0, l2IrqCall exDevMixed 3] := by
  decide

/-! ## Which calls a routine can issue -/

theorem emits_congr (f g : World → AieRC × World) (Q : Call → Prop)
    (hfg : ∀ w, f w = g w) (hg : Emits g Q) : Emits f Q := by
  intro w
  rw [hfg w]
  exact hg w

theorem emits_pure (rc : AieRC) (Q : Call → Prop) : Emits (fun w => (rc, w)) Q :=
  fun w => ⟨[], by simp, by simp⟩

theorem emits_doCall (env : Env) (c : Call) (Q : Call → Prop) (hc : Q c) :
    Emits (doCall env c) Q :=
  fun w => ⟨[c], rfl, by simpa using hc⟩

theorem emits_runCalls (env : Env) (cs : List Call) (Q : Call → Prop)
    (hcs : ∀ c ∈ cs, Q c) : Emits (runCalls env cs) Q := by
  intro w
  rcases runCalls_cases env cs w with ⟨_, h2⟩ | ⟨p, c, rest, h1, _, _, h4⟩
  · exact ⟨cs, by rw [h2]; rfl, hcs⟩
  · refine ⟨p ++ [c], by rw [h4]; rfl, ?_⟩
    intro x hx
    apply hcs
    rw [h1]
    simp only [List.mem_append, List.mem_singleton, List.mem_cons] at hx ⊢
    tauto

/-- Sequencing: a routine followed by a continuation that may look at the
returned code. -/
theorem emits_bind (f : World → AieRC × World) (g : AieRC → World → AieRC × World)
    (Q : Call → Prop) (hf : Emits f Q) (hg : ∀ rc, Emits (g rc) Q) :
    Emits (fun w => g (f w).1 (f w).2) Q := by
  intro w
  obtain ⟨d1, h1, q1⟩ := hf w
  obtain ⟨d2, h2, q2⟩ := hg (f w).1 (f w).2
  refine ⟨d1 ++ d2, by rw [h2, h1, List.append_assoc], ?_⟩
  intro c hc
  rcases List.mem_append.1 hc with h | h
  · exact q1 c h
  · exact q2 c h

theorem emits_closeAndReturn (env : Env) (D : XAie_DevInst) (rc : AieRC) (Q : Call → Prop)
    (hclose : Q (closeCall D)) : Emits (closeAndReturn env D rc) Q :=
  fun w => ⟨[closeCall D], rfl, by simpa using hclose⟩

/-- A guarded stage: a routine, then on failure the close-and-return exit, else
the next stage. -/
theorem emits_stage (env : Env) (D : XAie_DevInst) (f next : World → AieRC × World)
    (Q : Call → Prop) (hf : Emits f Q) (hclose : Q (closeCall D)) (hnext : Emits next Q) :
    Emits (fun w => if (f w).1 ≠ XAIE_OK then closeAndReturn env D (f w).1 (f w).2
      else next (f w).2) Q := by
  refine emits_bind f (fun rc w => if rc ≠ XAIE_OK then closeAndReturn env D rc w else next w)
    Q hf ?_
  intro rc
  by_cases h : rc ≠ XAIE_OK
  · exact emits_congr _ _ Q (fun w => by simp only [if_pos h])
      (emits_closeAndReturn env D rc Q hclose)
  · exact emits_congr _ _ Q (fun w => by simp only [if_neg h]) hnext

theorem emits_callsSince (f : World → AieRC × World) (Q : Call → Prop) (hf : Emits f Q)
    (w : World) : ∀ c ∈ callsSince w (f w).2, Q c := by
  obtain ⟨d, hd, hq⟩ := hf w
  simpa [callsSince, hd] using hq

theorem emits_setPartProtectedRegs (env : Env) (D : XAie_DevInst) (en : Nat) (Q : Call → Prop)
    (h : Q (.NpiSetProtectedRegEnable D.NumCols en)) :
    Emits (_XAie_PrivilegeSetPartProtectedRegs env D en) Q :=
  emits_doCall env _ Q h

theorem emits_atGen1Workaround (env : Env) (D : XAie_DevInst) (Opts : Option XAie_PartInitOpts)
    (Q : Call → Prop) (hQ : ∀ c ∈ initCallPool D Opts, Q c) :
    Emits (_XAie_PrivilegeInitPart.atGen1Workaround env D) Q := by
  have hclose : Q (closeCall D) := hQ _ (by simp [initCallPool])
  have hclk : Q (.PmSetPartitionClock XAIE_DISABLE) := hQ _ (by simp [initCallPool])
  by_cases hg : D.DevProp.DevGen = XAIE_DEV_GEN_AIE
  · refine emits_congr _ _ Q (fun w => by
      simp only [_XAie_PrivilegeInitPart.atGen1Workaround, if_pos hg])
      (emits_stage env D (_XAie_PmSetPartitionClock env D XAIE_DISABLE)
        (fun w => _XAie_PrivilegeSetPartProtectedRegs env D XAIE_DISABLE
          { w with TilesInUse :=
              _XAie_PrivilegeInitPart.clrLoop D D.NumCols 0 w.TilesInUse })
        Q (emits_doCall env _ Q hclk) hclose ?_)
    exact fun w => ⟨[closeCall D], rfl, by simpa using hclose⟩
  · exact emits_congr _ _ Q (fun w => by
      simp only [_XAie_PrivilegeInitPart.atGen1Workaround, if_neg hg])
      (emits_setPartProtectedRegs env D XAIE_DISABLE Q hclose)

theorem emits_atRequestTiles (env : Env) (D : XAie_DevInst) (Opts : Option XAie_PartInitOpts)
    (Q : Call → Prop) (hQ : ∀ c ∈ initCallPool D Opts, Q c) :
    Emits (_XAie_PrivilegeInitPart.atRequestTiles env D Opts) Q := by
  have hclose : Q (closeCall D) := hQ _ (by simp [initCallPool])
  have hnext := emits_atGen1Workaround env D Opts Q hQ
  cases Opts with
  | none => exact emits_congr _ _ Q (fun w => rfl) hnext
  | some o =>
    by_cases hn : o.NumUseTiles > 0
    · have hc : Q (.RunOpRequestTiles { NumTiles := o.NumUseTiles, Locs := o.Locs }) :=
        hQ _ (by simp [initCallPool, requestTilesCalls, hn])
      exact emits_congr _ _ Q (fun w => by
        simp only [_XAie_PrivilegeInitPart.atRequestTiles, if_pos hn])
        (emits_stage env D (doCall env _) _ Q (emits_doCall env _ Q hc) hclose hnext)
    · exact emits_congr _ _ Q (fun w => by
        simp only [_XAie_PrivilegeInitPart.atRequestTiles, if_neg hn]) hnext

theorem emits_atL2ErrIrq (env : Env) (D : XAie_DevInst) (Opts : Option XAie_PartInitOpts)
    (Q : Call → Prop) (hQ : ∀ c ∈ initCallPool D Opts, Q c) :
    Emits (_XAie_PrivilegeInitPart.atL2ErrIrq env D Opts) Q := by
  have hl2 : Emits (_XAie_PrivilegeSetL2ErrIrq env D) Q :=
    emits_congr _ _ Q (setL2ErrIrq_eq env D)
      (emits_runCalls env _ Q (fun c hc => hQ c (by simp [initCallPool, hc])))
  refine emits_congr _ _ Q (fun w => rfl)
    (emits_bind (_XAie_PrivilegeSetL2ErrIrq env D)
      (fun rc w => if rc ≠ XAIE_OK then (rc, w)
        else _XAie_PrivilegeInitPart.atRequestTiles env D Opts w) Q hl2 ?_)
  intro rc
  by_cases h : rc ≠ XAIE_OK
  · exact emits_congr _ _ Q (fun w => by simp only [if_pos h]) (emits_pure rc Q)
  · exact emits_congr _ _ Q (fun w => by simp only [if_neg h])
      (emits_atRequestTiles env D Opts Q hQ)

theorem emits_atZeroize (env : Env) (D : XAie_DevInst) (Opts : Option XAie_PartInitOpts)
    (F : Nat) (Q : Call → Prop) (hQ : ∀ c ∈ initCallPool D Opts, Q c) :
    Emits (_XAie_PrivilegeInitPart.atZeroize env D Opts F) Q := by
  have hclose : Q (closeCall D) := hQ _ (by simp [initCallPool])
  have hnext := emits_atL2ErrIrq env D Opts Q hQ
  by_cases hf : F &&& XAIE_PART_INIT_OPT_ZEROIZEMEM ≠ 0
  · exact emits_congr _ _ Q (fun w => by
      simp only [_XAie_PrivilegeInitPart.atZeroize, if_pos hf])
      (emits_stage env D (doCall env .PartMemZeroInit) _ Q
        (emits_doCall env _ Q (hQ _ (by simp [initCallPool]))) hclose hnext)
  · exact emits_congr _ _ Q (fun w => by
      simp only [_XAie_PrivilegeInitPart.atZeroize, if_neg hf]) hnext

theorem emits_atIsolation (env : Env) (D : XAie_DevInst) (Opts : Option XAie_PartInitOpts)
    (F : Nat) (Q : Call → Prop) (hQ : ∀ c ∈ initCallPool D Opts, Q c) :
    Emits (_XAie_PrivilegeInitPart.atIsolation env D Opts F) Q := by
  have hclose : Q (closeCall D) := hQ _ (by simp [initCallPool])
  have hnext := emits_atZeroize env D Opts F Q hQ
  have hrest : ∀ rc, Emits (fun w => if rc ≠ XAIE_OK then
      _XAie_PrivilegeInitPart.atZeroize env D Opts F
        (_XAie_PrivilegeSetPartProtectedRegs env D XAIE_DISABLE w).2
      else _XAie_PrivilegeInitPart.atZeroize env D Opts F w) Q := by
    intro rc
    by_cases h : rc ≠ XAIE_OK
    · exact emits_congr _ _ Q (fun w => by simp only [if_pos h])
        (emits_bind (_XAie_PrivilegeSetPartProtectedRegs env D XAIE_DISABLE)
          (fun _ w => _XAie_PrivilegeInitPart.atZeroize env D Opts F w) Q
          (emits_setPartProtectedRegs env D XAIE_DISABLE Q hclose) (fun _ => hnext))
    · exact emits_congr _ _ Q (fun w => by simp only [if_neg h]) hnext
  by_cases hf : F &&& XAIE_PART_INIT_OPT_ISOLATE ≠ 0
  · exact emits_congr _ _ Q (fun w => by
      simp only [_XAie_PrivilegeInitPart.atIsolation, if_pos hf])
      (emits_bind (doCall env (.SetPartIsolationAfterRst XAIE_INIT_ISOLATION)) _ Q
        (emits_doCall env _ Q (hQ _ (by simp [initCallPool]))) hrest)
  · exact emits_congr _ _ Q (fun w => by
      simp only [_XAie_PrivilegeInitPart.atIsolation, if_neg hf])
      (emits_bind (doCall env (.SetPartIsolationAfterRst XAIE_CLEAR_ISOLATION)) _ Q
        (emits_doCall env _ Q (hQ _ (by simp [initCallPool]))) hrest)

theorem emits_atColClock (env : Env) (D : XAie_DevInst) (Opts : Option XAie_PartInitOpts)
    (F : Nat) (Q : Call → Prop) (hQ : ∀ c ∈ initCallPool D Opts, Q c) :
    Emits (_XAie_PrivilegeInitPart.atColClock env D Opts F) Q :=
  emits_congr _ _ Q (fun w => rfl)
    (emits_stage env D (doCall env (.SetPartColClockAfterRst XAIE_ENABLE)) _ Q
      (emits_doCall env _ Q (hQ _ (by simp [initCallPool])))
      (hQ _ (by simp [initCallPool])) (emits_atIsolation env D Opts F Q hQ))

theorem emits_atBlockErr (env : Env) (D : XAie_DevInst) (Opts : Option XAie_PartInitOpts)
    (F : Nat) (Q : Call → Prop) (hQ : ∀ c ∈ initCallPool D Opts, Q c) :
    Emits (_XAie_PrivilegeInitPart.atBlockErr env D Opts F) Q := by
  have hclose : Q (closeCall D) := hQ _ (by simp [initCallPool])
  have hnext := emits_atColClock env D Opts F Q hQ
  have hblk : Emits (_XAie_PrivilegeSetPartBlockAxiMmNsuErr env D XAIE_ENABLE XAIE_ENABLE) Q :=
    emits_congr _ _ Q (setPartBlockAxiMmNsuErr_eq env D XAIE_ENABLE XAIE_ENABLE)
      (emits_runCalls env _ Q (fun c hc => hQ c (by simp [initCallPool, hc])))
  by_cases hf : F &&& XAIE_PART_INIT_OPT_BLOCK_NOCAXIMMERR ≠ 0
  · exact emits_congr _ _ Q (fun w => by
      simp only [_XAie_PrivilegeInitPart.atBlockErr, if_pos hf])
      (emits_stage env D _ _ Q hblk hclose hnext)
  · exact emits_congr _ _ Q (fun w => by
      simp only [_XAie_PrivilegeInitPart.atBlockErr, if_neg hf]) hnext

theorem emits_rstPartShims (env : Env) (D : XAie_DevInst) (Q : Call → Prop)
    (hQ : ∀ c ∈ shimResetCalls, Q c) : Emits (_XAie_PrivilegeRstPartShims env D) Q :=
  emits_congr _ _ Q (rstPartShims_eq env D) (emits_runCalls env _ Q hQ)

theorem emits_setPartColReset (env : Env) (D : XAie_DevInst) (en : Nat) (Q : Call → Prop)
    (hQ : ∀ c ∈ colResetCalls D en, Q c) : Emits (_XAie_PrivilegeSetPartColReset env D en) Q :=
  emits_congr _ _ Q (setPartColReset_eq env D en) (emits_runCalls env _ Q hQ)

theorem emits_atShimRst (env : Env) (D : XAie_DevInst) (Opts : Option XAie_PartInitOpts)
    (F : Nat) (Q : Call → Prop) (hQ : ∀ c ∈ initCallPool D Opts, Q c)
    (hNmu : D.DevProp.DevGen = XAIE_DEV_GEN_AIE2PS →
      Emits (_XAie_PrivilegeSetPartNmuSwitch env D) Q) :
    Emits (_XAie_PrivilegeInitPart.atShimRst env D Opts F) Q := by
  have hclose : Q (closeCall D) := hQ _ (by simp [initCallPool])
  have hnext := emits_atBlockErr env D Opts F Q hQ
  have hshim := emits_rstPartShims env D Q (fun c hc => hQ c (by simp [initCallPool, hc]))
  by_cases hf : F &&& XAIE_PART_INIT_OPT_SHIM_RST ≠ 0
  · by_cases hg : D.DevProp.DevGen = XAIE_DEV_GEN_AIE2PS
    · exact emits_congr _ _ Q (fun w => by
        simp only [_XAie_PrivilegeInitPart.atShimRst, if_pos hf, if_pos hg])
        (emits_stage env D _ _ Q hshim hclose
          (emits_stage env D _ _ Q (hNmu hg) hclose hnext))
    · exact emits_congr _ _ Q (fun w => by
        simp only [_XAie_PrivilegeInitPart.atShimRst, if_pos hf, if_neg hg])
        (emits_stage env D _ _ Q hshim hclose hnext)
  · exact emits_congr _ _ Q (fun w => by
      simp only [_XAie_PrivilegeInitPart.atShimRst, if_neg hf]) hnext

theorem emits_atColumnRst (env : Env) (D : XAie_DevInst) (Opts : Option XAie_PartInitOpts)
    (F : Nat) (Q : Call → Prop) (hQ : ∀ c ∈ initCallPool D Opts, Q c)
    (hNmu : D.DevProp.DevGen = XAIE_DEV_GEN_AIE2PS →
      Emits (_XAie_PrivilegeSetPartNmuSwitch env D) Q) :
    Emits (_XAie_PrivilegeInitPart.atColumnRst env D Opts F) Q := by
  have hclose : Q (closeCall D) := hQ _ (by simp [initCallPool])
  have hnext := emits_atShimRst env D Opts F Q hQ hNmu
  have hclk : ∀ en, en = XAIE_DISABLE ∨ en = XAIE_ENABLE →
      Emits (_XAie_PmSetPartitionClock env D en) Q := by
    intro en hen
    refine emits_doCall env _ Q (hQ _ ?_)
    rcases hen with rfl | rfl <;> simp [initCallPool]
  have hrst : ∀ en, en = XAIE_DISABLE ∨ en = XAIE_ENABLE →
      Emits (_XAie_PrivilegeSetPartColReset env D en) Q := by
    intro en hen
    refine emits_setPartColReset env D en Q (fun c hc => hQ c ?_)
    rcases hen with rfl | rfl <;> simp [initCallPool, hc]
  by_cases hf : F &&& XAIE_PART_INIT_OPT_COLUMN_RST ≠ 0
  · exact emits_congr _ _ Q (fun w => by
      simp only [_XAie_PrivilegeInitPart.atColumnRst, if_pos hf])
      (emits_stage env D _ _ Q (hclk _ (Or.inl rfl)) hclose
        (emits_stage env D _ _ Q (hrst _ (Or.inr rfl)) hclose
          (emits_stage env D _ _ Q (hclk _ (Or.inr rfl)) hclose
            (emits_stage env D _ _ Q (hrst _ (Or.inl rfl)) hclose hnext))))
  · exact emits_congr _ _ Q (fun w => by
      simp only [_XAie_PrivilegeInitPart.atColumnRst, if_neg hf]) hnext

/-- Every call of Initialize is in the pool of the steps other than the
NMU-switch step, or is issued by the NMU-switch step on Gen2PS. -/
theorem emits_initPart (env : Env) (D : XAie_DevInst) (Opts : Option XAie_PartInitOpts)
    (Q : Call → Prop) (hQ : ∀ c ∈ initCallPool D Opts, Q c)
    (hNmu : D.DevProp.DevGen = XAIE_DEV_GEN_AIE2PS →
      Emits (_XAie_PrivilegeSetPartNmuSwitch env D) Q) :
    Emits (_XAie_PrivilegeInitPart env D Opts) Q := by
  refine emits_congr _ _ Q (fun w => rfl)
    (emits_bind (_XAie_PrivilegeSetPartProtectedRegs env D XAIE_ENABLE)
      (fun rc w => if rc ≠ XAIE_OK then (rc, w)
        else _XAie_PrivilegeInitPart.atColumnRst env D Opts (optFlagsOf Opts) w) Q
      (emits_setPartProtectedRegs env D XAIE_ENABLE Q (hQ _ (by simp [initCallPool, openCall])))
      ?_)
  intro rc
  by_cases h : rc ≠ XAIE_OK
  · exact emits_congr _ _ Q (fun w => by simp only [if_pos h]) (emits_pure rc Q)
  · exact emits_congr _ _ Q (fun w => by simp only [if_neg h])
      (emits_atColumnRst env D Opts (optFlagsOf Opts) Q hQ hNmu)

/-- Every call of Teardown is in the pool: Teardown has no NMU-switch step. -/
theorem emits_teardownPart (env : Env) (D : XAie_DevInst) (Opts : Option XAie_PartInitOpts)
    (Q : Call → Prop) (hQ : ∀ c ∈ initCallPool D Opts, Q c) :
    Emits (_XAie_PrivilegeTeardownPart env D) Q := by
  have hclose : Q (closeCall D) := hQ _ (by simp [initCallPool])
  have hopen : Q (openCall D) := hQ _ (by simp [initCallPool])
  have hbody : ∀ c ∈ teardownBody D, Q c := by
    intro c hc
    apply hQ
    simp only [teardownBody, List.mem_append, List.mem_cons, List.mem_singleton,
      List.not_mem_nil, or_false] at hc
    simp only [initCallPool, List.mem_append, List.mem_cons, List.mem_singleton,
      List.not_mem_nil, or_false]
    tauto
  have hseq : Emits (seqThen env D (teardownBody D) (doCall env (closeCall D))) Q :=
    emits_stage env D (runCalls env (teardownBody D)) (doCall env (closeCall D)) Q
      (emits_runCalls env _ Q hbody) hclose (emits_doCall env _ Q hclose)
  refine emits_congr _ _ Q (teardownPart_eq env D)
    (emits_congr _ _ Q (fun w => ?_)
      (emits_bind (doCall env (openCall D))
        (fun rc w => if rc ≠ XAIE_OK then (rc, w)
          else seqThen env D (teardownBody D) (doCall env (closeCall D)) w) Q
        (emits_doCall env _ Q hopen) ?_))
  · rfl
  · intro rc
    by_cases h : rc ≠ XAIE_OK
    · exact emits_congr _ _ Q (fun w => by simp only [if_pos h]) (emits_pure rc Q)
    · exact emits_congr _ _ Q (fun w => by simp only [if_neg h]) hseq

theorem initPart_completes (env : Env) (D : XAie_DevInst)
    (Opts : Option XAie_PartInitOpts) (w : World)
    (hT : optFlagsOf Opts &&& XAIE_PART_INIT_OPT_SHIM_RST ≠ 0 →
      D.DevProp.DevGen = XAIE_DEV_GEN_AIE2PS → D.StartCol = 0 →
      D.GetTTypefromLoc (XAie_TileLoc 0 D.ShimRow) = XAIEGBL_TILE_TYPE_SHIMNOC ∧
      D.GetTTypefromLoc (XAie_TileLoc 1 D.ShimRow) = XAIEGBL_TILE_TYPE_SHIMNOC)
    (hOk : allOk env w.trace (openCall D :: initBody D Opts ++ [closeCall D]) = true) :
    (_XAie_PrivilegeInitPart env D Opts w).1 = XAIE_OK ∧
    callsSince w (_XAie_PrivilegeInitPart env D Opts w).2 =
      openCall D :: initBody D Opts ++ [closeCall D] := by
  rw [allOk_append, allOk_cons, Bool.and_eq_true, Bool.and_eq_true, beq_iff_eq] at hOk
  obtain ⟨⟨hOpen, hBody⟩, hClose⟩ := hOk
  have hOpen' : env w.trace (Call.NpiSetProtectedRegEnable D.NumCols XAIE_ENABLE) = XAIE_OK :=
    hOpen
  have hAll : allOk env (w.extend [openCall D]).trace (initBody D Opts ++ [closeCall D])
      = true := by
    rw [allOk_append, Bool.and_eq_true]
    refine ⟨hBody, ?_⟩
    simpa using hClose
  rw [initBody_eq] at hAll
  have h := atColumnRst_completes env D Opts (optFlagsOf Opts) hT (w.extend [openCall D])
    (by simpa [List.append_assoc] using hAll)
  have hrw : _XAie_PrivilegeInitPart env D Opts w =
      _XAie_PrivilegeInitPart.atColumnRst env D Opts (optFlagsOf Opts)
        (w.extend [openCall D]) := by
    simp [_XAie_PrivilegeInitPart, _XAie_PrivilegeSetPartProtectedRegs, doCall_eq, hOpen',
      openCall]
  rw [hrw]
  refine ⟨h.1, ?_⟩
  rw [callsSince, h.2, initBody_eq]
  simp [List.append_assoc]

/-- C11 (amended).  Initialize with the ShimReset option set, on a Gen2PS device
with start column 0 whose tiles at columns 0 and 1 of the shim row are shim-NoC
tiles, when every call of the sequence succeeds: the trace contains the
NMU-switch write for column 0 followed at once by the one for column 1, and
both are writes to the NMU-switch registers. -/
theorem initPart_nmu_switch_invoked (env : Env) (D : XAie_DevInst)
    (Opts : Option XAie_PartInitOpts) (w : World)
    (hFlag : optFlagsOf Opts &&& XAIE_PART_INIT_OPT_SHIM_RST ≠ 0)
    (hGen : D.DevProp.DevGen = XAIE_DEV_GEN_AIE2PS) (hStart : D.StartCol = 0)
    (hT0 : D.GetTTypefromLoc (XAie_TileLoc 0 D.ShimRow) = XAIEGBL_TILE_TYPE_SHIMNOC)
    (hT1 : D.GetTTypefromLoc (XAie_TileLoc 1 D.ShimRow) = XAIEGBL_TILE_TYPE_SHIMNOC)
    (hOk : allOk env w.trace (openCall D :: initBody D Opts ++ [closeCall D]) = true) :
    (∃ pre post, callsSince w (_XAie_PrivilegeInitPart env D Opts w).2 =
      pre ++ nmuSwitchCall D 0 XAIE_ENABLE XAIE_DISABLE ::
        nmuSwitchCall D 1 XAIE_DISABLE XAIE_ENABLE :: post) ∧
    isNmuSwitchWrite D (nmuSwitchCall D 0 XAIE_ENABLE XAIE_DISABLE) = true ∧
    isNmuSwitchWrite D (nmuSwitchCall D 1 XAIE_DISABLE XAIE_ENABLE) = true := by
  refine ⟨?_, by simp [isNmuSwitchWrite, nmuSwitchCall, nmuSwitchAddr],
    by simp [isNmuSwitchWrite, nmuSwitchCall, nmuSwitchAddr]⟩
  have h := (initPart_completes env D Opts w (fun _ _ _ => ⟨hT0, hT1⟩) hOk).2
  rw [h, initBody_eq]
  refine ⟨openCall D :: (initColumnRstCalls D (optFlagsOf Opts) ++ shimResetCalls),
    initBlockErrCalls D (optFlagsOf Opts) ++
        ([Call.SetPartColClockAfterRst XAIE_ENABLE] ++
        ([initIsolationCall (optFlagsOf Opts)] ++ (initZeroizeCalls (optFlagsOf Opts) ++
        (l2IrqCalls D ++ (requestTilesCalls Opts ++ initGen1Calls D))))) ++ [closeCall D], ?_⟩
  simp only [initShimRstCalls, if_pos hFlag, if_pos hGen, nmuSwitchCalls, hStart, ne_eq,
    not_true_eq_false, if_false, List.append_assoc, List.cons_append, List.nil_append]

/-- The scenario of the specification; its trace holds exactly two NMU-switch
writes. -/
theorem initPart_nmu_switch_invoked_witness :
    ((∃ pre post, callsSince World.init
        (_XAie_PrivilegeInitPart envOk exDev2PS (some exOptsScenario) World.init).2 =
      pre ++ nmuSwitchCall exDev2PS 0 XAIE_ENABLE XAIE_DISABLE ::
        nmuSwitchCall exDev2PS 1 XAIE_DISABLE XAIE_ENABLE :: post) ∧
     isNmuSwitchWrite exDev2PS (nmuSwitchCall exDev2PS 0 XAIE_ENABLE XAIE_DISABLE) = true ∧
     isNmuSwitchWrite exDev2PS (nmuSwitchCall exDev2PS 1 XAIE_DISABLE XAIE_ENABLE) = true) ∧
    (callsSince World.init
        (_XAie_PrivilegeInitPart envOk exDev2PS (some exOptsScenario) World.init).2).countP
      (isNmuSwitchWrite exDev2PS) = 2 :=
  ⟨initPart_nmu_switch_invoked envOk exDev2PS (some exOptsScenario) World.init
    (by decide) (by decide) (by decide) (by decide) (by decide) (by decide), by decide⟩

/-- C11 as stated fails.  On the scenario device (Gen2PS, start column 0) with
every call succeeding: without the ShimReset option Initialize issues no
NMU-switch write; and with ShimReset but a shim-PL tile at column 0 of the shim
row it issues none either and returns `XAIE_ERR`. -/
theorem initPart_nmu_switch_counterexample :
    exDev2PS.StartCol = 0 ∧ exDev2PS.DevProp.DevGen = XAIE_DEV_GEN_AIE2PS ∧
    (_XAie_PrivilegeInitPart envOk exDev2PS (some exOptsIsolateZeroize) World.init).1 = XAIE_OK ∧
    (callsSince World.init
        (_XAie_PrivilegeInitPart envOk exDev2PS (some exOptsIsolateZeroize) World.init).2).countP
      (isNmuSwitchWrite exDev2PS) = 0 ∧
    nmuSwitchCall exDev2PS 0 XAIE_ENABLE XAIE_DISABLE ∉
      callsSince World.init
        (_XAie_PrivilegeInitPart envOk exDev2PS (some exOptsIsolateZeroize) World.init).2 ∧
    nmuSwitchCall exDev2PS 1 XAIE_DISABLE XAIE_ENABLE ∉
      callsSince World.init
        (_XAie_PrivilegeInitPart envOk exDev2PS (some exOptsIsolateZeroize) World.init).2 ∧
    exDevPlShim.StartCol = 0 ∧ exDevPlShim.DevProp.DevGen = XAIE_DEV_GEN_AIE2PS ∧
    (_XAie_PrivilegeInitPart envOk exDevPlShim (some exOptsScenario) World.init).1 = XAIE_ERR ∧
    (callsSince World.init
        (_XAie_PrivilegeInitPart envOk exDevPlShim (some exOptsScenario) World.init).2).countP
      (isNmuSwitchWrite exDevPlShim) = 0 := by
  decide

/-- C12.  Initialize and Teardown on a device with a start column other than 0
or a generation other than Gen2PS, for every option set and every environment:
every call of the trace is one of the calls of the steps other than the
NMU-switch step; hence, on a register map where the column-reset, error-mask
and L2 interrupt registers of the partition are not the NMU-switch registers,
the trace holds zero NMU-switch register writes.  And
`_XAie_PrivilegeSetPartNmuSwitch` with a start column other than 0 returns
`XAIE_OK` without any call. -/
theorem no_nmu_switch_write_outside_gen2ps_col0 (env : Env) (D : XAie_DevInst)
    (Opts : Option XAie_PartInitOpts) (w : World)
    (hSkip : D.StartCol ≠ 0 ∨ D.DevProp.DevGen ≠ XAIE_DEV_GEN_AIE2PS) :
    (∀ c ∈ callsSince w (_XAie_PrivilegeInitPart env D Opts w).2, c ∈ initCallPool D Opts) ∧
    (∀ c ∈ callsSince w (_XAie_PrivilegeTeardownPart env D w).2, c ∈ initCallPool D Opts) ∧
    ((∀ C, C < D.NumCols →
        isNmuSwitchWrite D (colResetCall D XAIE_ENABLE C) = false ∧
        isNmuSwitchWrite D (blockErrCall D XAIE_ENABLE XAIE_ENABLE C) = false ∧
        isNmuSwitchWrite D (l2IrqCall D C) = false) →
      (callsSince w (_XAie_PrivilegeInitPart env D Opts w).2).countP (isNmuSwitchWrite D) = 0 ∧
      (callsSince w (_XAie_PrivilegeTeardownPart env D w).2).countP (isNmuSwitchWrite D) = 0) ∧
    (D.StartCol ≠ 0 → _XAie_PrivilegeSetPartNmuSwitch env D w = (XAIE_OK, w)) := by
  have hNmuSkip : D.StartCol ≠ 0 → ∀ w1, _XAie_PrivilegeSetPartNmuSwitch env D w1 = (XAIE_OK, w1) := by
    intro hs w1
    simp [_XAie_PrivilegeSetPartNmuSwitch, hs]
  have hNmu : ∀ Q : Call → Prop, D.DevProp.DevGen = XAIE_DEV_GEN_AIE2PS →
      Emits (_XAie_PrivilegeSetPartNmuSwitch env D) Q := by
    intro Q hg
    have hs : D.StartCol ≠ 0 := by
      rcases hSkip with h | h
      · exact h
      · exact absurd hg h
    exact emits_congr _ _ Q (hNmuSkip hs) (emits_pure XAIE_OK Q)
  have hInit : ∀ Q : Call → Prop, (∀ c ∈ initCallPool D Opts, Q c) →
      ∀ c ∈ callsSince w (_XAie_PrivilegeInitPart env D Opts w).2, Q c :=
    fun Q hQ => emits_callsSince _ Q (emits_initPart env D Opts Q hQ (hNmu Q)) w
  have hTear : ∀ Q : Call → Prop, (∀ c ∈ initCallPool D Opts, Q c) →
      ∀ c ∈ callsSince w (_XAie_PrivilegeTeardownPart env D w).2, Q c :=
    fun Q hQ => emits_callsSince _ Q (emits_teardownPart env D Opts Q hQ) w
  refine ⟨hInit _ (fun c hc => hc), hTear _ (fun c hc => hc), ?_, fun hs => hNmuSkip hs w⟩
  intro hSep
  have hPool : ∀ c ∈ initCallPool D Opts, isNmuSwitchWrite D c = false := by
    intro c hc
    simp only [initCallPool, colResetCalls, blockErrCalls, l2IrqCalls, shimResetCalls,
      List.mem_append, List.mem_cons, List.mem_singleton, List.not_mem_nil, or_false,
      List.mem_map, List.mem_filter, List.mem_range] at hc
    rcases hc with (((((((h | h | h | h) | ⟨C, hC, h⟩) | ⟨C, hC, h⟩) | h | h | h | h) |
      ⟨C, ⟨hC, _⟩, h⟩) | h | h | h | h) | ⟨C, ⟨hC, _⟩, h⟩) | h
    all_goals first
      | (subst h; rfl)
      | (subst h; exact (hSep C hC).1)
      | (subst h; exact (hSep C hC).2.1)
      | (subst h; exact (hSep C hC).2.2)
      | (cases Opts with
         | none => simp [requestTilesCalls] at h
         | some o =>
           by_cases hn : o.NumUseTiles > 0
           · simp only [requestTilesCalls, if_pos hn, List.mem_singleton] at h
             subst h; rfl
           · simp [requestTilesCalls, hn] at h)
  constructor
  · rw [List.countP_eq_zero]
    intro c hc
    simp [hInit _ hPool c hc]
  · rw [List.countP_eq_zero]
    intro c hc
    simp [hTear _ hPool c hc]

/-- A Gen2PS device starting at column 4, with the isolation call failing. -/
theorem no_nmu_switch_write_outside_gen2ps_col0_witness :
    (callsSince World.init
        (_XAie_PrivilegeInitPart
          (envFailOn (.SetPartIsolationAfterRst XAIE_INIT_ISOLATION) XAIE_ERR) exDevStart4
          (some exOptsScenario) World.init).2).countP (isNmuSwitchWrite exDevStart4) = 0 ∧
    (callsSince World.init
        (_XAie_PrivilegeTeardownPart
          (envFailOn (.SetPartIsolationAfterRst XAIE_INIT_ISOLATION) XAIE_ERR) exDevStart4
          World.init).2).countP (isNmuSwitchWrite exDevStart4) = 0 :=
  (no_nmu_switch_write_outside_gen2ps_col0
    (envFailOn (.SetPartIsolationAfterRst XAIE_INIT_ISOLATION) XAIE_ERR) exDevStart4
    (some exOptsScenario) World.init (Or.inl (by decide))).2.2.1 (by decide)

/-! ## AXI-MM isolation -/

/-- The ways `XAie_PrivilegeSetAxiMMIsolation` runs: the window-open fails; on
Gen2PS the backend call fails; otherwise the window is closed and the result of
the close is returned. -/
theorem setAxiMMIsolation_eq (env : Env) (D : XAie_DevInst) (F : Nat) (w : World) :
    XAie_PrivilegeSetAxiMMIsolation env D F w =
      if env w.trace (openCall D) ≠ XAIE_OK then
        (env w.trace (openCall D), w.extend [openCall D])
      else if D.DevProp.DevGen = XAIE_DEV_GEN_AIE2PS then
        if env (w.trace ++ [openCall D]) (Call.SetAxiMMIsolation F) ≠ XAIE_OK then
          (env (w.trace ++ [openCall D]) (Call.SetAxiMMIsolation F),
            w.extend [openCall D, Call.SetAxiMMIsolation F])
        else
          (env (w.trace ++ [openCall D, Call.SetAxiMMIsolation F]) (closeCall D),
            w.extend [openCall D, Call.SetAxiMMIsolation F, closeCall D])
      else
        (env (w.trace ++ [openCall D]) (closeCall D),
          w.extend [openCall D, closeCall D]) := by
  unfold XAie_PrivilegeSetAxiMMIsolation _XAie_PrivilegeSetPartProtectedRegs
  simp only [doCall_eq, openCall, closeCall, World.extend_trace, World.extend_extend,
    List.append_assoc, List.singleton_append, List.cons_append, List.nil_append]

/-- C22 fails on the code.  On the Gen2PS scenario device the window-open
succeeds and the backend's SetAxiMMIsolation is answered with error 7: the
routine returns 7 having issued the open and the backend call only, so the
window is closed zero times on that exit path. -/
theorem setAxiMMIsolation_backend_failure_leaves_window_open :
    exDev2PS.DevProp.DevGen = XAIE_DEV_GEN_AIE2PS ∧
    envFailOn (Call.SetAxiMMIsolation XAIE_ISOLATE_ALL_MASK) 7 [] (openCall exDev2PS)
      = XAIE_OK ∧
    (XAie_PrivilegeSetAxiMMIsolation (envFailOn (Call.SetAxiMMIsolation XAIE_ISOLATE_ALL_MASK) 7)
        exDev2PS XAIE_ISOLATE_ALL_MASK World.init).1 = 7 ∧
    callsSince World.init
      (XAie_PrivilegeSetAxiMMIsolation
        (envFailOn (Call.SetAxiMMIsolation XAIE_ISOLATE_ALL_MASK) 7)
        exDev2PS XAIE_ISOLATE_ALL_MASK World.init).2
      = [openCall exDev2PS, Call.SetAxiMMIsolation XAIE_ISOLATE_ALL_MASK] ∧
    (callsSince World.init
      (XAie_PrivilegeSetAxiMMIsolation
        (envFailOn (Call.SetAxiMMIsolation XAIE_ISOLATE_ALL_MASK) 7)
        exDev2PS XAIE_ISOLATE_ALL_MASK World.init).2).countP isClose = 0 := by
  decide

/-- C23.  On a generation other than Gen2PS and for every flags value,
`XAie_PrivilegeSetAxiMMIsolation` issues protected-register requests only
(never the backend's SetAxiMMIsolation, never a register write); once the
window-open succeeded the calls are exactly the open then the close, the result
is the result of the close, and so the result is `XAIE_OK` when both succeed. -/
theorem setAxiMMIsolation_other_generation_open_then_close (env : Env)
    (D : XAie_DevInst) (F : Nat) (w : World)
    (hGen : D.DevProp.DevGen ≠ XAIE_DEV_GEN_AIE2PS) :
    (∀ c ∈ callsSince w (XAie_PrivilegeSetAxiMMIsolation env D F w).2, isGate c = true) ∧
    (env w.trace (openCall D) = XAIE_OK →
      callsSince w (XAie_PrivilegeSetAxiMMIsolation env D F w).2
        = [openCall D, closeCall D] ∧
      (XAie_PrivilegeSetAxiMMIsolation env D F w).1
        = env (w.trace ++ [openCall D]) (closeCall D)) ∧
    (env w.trace (openCall D) = XAIE_OK →
      env (w.trace ++ [openCall D]) (closeCall D) = XAIE_OK →
      XAie_PrivilegeSetAxiMMIsolation env D F w
        = (XAIE_OK, w.extend [openCall D, closeCall D])) := by
  rw [setAxiMMIsolation_eq]
  simp only [if_neg hGen]
  refine ⟨?_, ?_, ?_⟩
  · split_ifs <;> simp [openCall, closeCall, isGate]
  · intro h; simp [h]
  · intro h1 h2; simp [h1, h2]

theorem setAxiMMIsolation_other_generation_open_then_close_witness :
    callsSince World.init
        (XAie_PrivilegeSetAxiMMIsolation envOk exDevML 0xFF World.init).2
      = [openCall exDevML, closeCall exDevML] ∧
    (XAie_PrivilegeSetAxiMMIsolation envOk exDevML 0xFF World.init).1
      = envOk (World.init.trace ++ [openCall exDevML]) (closeCall exDevML) :=
  (setAxiMMIsolation_other_generation_open_then_close envOk exDevML 0xFF World.init
    (by decide)).2.1 rfl

/-- C24 as stated fails on the code: the flags value `0x10`, which has a bit
outside the low four bits, is not rejected on the Gen2PS scenario device; the
backend's SetAxiMMIsolation is invoked with `0x10` and the result is `XAIE_OK`. -/
theorem setAxiMMIsolation_flags_counterexample :
    0x10 < 256 ∧ 0x10 &&& XAIE_ISOLATE_ALL_MASK = 0 ∧ 0x10 / 16 ≠ 0 ∧
    (XAie_PrivilegeSetAxiMMIsolation envOk exDev2PS 0x10 World.init).1 = XAIE_OK ∧
    callsSince World.init (XAie_PrivilegeSetAxiMMIsolation envOk exDev2PS 0x10 World.init).2
      = [openCall exDev2PS, Call.SetAxiMMIsolation 0x10, closeCall exDev2PS] := by
  decide

/-- C24, amended.  `XAie_PrivilegeSetAxiMMIsolation` does not validate the
flags: on Gen2PS, once the window-open succeeded, every flags value is handed
unchanged to the backend's SetAxiMMIsolation as the call right after the open;
the routine returns the backend's error when that call fails and the result of
the window-close otherwise. -/
theorem setAxiMMIsolation_passes_flags_unchecked (env : Env) (D : XAie_DevInst)
    (F : Nat) (w : World)
    (hGen : D.DevProp.DevGen = XAIE_DEV_GEN_AIE2PS)
    (hOpen : env w.trace (openCall D) = XAIE_OK) :
    (callsSince w (XAie_PrivilegeSetAxiMMIsolation env D F w).2).take 2
      = [openCall D, Call.SetAxiMMIsolation F] ∧
    (env (w.trace ++ [openCall D]) (Call.SetAxiMMIsolation F) ≠ XAIE_OK →
      (XAie_PrivilegeSetAxiMMIsolation env D F w).1
        = env (w.trace ++ [openCall D]) (Call.SetAxiMMIsolation F)) ∧
    (env (w.trace ++ [openCall D]) (Call.SetAxiMMIsolation F) = XAIE_OK →
      XAie_PrivilegeSetAxiMMIsolation env D F w
        = (env (w.trace ++ [openCall D, Call.SetAxiMMIsolation F]) (closeCall D),
            w.extend [openCall D, Call.SetAxiMMIsolation F, closeCall D])) := by
  rw [setAxiMMIsolation_eq]
  simp only [hOpen, ne_eq, not_true_eq_false, if_false, if_pos hGen]
  refine ⟨?_, ?_, ?_⟩
  · split_ifs <;> simp
  · intro h; simp [h]
  · intro h; simp [h]

theorem setAxiMMIsolation_passes_flags_unchecked_witness :
    (callsSince World.init
        (XAie_PrivilegeSetAxiMMIsolation envOk exDev2PS 0xFF World.init).2).take 2
      = [openCall exDev2PS, Call.SetAxiMMIsolation 0xFF] :=
  (setAxiMMIsolation_passes_flags_unchecked envOk exDev2PS 0xFF World.init
    (by decide) (by decide)).1

/-! ## UC DMA pause: argument checks -/

/-- C27.  `XAie_UcDmaPause` returns `XAIE_ERR` for a null device instance and
for a device without UC module descriptor, and returns
`XAIE_INVALID_DMA_DIRECTION` for a direction other than DM2MM and MM2DM on a
device that has the descriptor; in all three cases no call is issued: the world
is returned unchanged. -/
theorem ucDmaPause_argument_checks (env : Env) (Loc : Option XAie_LocType)
    (Dir Pause : Nat) (w : World) :
    XAie_UcDmaPause env none Loc Dir Pause w = (XAIE_ERR, w) ∧
    (∀ D : XAie_DevInst, (D.DevProp.DevMod XAIEGBL_TILE_TYPE_SHIMNOC).UcMod = none →
      XAie_UcDmaPause env (some D) Loc Dir Pause w = (XAIE_ERR, w)) ∧
    (∀ D : XAie_DevInst, (D.DevProp.DevMod XAIEGBL_TILE_TYPE_SHIMNOC).UcMod ≠ none →
      Dir ≠ XAIE_UC_MODULE__DMA_DIR__DM2MM → Dir ≠ XAIE_UC_MODULE__DMA_DIR__MM2DM →
      XAie_UcDmaPause env (some D) Loc Dir Pause w = (XAIE_INVALID_DMA_DIRECTION, w)) := by
  refine ⟨rfl, ?_, ?_⟩
  · intro D h
    simp [XAie_UcDmaPause, h]
  · intro D h h0 h1
    cases hU : (D.DevProp.DevMod XAIEGBL_TILE_TYPE_SHIMNOC).UcMod with
    | none => exact absurd hU h
    | some U =>
      have hs : XAie_UcDmaPause.select U Dir = none := by
        unfold XAie_UcDmaPause.select
        simp [h0, h1]
      simp [XAie_UcDmaPause, hU, hs]

theorem ucDmaPause_argument_checks_witness :
    XAie_UcDmaPause envOk (some exDevNoUc) none XAIE_UC_MODULE__DMA_DIR__DM2MM 1 World.init
      = (XAIE_ERR, World.init) ∧
    XAie_UcDmaPause envOk (some exDev2PS) none 2 1 World.init
      = (XAIE_INVALID_DMA_DIRECTION, World.init) :=
  ⟨(ucDmaPause_argument_checks envOk none XAIE_UC_MODULE__DMA_DIR__DM2MM 1 World.init).2.1
      exDevNoUc rfl,
   (ucDmaPause_argument_checks envOk none 2 1 World.init).2.2 exDev2PS (by decide)
      (by decide) (by decide)⟩

/-! ## Interrupt routing: the scan up to the first failing write -/

/-- C28.  Interrupt routing (`_XAie_PrivilegeSetL2ErrIrq`).  The columns written
are the columns below `NumCols` whose tile in row `ShimRow` is a shim-NoC tile,
taken in ascending order; the write for column `C` puts
`XAIE_ERROR_NPI_INTR_ID` into the register at tile address plus `IrqRegOff`.
When the write for such a column `c` is the first to fail, the writes made are
those for the shim-NoC columns before `c` and the one for `c` (one write per
shim-NoC tile up to and including the failing one) and the code of that write
is returned; when no write fails, one write per shim-NoC tile is made and
`XAIE_OK` is returned. -/
theorem setL2ErrIrq_scan_to_first_failure (env : Env) (D : XAie_DevInst) (w : World) :
    (∀ C, l2IrqCall D C =
      Call.Write32
        ((D.GetTileAddr D.ShimRow C +
          (D.DevProp.DevMod XAIEGBL_TILE_TYPE_SHIMNOC).L2IntrMod.IrqRegOff) % 2 ^ 64)
        XAIE_ERROR_NPI_INTR_ID) ∧
    XAIE_ERROR_NPI_INTR_ID = 0x1 ∧
    ((List.range D.NumCols).filter
      (fun C => D.GetTTypefromLoc ⟨D.ShimRow, C⟩ = XAIEGBL_TILE_TYPE_SHIMNOC)).Pairwise
        (fun a b => a < b) ∧
    (∀ p c rest,
      (List.range D.NumCols).filter
        (fun C => D.GetTTypefromLoc ⟨D.ShimRow, C⟩ = XAIEGBL_TILE_TYPE_SHIMNOC)
        = p ++ c :: rest →
      allOk env w.trace (p.map (l2IrqCall D)) = true →
      env (w.trace ++ p.map (l2IrqCall D)) (l2IrqCall D c) ≠ XAIE_OK →
      _XAie_PrivilegeSetL2ErrIrq env D w =
        (env (w.trace ++ p.map (l2IrqCall D)) (l2IrqCall D c),
         w.extend ((p ++ [c]).map (l2IrqCall D))) ∧
      (callsSince w (_XAie_PrivilegeSetL2ErrIrq env D w).2).length = p.length + 1) ∧
    (allOk env w.trace (l2IrqCalls D) = true →
      _XAie_PrivilegeSetL2ErrIrq env D w = (XAIE_OK, w.extend (l2IrqCalls D)) ∧
      (callsSince w (_XAie_PrivilegeSetL2ErrIrq env D w).2).length =
        ((List.range D.NumCols).filter
          (fun C => D.GetTTypefromLoc ⟨D.ShimRow, C⟩ = XAIEGBL_TILE_TYPE_SHIMNOC)).length) := by
  refine ⟨fun C => rfl, rfl, ?_, ?_, ?_⟩
  · exact List.Pairwise.filter _ (List.pairwise_lt_range _)
  · intro p c rest hL hpre hfail
    have h : _XAie_PrivilegeSetL2ErrIrq env D w =
        (env (w.trace ++ p.map (l2IrqCall D)) (l2IrqCall D c),
         w.extend ((p ++ [c]).map (l2IrqCall D))) := by
      rw [setL2ErrIrq_eq, l2IrqCalls, hL, List.map_append, List.map_cons,
        runCalls_first_fail env _ _ _ w hpre hfail]
      simp
    refine ⟨h, ?_⟩
    rw [h]
    simp
  · intro hall
    have h : _XAie_PrivilegeSetL2ErrIrq env D w = (XAIE_OK, w.extend (l2IrqCalls D)) := by
      rw [setL2ErrIrq_eq, runCalls_of_allOk env _ w hall]
    refine ⟨h, ?_⟩
    rw [h]
    simp [l2IrqCalls]

/-- On the device whose columns 1 and 2 are shim-PL the write for column 3
fails: columns 0 and 3 are written, two writes for the two shim-NoC tiles. -/
theorem setL2ErrIrq_scan_to_first_failure_witness :
    _XAie_PrivilegeSetL2ErrIrq (envFailOn (l2IrqCall exDevMixed 3) 7) exDevMixed World.init =
        (envFailOn (l2IrqCall exDevMixed 3) 7
            (World.init.trace ++ [0].map (l2IrqCall exDevMixed)) (l2IrqCall exDevMixed 3),
         World.init.extend (([0] ++ [3]).map (l2IrqCall exDevMixed))) ∧
    (callsSince World.init
      (_XAie_PrivilegeSetL2ErrIrq (envFailOn (l2IrqCall exDevMixed 3) 7) exDevMixed
        World.init).2).length = [0].length + 1 :=
  (setL2ErrIrq_scan_to_first_failure (envFailOn (l2IrqCall exDevMixed 3) 7) exDevMixed
    World.init).2.2.2.1 [0] 3 [] (by decide) (by decide) (by decide)

/-! ## The tile-type guard of the NMU switch -/

theorem atColumnRst_eq_seqThen (env : Env) (D : XAie_DevInst)
    (Opts : Option XAie_PartInitOpts) (F : Nat) (w : World) :
    _XAie_PrivilegeInitPart.atColumnRst env D Opts F w =
      seqThen env D (initColumnRstCalls D F)
        (_XAie_PrivilegeInitPart.atShimRst env D Opts F) w := by
  by_cases hf : F &&& XAIE_PART_INIT_OPT_COLUMN_RST ≠ 0
  · rw [initColumnRstCalls, if_pos hf, ← seqThen_append, ← seqThen_append, ← seqThen_append]
    simp only [_XAie_PrivilegeInitPart.atColumnRst, if_pos hf, seqThen,
      pmSetPartitionClock_eq, setPartColReset_eq]
  · simp only [_XAie_PrivilegeInitPart.atColumnRst, initColumnRstCalls, if_neg hf, seqThen,
      runCalls, ne_eq, not_true_eq_false, if_false]

theorem seqThen_ne_ok (env : Env) (D : XAie_DevInst) (cs : List Call)
    (k : World → AieRC × World) (hk : ∀ w, (k w).1 ≠ XAIE_OK) (w : World) :
    (seqThen env D cs k w).1 ≠ XAIE_OK := by
  unfold seqThen
  by_cases h : (runCalls env cs w).1 ≠ XAIE_OK
  · simpa [if_pos h, closeAndReturn] using h
  · simpa [if_neg h] using hk _

/-- The guard of `_XAie_PrivilegeSetNmuSwitch` (lines 270-273). -/
theorem setNmuSwitch_guard (env : Env) (D : XAie_DevInst) (Loc : XAie_LocType)
    (Fwd From : Nat) (w : World)
    (h : D.GetTTypefromLoc Loc ≠ XAIEGBL_TILE_TYPE_SHIMNOC) :
    _XAie_PrivilegeSetNmuSwitch env D Loc Fwd From w = (XAIE_ERR, w) := by
  simp [_XAie_PrivilegeSetNmuSwitch, h]

/-- With start column 0 and a tile other than shim-NoC at column 0 or 1 of the
shim row, `_XAie_PrivilegeSetPartNmuSwitch` returns `XAIE_ERR`: at once when the
tile of column 0 is the odd one, after the write for column 0 otherwise. -/
theorem setPartNmuSwitch_bad_tile (env : Env) (D : XAie_DevInst) (w : World)
    (hStart : D.StartCol = 0) :
    (D.GetTTypefromLoc (XAie_TileLoc 0 D.ShimRow) ≠ XAIEGBL_TILE_TYPE_SHIMNOC →
      _XAie_PrivilegeSetPartNmuSwitch env D w = (XAIE_ERR, w)) ∧
    (D.GetTTypefromLoc (XAie_TileLoc 0 D.ShimRow) = XAIEGBL_TILE_TYPE_SHIMNOC →
      D.GetTTypefromLoc (XAie_TileLoc 1 D.ShimRow) ≠ XAIEGBL_TILE_TYPE_SHIMNOC →
      _XAie_PrivilegeSetPartNmuSwitch env D w =
        if env w.trace (nmuSwitchCall D 0 XAIE_ENABLE XAIE_DISABLE) ≠ XAIE_OK then
          (env w.trace (nmuSwitchCall D 0 XAIE_ENABLE XAIE_DISABLE),
            w.extend [nmuSwitchCall D 0 XAIE_ENABLE XAIE_DISABLE])
        else (XAIE_ERR, w.extend [nmuSwitchCall D 0 XAIE_ENABLE XAIE_DISABLE])) := by
  constructor
  · intro h0
    simp [_XAie_PrivilegeSetPartNmuSwitch, hStart, setNmuSwitch_guard env D _ _ _ _ h0]
  · intro h0 h1
    have e0 : _XAie_PrivilegeSetNmuSwitch env D (XAie_TileLoc 0 D.ShimRow)
        XAIE_ENABLE XAIE_DISABLE w =
        doCall env (nmuSwitchCall D 0 XAIE_ENABLE XAIE_DISABLE) w := by
      simp only [_XAie_PrivilegeSetNmuSwitch, h0, ne_eq, not_true_eq_false, if_false]
      rfl
    simp only [_XAie_PrivilegeSetPartNmuSwitch, hStart, ne_eq, not_true_eq_false, if_false,
      e0, setNmuSwitch_guard env D _ _ _ _ h1, doCall_eq]
    split_ifs <;> simp_all

theorem setPartNmuSwitch_ne_ok (env : Env) (D : XAie_DevInst) (w : World)
    (hStart : D.StartCol = 0)
    (hT : D.GetTTypefromLoc (XAie_TileLoc 0 D.ShimRow) ≠ XAIEGBL_TILE_TYPE_SHIMNOC ∨
      D.GetTTypefromLoc (XAie_TileLoc 1 D.ShimRow) ≠ XAIEGBL_TILE_TYPE_SHIMNOC) :
    (_XAie_PrivilegeSetPartNmuSwitch env D w).1 ≠ XAIE_OK := by
  by_cases h0 : D.GetTTypefromLoc (XAie_TileLoc 0 D.ShimRow) = XAIEGBL_TILE_TYPE_SHIMNOC
  · have h1 : D.GetTTypefromLoc (XAie_TileLoc 1 D.ShimRow) ≠ XAIEGBL_TILE_TYPE_SHIMNOC := by
      rcases hT with h | h
      · exact absurd h0 h
      · exact h
    rw [(setPartNmuSwitch_bad_tile env D w hStart).2 h0 h1]
    split_ifs with h
    · exact h
    · exact Nat.one_ne_zero
  · rw [(setPartNmuSwitch_bad_tile env D w hStart).1 h0]
    exact Nat.one_ne_zero

theorem atShimRst_ne_ok (env : Env) (D : XAie_DevInst)
    (Opts : Option XAie_PartInitOpts) (F : Nat) (w : World)
    (hF : F &&& XAIE_PART_INIT_OPT_SHIM_RST ≠ 0)
    (hGen : D.DevProp.DevGen = XAIE_DEV_GEN_AIE2PS) (hStart : D.StartCol = 0)
    (hT : D.GetTTypefromLoc (XAie_TileLoc 0 D.ShimRow) ≠ XAIEGBL_TILE_TYPE_SHIMNOC ∨
      D.GetTTypefromLoc (XAie_TileLoc 1 D.ShimRow) ≠ XAIEGBL_TILE_TYPE_SHIMNOC) :
    (_XAie_PrivilegeInitPart.atShimRst env D Opts F w).1 ≠ XAIE_OK := by
  simp only [_XAie_PrivilegeInitPart.atShimRst, if_pos hF, if_pos hGen]
  by_cases h : (_XAie_PrivilegeRstPartShims env D w).1 ≠ XAIE_OK
  · simpa [if_pos h, closeAndReturn] using h
  · have h2 := setPartNmuSwitch_ne_ok env D (_XAie_PrivilegeRstPartShims env D w).2 hStart hT
    simpa [if_neg h, if_pos h2, closeAndReturn] using h2

theorem atShimRst_bad_tile (env : Env) (D : XAie_DevInst)
    (Opts : Option XAie_PartInitOpts) (F : Nat) (w : World)
    (hF : F &&& XAIE_PART_INIT_OPT_SHIM_RST ≠ 0)
    (hGen : D.DevProp.DevGen = XAIE_DEV_GEN_AIE2PS) (hStart : D.StartCol = 0)
    (hT : D.GetTTypefromLoc (XAie_TileLoc 0 D.ShimRow) ≠ XAIEGBL_TILE_TYPE_SHIMNOC ∨
      D.GetTTypefromLoc (XAie_TileLoc 1 D.ShimRow) ≠ XAIEGBL_TILE_TYPE_SHIMNOC)
    (hOk : allOk env w.trace (shimResetCalls ++
      (if D.GetTTypefromLoc (XAie_TileLoc 0 D.ShimRow) = XAIEGBL_TILE_TYPE_SHIMNOC then
        [nmuSwitchCall D 0 XAIE_ENABLE XAIE_DISABLE] else [])) = true) :
    _XAie_PrivilegeInitPart.atShimRst env D Opts F w =
      (XAIE_ERR, w.extend (shimResetCalls ++
        (if D.GetTTypefromLoc (XAie_TileLoc 0 D.ShimRow) = XAIEGBL_TILE_TYPE_SHIMNOC then
          [nmuSwitchCall D 0 XAIE_ENABLE XAIE_DISABLE] else []) ++ [closeCall D])) := by
  rw [allOk_append, Bool.and_eq_true] at hOk
  obtain ⟨h1, h2⟩ := hOk
  simp only [_XAie_PrivilegeInitPart.atShimRst, if_pos hF, if_pos hGen, rstPartShims_eq,
    runCalls_of_allOk env _ w h1, ne_eq, not_true_eq_false, if_false]
  by_cases h0 : D.GetTTypefromLoc (XAie_TileLoc 0 D.ShimRow) = XAIEGBL_TILE_TYPE_SHIMNOC
  · have hb : D.GetTTypefromLoc (XAie_TileLoc 1 D.ShimRow) ≠ XAIEGBL_TILE_TYPE_SHIMNOC := by
      rcases hT with h | h
      · exact absurd h0 h
      · exact h
    rw [if_pos h0, allOk_cons, Bool.and_eq_true, beq_iff_eq] at h2
    rw [(setPartNmuSwitch_bad_tile env D _ hStart).2 h0 hb]
    simp [h2.1, if_pos h0, closeAndReturn, _XAie_PrivilegeSetPartProtectedRegs, doCall_eq,
      closeCall]
  · rw [(setPartNmuSwitch_bad_tile env D _ hStart).1 h0]
    simp [if_neg h0, closeAndReturn, _XAie_PrivilegeSetPartProtectedRegs, doCall_eq,
      closeCall]

/-- C29.  `_XAie_PrivilegeSetNmuSwitch` on a location whose tile type is not
shim-NoC returns `XAIE_ERR` and issues no call.  Hence, with the ShimReset
option on a Gen2PS device with start column 0 whose tile at column 0 or
column 1 of the shim row is not shim-NoC, `_XAie_PrivilegeInitPart` never
returns `XAIE_OK`, and when the calls before the guard succeed (the open, the
column-reset block, the shim reset and, if column 0 is shim-NoC, its switch
write) it returns `XAIE_ERR` after closing the window. -/
theorem initPart_fails_on_nmu_tile_guard (env : Env) (D : XAie_DevInst)
    (Opts : Option XAie_PartInitOpts) (w : World)
    (hF : optFlagsOf Opts &&& XAIE_PART_INIT_OPT_SHIM_RST ≠ 0)
    (hGen : D.DevProp.DevGen = XAIE_DEV_GEN_AIE2PS) (hStart : D.StartCol = 0)
    (hT : D.GetTTypefromLoc (XAie_TileLoc 0 D.ShimRow) ≠ XAIEGBL_TILE_TYPE_SHIMNOC ∨
      D.GetTTypefromLoc (XAie_TileLoc 1 D.ShimRow) ≠ XAIEGBL_TILE_TYPE_SHIMNOC) :
    (∀ Loc Fwd From w1, D.GetTTypefromLoc Loc ≠ XAIEGBL_TILE_TYPE_SHIMNOC →
      _XAie_PrivilegeSetNmuSwitch env D Loc Fwd From w1 = (XAIE_ERR, w1)) ∧
    (_XAie_PrivilegeInitPart env D Opts w).1 ≠ XAIE_OK ∧
    (allOk env w.trace ([openCall D] ++ initColumnRstCalls D (optFlagsOf Opts) ++
        shimResetCalls ++
        (if D.GetTTypefromLoc (XAie_TileLoc 0 D.ShimRow) = XAIEGBL_TILE_TYPE_SHIMNOC then
          [nmuSwitchCall D 0 XAIE_ENABLE XAIE_DISABLE] else [])) = true →
      _XAie_PrivilegeInitPart env D Opts w =
        (XAIE_ERR, w.extend ([openCall D] ++ initColumnRstCalls D (optFlagsOf Opts) ++
          shimResetCalls ++
          (if D.GetTTypefromLoc (XAie_TileLoc 0 D.ShimRow) = XAIEGBL_TILE_TYPE_SHIMNOC then
            [nmuSwitchCall D 0 XAIE_ENABLE XAIE_DISABLE] else []) ++ [closeCall D]))) := by
  refine ⟨fun Loc Fwd From w1 h => setNmuSwitch_guard env D Loc Fwd From w1 h, ?_, ?_⟩
  · simp only [_XAie_PrivilegeInitPart]
    by_cases h : (_XAie_PrivilegeSetPartProtectedRegs env D XAIE_ENABLE w).1 ≠ XAIE_OK
    · simpa [if_pos h] using h
    · rw [if_neg h, atColumnRst_eq_seqThen]
      exact seqThen_ne_ok env D _ _
        (fun w1 => atShimRst_ne_ok env D Opts _ w1 hF hGen hStart hT) _
  · intro hOk
    rw [List.append_assoc, List.append_assoc, allOk_append, allOk_append, Bool.and_eq_true,
      Bool.and_eq_true] at hOk
    obtain ⟨hOpen, hCol, hShim⟩ := hOk
    have hOpen' : env w.trace (Call.NpiSetProtectedRegEnable D.NumCols XAIE_ENABLE)
        = XAIE_OK := by
      simpa [allOk, openCall] using hOpen
    have hrw : _XAie_PrivilegeInitPart env D Opts w =
        _XAie_PrivilegeInitPart.atColumnRst env D Opts (optFlagsOf Opts)
          (w.extend [openCall D]) := by
      simp [_XAie_PrivilegeInitPart, _XAie_PrivilegeSetPartProtectedRegs, doCall_eq, hOpen',
        openCall]
    rw [hrw, atColumnRst_eq_seqThen, seqThen,
      runCalls_of_allOk env _ (w.extend [openCall D]) (by simpa using hCol)]
    simp only [ne_eq, not_true_eq_false, if_false]
    rw [atShimRst_bad_tile env D Opts _ _ hF hGen hStart hT
      (by simpa [List.append_assoc] using hShim)]
    simp [List.append_assoc]

/-- On the Gen2PS device whose column-0 shim tile is a shim-PL tile, Initialize
with the scenario options fails with `XAIE_ERR` in the all-succeeding
environment. -/
theorem initPart_fails_on_nmu_tile_guard_witness :
    (_XAie_PrivilegeInitPart envOk exDevPlShim (some exOptsScenario) World.init).1
      ≠ XAIE_OK :=
  (initPart_fails_on_nmu_tile_guard envOk exDevPlShim (some exOptsScenario) World.init
    (by decide) (by decide) (by decide) (by decide)).2.1

/-! ## The isolation step of Initialize -/

theorem emits_atGen1Workaround_tail (env : Env) (D : XAie_DevInst)
    (Opts : Option XAie_PartInitOpts)
    (Q : Call → Prop) (hQ : ∀ c ∈ initTailPool D Opts, Q c) :
    Emits (_XAie_PrivilegeInitPart.atGen1Workaround env D) Q := by
  have hclose : Q (closeCall D) := hQ _ (by simp [initTailPool])
  have hclk : Q (.PmSetPartitionClock XAIE_DISABLE) := hQ _ (by simp [initTailPool])
  by_cases hg : D.DevProp.DevGen = XAIE_DEV_GEN_AIE
  · refine emits_congr _ _ Q (fun w => by
      simp only [_XAie_PrivilegeInitPart.atGen1Workaround, if_pos hg])
      (emits_stage env D (_XAie_PmSetPartitionClock env D XAIE_DISABLE)
        (fun w => _XAie_PrivilegeSetPartProtectedRegs env D XAIE_DISABLE
          { w with TilesInUse :=
              _XAie_PrivilegeInitPart.clrLoop D D.NumCols 0 w.TilesInUse })
        Q (emits_doCall env _ Q hclk) hclose ?_)
    exact fun w => ⟨[closeCall D], rfl, by simpa using hclose⟩
  · exact emits_congr _ _ Q (fun w => by
      simp only [_XAie_PrivilegeInitPart.atGen1Workaround, if_neg hg])
      (emits_setPartProtectedRegs env D XAIE_DISABLE Q hclose)

theorem emits_atRequestTiles_tail (env : Env) (D : XAie_DevInst)
    (Opts : Option XAie_PartInitOpts)
    (Q : Call → Prop) (hQ : ∀ c ∈ initTailPool D Opts, Q c) :
    Emits (_XAie_PrivilegeInitPart.atRequestTiles env D Opts) Q := by
  have hclose : Q (closeCall D) := hQ _ (by simp [initTailPool])
  have hnext := emits_atGen1Workaround_tail env D Opts Q hQ
  cases Opts with
  | none => exact emits_congr _ _ Q (fun w => rfl) hnext
  | some o =>
    by_cases hn : o.NumUseTiles > 0
    · have hc : Q (.RunOpRequestTiles { NumTiles := o.NumUseTiles, Locs := o.Locs }) :=
        hQ _ (by simp [initTailPool, requestTilesCalls, hn])
      exact emits_congr _ _ Q (fun w => by
        simp only [_XAie_PrivilegeInitPart.atRequestTiles, if_pos hn])
        (emits_stage env D (doCall env _) _ Q (emits_doCall env _ Q hc) hclose hnext)
    · exact emits_congr _ _ Q (fun w => by
        simp only [_XAie_PrivilegeInitPart.atRequestTiles, if_neg hn]) hnext

theorem emits_atL2ErrIrq_tail (env : Env) (D : XAie_DevInst)
    (Opts : Option XAie_PartInitOpts)
    (Q : Call → Prop) (hQ : ∀ c ∈ initTailPool D Opts, Q c) :
    Emits (_XAie_PrivilegeInitPart.atL2ErrIrq env D Opts) Q := by
  have hl2 : Emits (_XAie_PrivilegeSetL2ErrIrq env D) Q :=
    emits_congr _ _ Q (setL2ErrIrq_eq env D)
      (emits_runCalls env _ Q (fun c hc => hQ c (by simp [initTailPool, hc])))
  refine emits_congr _ _ Q (fun w => rfl)
    (emits_bind (_XAie_PrivilegeSetL2ErrIrq env D)
      (fun rc w => if rc ≠ XAIE_OK then (rc, w)
        else _XAie_PrivilegeInitPart.atRequestTiles env D Opts w) Q hl2 ?_)
  intro rc
  by_cases h : rc ≠ XAIE_OK
  · exact emits_congr _ _ Q (fun w => by simp only [if_pos h]) (emits_pure rc Q)
  · exact emits_congr _ _ Q (fun w => by simp only [if_neg h])
      (emits_atRequestTiles_tail env D Opts Q hQ)

theorem emits_atZeroize_tail (env : Env) (D : XAie_DevInst)
    (Opts : Option XAie_PartInitOpts)
    (F : Nat) (Q : Call → Prop) (hQ : ∀ c ∈ initTailPool D Opts, Q c) :
    Emits (_XAie_PrivilegeInitPart.atZeroize env D Opts F) Q := by
  have hclose : Q (closeCall D) := hQ _ (by simp [initTailPool])
  have hnext := emits_atL2ErrIrq_tail env D Opts Q hQ
  by_cases hf : F &&& XAIE_PART_INIT_OPT_ZEROIZEMEM ≠ 0
  · exact emits_congr _ _ Q (fun w => by
      simp only [_XAie_PrivilegeInitPart.atZeroize, if_pos hf])
      (emits_stage env D (doCall env .PartMemZeroInit) _ Q
        (emits_doCall env _ Q (hQ _ (by simp [initTailPool]))) hclose hnext)
  · exact emits_congr _ _ Q (fun w => by
      simp only [_XAie_PrivilegeInitPart.atZeroize, if_neg hf]) hnext

/-- From the isolation step on: the isolation call with the mode of the option
word comes first, and every later call satisfies `Q`. -/
theorem atIsolation_trace (env : Env) (D : XAie_DevInst)
    (Opts : Option XAie_PartInitOpts)
    (F : Nat) (Q : Call → Prop) (hQ : ∀ c ∈ initTailPool D Opts, Q c) (w : World) :
    ∃ post, (_XAie_PrivilegeInitPart.atIsolation env D Opts F w).2.trace =
        w.trace ++ initIsolationCall F :: post ∧ ∀ c ∈ post, Q c := by
  have hclose : Q (closeCall D) := hQ _ (by simp [initTailPool])
  have hnext := emits_atZeroize_tail env D Opts F Q hQ
  have key : ∀ m, ∃ post,
      (if (doCall env (Call.SetPartIsolationAfterRst m) w).1 ≠ XAIE_OK then
        _XAie_PrivilegeInitPart.atZeroize env D Opts F
          (_XAie_PrivilegeSetPartProtectedRegs env D XAIE_DISABLE
            (doCall env (Call.SetPartIsolationAfterRst m) w).2).2
       else _XAie_PrivilegeInitPart.atZeroize env D Opts F
          (doCall env (Call.SetPartIsolationAfterRst m) w).2).2.trace =
        w.trace ++ Call.SetPartIsolationAfterRst m :: post ∧ ∀ c ∈ post, Q c := by
    intro m
    by_cases h : (doCall env (Call.SetPartIsolationAfterRst m) w).1 ≠ XAIE_OK
    · rw [if_pos h]
      obtain ⟨d, hd, hq⟩ := hnext (_XAie_PrivilegeSetPartProtectedRegs env D XAIE_DISABLE
        (doCall env (Call.SetPartIsolationAfterRst m) w).2).2
      refine ⟨closeCall D :: d, ?_, ?_⟩
      · rw [hd]
        simp [_XAie_PrivilegeSetPartProtectedRegs, doCall_eq, closeCall]
      · intro c hc
        rcases List.mem_cons.1 hc with rfl | h2
        · exact hclose
        · exact hq c h2
    · rw [if_neg h]
      obtain ⟨d, hd, hq⟩ := hnext (doCall env (Call.SetPartIsolationAfterRst m) w).2
      exact ⟨d, by rw [hd]; simp [doCall_eq], hq⟩
  by_cases hf : F &&& XAIE_PART_INIT_OPT_ISOLATE ≠ 0
  · have := key XAIE_INIT_ISOLATION
    simp only [_XAie_PrivilegeInitPart.atIsolation, initIsolationCall, if_pos hf]
    exact this
  · have := key XAIE_CLEAR_ISOLATION
    simp only [_XAie_PrivilegeInitPart.atIsolation, initIsolationCall, if_neg hf]
    exact this

theorem emits_setNmuSwitch (env : Env) (D : XAie_DevInst) (Loc : XAie_LocType)
    (Fwd From : Nat) (Q : Call → Prop) (hQ : ∀ a v, Q (Call.Write32 a v)) :
    Emits (_XAie_PrivilegeSetNmuSwitch env D Loc Fwd From) Q := by
  by_cases h : D.GetTTypefromLoc Loc ≠ XAIEGBL_TILE_TYPE_SHIMNOC
  · exact emits_congr _ _ Q (fun w => setNmuSwitch_guard env D Loc Fwd From w h)
      (emits_pure XAIE_ERR Q)
  · intro w
    simp only [_XAie_PrivilegeSetNmuSwitch, if_neg h]
    exact emits_doCall env _ Q (hQ _ _) w

/-- The NMU-switch routine issues register writes only. -/
theorem emits_setPartNmuSwitch (env : Env) (D : XAie_DevInst) (Q : Call → Prop)
    (hQ : ∀ a v, Q (Call.Write32 a v)) :
    Emits (_XAie_PrivilegeSetPartNmuSwitch env D) Q := by
  by_cases hs : D.StartCol ≠ 0
  · exact emits_congr _ _ Q (fun w => by
      simp only [_XAie_PrivilegeSetPartNmuSwitch, if_pos hs]) (emits_pure XAIE_OK Q)
  · refine emits_congr _ _ Q (fun w => by
      simp only [_XAie_PrivilegeSetPartNmuSwitch, if_neg hs, ite_self])
      (emits_bind (_XAie_PrivilegeSetNmuSwitch env D (XAie_TileLoc 0 D.ShimRow)
          XAIE_ENABLE XAIE_DISABLE)
        (fun rc w => if rc ≠ XAIE_OK then (rc, w)
          else _XAie_PrivilegeSetNmuSwitch env D (XAie_TileLoc 1 D.ShimRow)
            XAIE_DISABLE XAIE_ENABLE w) Q (emits_setNmuSwitch env D _ _ _ Q hQ) ?_)
    intro rc
    by_cases h : rc ≠ XAIE_OK
    · exact emits_congr _ _ Q (fun w => by simp only [if_pos h]) (emits_pure rc Q)
    · exact emits_congr _ _ Q (fun w => by simp only [if_neg h])
        (emits_setNmuSwitch env D (XAie_TileLoc 1 D.ShimRow) XAIE_DISABLE XAIE_ENABLE Q hQ)

theorem isolatesOnce_congr (f g : World → AieRC × World) (m : Nat)
    (hfg : ∀ w, f w = g w) (hg : IsolatesOnce g m) : IsolatesOnce f m := by
  intro w
  rw [hfg w]
  exact hg w

/-- A failure exit that issues no isolation call. -/
theorem isolatesOnce_fail (g : World → AieRC × World) (m : Nat)
    (hrc : ∀ w, (g w).1 ≠ XAIE_OK) (hg : Emits g (fun c => isIsolation c = false)) :
    IsolatesOnce g m := by
  intro w
  obtain ⟨d, hd, hq⟩ := hg w
  exact ⟨d, hd, Or.inl ⟨hrc w, hq⟩⟩

theorem isolatesOnce_bind (f : World → AieRC × World) (g : AieRC → World → AieRC × World)
    (m : Nat) (hf : Emits f (fun c => isIsolation c = false))
    (hg : ∀ rc, IsolatesOnce (g rc) m) :
    IsolatesOnce (fun w => g (f w).1 (f w).2) m := by
  intro w
  obtain ⟨d1, h1, q1⟩ := hf w
  obtain ⟨d2, h2, sh⟩ := hg (f w).1 (f w).2
  refine ⟨d1 ++ d2, by rw [h2, h1, List.append_assoc], ?_⟩
  rcases sh with ⟨hrc, q2⟩ | ⟨pre, post, hd, hpre, hpost⟩
  · left
    refine ⟨hrc, ?_⟩
    intro c hc
    rcases List.mem_append.1 hc with h | h
    · exact q1 c h
    · exact q2 c h
  · right
    refine ⟨d1 ++ pre, post, by rw [hd, List.append_assoc], ?_, hpost⟩
    intro c hc
    rcases List.mem_append.1 hc with h | h
    · exact q1 c h
    · exact hpre c h

theorem isolatesOnce_stage (env : Env) (D : XAie_DevInst) (f next : World → AieRC × World)
    (m : Nat) (hf : Emits f (fun c => isIsolation c = false))
    (hnext : IsolatesOnce next m) :
    IsolatesOnce (fun w => if (f w).1 ≠ XAIE_OK then closeAndReturn env D (f w).1 (f w).2
      else next (f w).2) m := by
  refine isolatesOnce_bind f
    (fun rc w => if rc ≠ XAIE_OK then closeAndReturn env D rc w else next w) m hf ?_
  intro rc
  by_cases h : rc ≠ XAIE_OK
  · exact isolatesOnce_congr _ _ m (fun w => by simp only [if_pos h])
      (isolatesOnce_fail _ m (fun _ => h) (emits_closeAndReturn env D rc _ rfl))
  · exact isolatesOnce_congr _ _ m (fun w => by simp only [if_neg h]) hnext

theorem isolatesOnce_atColClock (env : Env) (D : XAie_DevInst)
    (Opts : Option XAie_PartInitOpts) (F : Nat) :
    IsolatesOnce (_XAie_PrivilegeInitPart.atColClock env D Opts F)
      (if F &&& XAIE_PART_INIT_OPT_ISOLATE ≠ 0 then XAIE_INIT_ISOLATION
       else XAIE_CLEAR_ISOLATION) := by
  intro w
  have hpool : ∀ c ∈ initTailPool D Opts, isIsolation c = false := by
    intro c hc
    simp only [initTailPool, l2IrqCalls, requestTilesCalls, List.mem_append, List.mem_cons,
      List.mem_singleton, List.not_mem_nil, or_false, List.mem_map] at hc
    rcases hc with ((rfl | rfl | rfl) | ⟨C, _, rfl⟩) | hc
    · rfl
    · rfl
    · rfl
    · rfl
    · cases Opts with
      | none => simp at hc
      | some o =>
        by_cases hn : o.NumUseTiles > 0
        · simp only [if_pos hn, List.mem_singleton] at hc
          rw [hc]
          rfl
        · simp [if_neg hn] at hc
  by_cases h : env w.trace (Call.SetPartColClockAfterRst XAIE_ENABLE) ≠ XAIE_OK
  · refine ⟨[Call.SetPartColClockAfterRst XAIE_ENABLE, closeCall D], ?_, Or.inl ⟨?_, ?_⟩⟩
    · simp [_XAie_PrivilegeInitPart.atColClock, doCall_eq, h, closeAndReturn,
        _XAie_PrivilegeSetPartProtectedRegs, closeCall]
    · simp [_XAie_PrivilegeInitPart.atColClock, doCall_eq, h, closeAndReturn]
    · intro c hc
      simp only [List.mem_cons, List.mem_singleton, List.not_mem_nil, or_false] at hc
      rcases hc with rfl | rfl <;> rfl
  · obtain ⟨post, hpost, hq⟩ := atIsolation_trace env D Opts F _ hpool
      (w.extend [Call.SetPartColClockAfterRst XAIE_ENABLE])
    refine ⟨Call.SetPartColClockAfterRst XAIE_ENABLE :: initIsolationCall F :: post, ?_,
      Or.inr ⟨[], post, rfl, by simp, hq⟩⟩
    have hrw : _XAie_PrivilegeInitPart.atColClock env D Opts F w =
        _XAie_PrivilegeInitPart.atIsolation env D Opts F
          (w.extend [Call.SetPartColClockAfterRst XAIE_ENABLE]) := by
      simp only [_XAie_PrivilegeInitPart.atColClock, doCall_eq, if_neg h]
    rw [hrw, hpost]
    simp

theorem colResetCalls_not_isolation (D : XAie_DevInst) (en : Nat) :
    ∀ c ∈ colResetCalls D en, isIsolation c = false := by
  intro c hc
  obtain ⟨C, _, rfl⟩ := List.mem_map.1 hc
  rfl

theorem shimResetCalls_not_isolation : ∀ c ∈ shimResetCalls, isIsolation c = false := by
  decide

theorem blockErrCalls_not_isolation (D : XAie_DevInst) (s d : Nat) :
    ∀ c ∈ blockErrCalls D s d, isIsolation c = false := by
  intro c hc
  obtain ⟨C, _, rfl⟩ := List.mem_map.1 hc
  rfl

theorem isolatesOnce_atBlockErr (env : Env) (D : XAie_DevInst)
    (Opts : Option XAie_PartInitOpts) (F : Nat) :
    IsolatesOnce (_XAie_PrivilegeInitPart.atBlockErr env D Opts F)
      (if F &&& XAIE_PART_INIT_OPT_ISOLATE ≠ 0 then XAIE_INIT_ISOLATION
       else XAIE_CLEAR_ISOLATION) := by
  have hnext := isolatesOnce_atColClock env D Opts F
  by_cases hf : F &&& XAIE_PART_INIT_OPT_BLOCK_NOCAXIMMERR ≠ 0
  · exact isolatesOnce_congr _ _ _ (fun w => by
      simp only [_XAie_PrivilegeInitPart.atBlockErr, if_pos hf])
      (isolatesOnce_stage env D _ _ _
        (emits_congr _ _ _ (setPartBlockAxiMmNsuErr_eq env D XAIE_ENABLE XAIE_ENABLE)
          (emits_runCalls env _ _ (blockErrCalls_not_isolation D _ _))) hnext)
  · exact isolatesOnce_congr _ _ _ (fun w => by
      simp only [_XAie_PrivilegeInitPart.atBlockErr, if_neg hf]) hnext

theorem isolatesOnce_atShimRst (env : Env) (D : XAie_DevInst)
    (Opts : Option XAie_PartInitOpts) (F : Nat) :
    IsolatesOnce (_XAie_PrivilegeInitPart.atShimRst env D Opts F)
      (if F &&& XAIE_PART_INIT_OPT_ISOLATE ≠ 0 then XAIE_INIT_ISOLATION
       else XAIE_CLEAR_ISOLATION) := by
  have hnext := isolatesOnce_atBlockErr env D Opts F
  have hshim := emits_rstPartShims env D _ shimResetCalls_not_isolation
  have hnmu := emits_setPartNmuSwitch env D (fun c => isIsolation c = false)
    (fun _ _ => rfl)
  by_cases hf : F &&& XAIE_PART_INIT_OPT_SHIM_RST ≠ 0
  · by_cases hg : D.DevProp.DevGen = XAIE_DEV_GEN_AIE2PS
    · exact isolatesOnce_congr _ _ _ (fun w => by
        simp only [_XAie_PrivilegeInitPart.atShimRst, if_pos hf, if_pos hg])
        (isolatesOnce_stage env D _ _ _ hshim
          (isolatesOnce_stage env D _ _ _ hnmu hnext))
    · exact isolatesOnce_congr _ _ _ (fun w => by
        simp only [_XAie_PrivilegeInitPart.atShimRst, if_pos hf, if_neg hg])
        (isolatesOnce_stage env D _ _ _ hshim hnext)
  · exact isolatesOnce_congr _ _ _ (fun w => by
      simp only [_XAie_PrivilegeInitPart.atShimRst, if_neg hf]) hnext

theorem isolatesOnce_atColumnRst (env : Env) (D : XAie_DevInst)
    (Opts : Option XAie_PartInitOpts) (F : Nat) :
    IsolatesOnce (_XAie_PrivilegeInitPart.atColumnRst env D Opts F)
      (if F &&& XAIE_PART_INIT_OPT_ISOLATE ≠ 0 then XAIE_INIT_ISOLATION
       else XAIE_CLEAR_ISOLATION) := by
  have hnext := isolatesOnce_atShimRst env D Opts F
  have hclk : ∀ en, Emits (_XAie_PmSetPartitionClock env D en)
      (fun c => isIsolation c = false) :=
    fun en => emits_doCall env _ _ rfl
  have hrst : ∀ en, Emits (_XAie_PrivilegeSetPartColReset env D en)
      (fun c => isIsolation c = false) :=
    fun en => emits_setPartColReset env D en _ (colResetCalls_not_isolation D en)
  by_cases hf : F &&& XAIE_PART_INIT_OPT_COLUMN_RST ≠ 0
  · exact isolatesOnce_congr _ _ _ (fun w => by
      simp only [_XAie_PrivilegeInitPart.atColumnRst, if_pos hf])
      (isolatesOnce_stage env D _ _ _ (hclk XAIE_DISABLE)
        (isolatesOnce_stage env D _ _ _ (hrst XAIE_ENABLE)
          (isolatesOnce_stage env D _ _ _ (hclk XAIE_ENABLE)
            (isolatesOnce_stage env D _ _ _ (hrst XAIE_DISABLE) hnext))))
  · exact isolatesOnce_congr _ _ _ (fun w => by
      simp only [_XAie_PrivilegeInitPart.atColumnRst, if_neg hf]) hnext

theorem isolatesOnce_initPart (env : Env) (D : XAie_DevInst)
    (Opts : Option XAie_PartInitOpts) :
    IsolatesOnce (_XAie_PrivilegeInitPart env D Opts)
      (if optFlagsOf Opts &&& XAIE_PART_INIT_OPT_ISOLATE ≠ 0 then XAIE_INIT_ISOLATION
       else XAIE_CLEAR_ISOLATION) := by
  refine isolatesOnce_congr _ _ _ (fun w => rfl)
    (isolatesOnce_bind (_XAie_PrivilegeSetPartProtectedRegs env D XAIE_ENABLE)
      (fun rc w => if rc ≠ XAIE_OK then (rc, w)
        else _XAie_PrivilegeInitPart.atColumnRst env D Opts (optFlagsOf Opts) w) _
      (emits_setPartProtectedRegs env D XAIE_ENABLE _ rfl) ?_)
  intro rc
  by_cases h : rc ≠ XAIE_OK
  · exact isolatesOnce_congr _ _ _ (fun w => by simp only [if_pos h])
      (isolatesOnce_fail _ _ (fun _ => h) (emits_pure rc _))
  · exact isolatesOnce_congr _ _ _ (fun w => by simp only [if_neg h])
      (isolatesOnce_atColumnRst env D Opts (optFlagsOf Opts))

/-- C25.  Initialize, for every device, option set and environment: either the
run fails before the isolation step and holds no isolation call, or its calls
are `pre ++ SetPartColClockAfterRst(enable) :: SetPartIsolationAfterRst(m) ::
post` with no isolation call in `pre` and `post`, where `m` is
`XAIE_INIT_ISOLATION` when the Isolate flag is set in the option word and
`XAIE_CLEAR_ISOLATION` otherwise.  So the isolation call is made at most once,
exactly once in every run that returns `XAIE_OK`, always with that mode and
always right after the column-clock call. -/
theorem initPart_isolation_once_after_col_clock (env : Env) (D : XAie_DevInst)
    (Opts : Option XAie_PartInitOpts) (w : World) :
    (((_XAie_PrivilegeInitPart env D Opts w).1 ≠ XAIE_OK ∧
        ∀ c ∈ callsSince w (_XAie_PrivilegeInitPart env D Opts w).2, isIsolation c = false) ∨
      ∃ pre post,
        callsSince w (_XAie_PrivilegeInitPart env D Opts w).2 =
          pre ++ Call.SetPartColClockAfterRst XAIE_ENABLE ::
            Call.SetPartIsolationAfterRst
              (if optFlagsOf Opts &&& XAIE_PART_INIT_OPT_ISOLATE ≠ 0 then XAIE_INIT_ISOLATION
               else XAIE_CLEAR_ISOLATION) :: post ∧
        (∀ c ∈ pre, isIsolation c = false) ∧ (∀ c ∈ post, isIsolation c = false) ∧
        (callsSince w (_XAie_PrivilegeInitPart env D Opts w).2).countP isIsolation = 1) ∧
    (callsSince w (_XAie_PrivilegeInitPart env D Opts w).2).countP isIsolation ≤ 1 ∧
    ((_XAie_PrivilegeInitPart env D Opts w).1 = XAIE_OK →
      (callsSince w (_XAie_PrivilegeInitPart env D Opts w).2).countP isIsolation = 1) := by
  obtain ⟨d, hd, sh⟩ := isolatesOnce_initPart env D Opts w
  have hcs : callsSince w (_XAie_PrivilegeInitPart env D Opts w).2 = d := by
    simp [callsSince, hd]
  rw [hcs]
  rcases sh with ⟨hrc, hq⟩ | ⟨pre, post, hshape, hpre, hpost⟩
  · have h0 : d.countP isIsolation = 0 :=
      List.countP_eq_zero.2 (fun c hc => by simp [hq c hc])
    exact ⟨Or.inl ⟨hrc, hq⟩, by omega, fun h => absurd h hrc⟩
  · have hpre0 : pre.countP isIsolation = 0 :=
      List.countP_eq_zero.2 (fun c hc => by simp [hpre c hc])
    have hpost0 : post.countP isIsolation = 0 :=
      List.countP_eq_zero.2 (fun c hc => by simp [hpost c hc])
    have h1 : d.countP isIsolation = 1 := by
      rw [hshape]
      simp [List.countP_append, List.countP_cons, hpre0, hpost0, isIsolation]
    exact ⟨Or.inr ⟨pre, post, hshape, hpre, hpost, h1⟩, by omega, fun _ => h1⟩

/-! ## The `TilesInUse` bitmap -/

theorem onlyCalls_congr (f g : World → AieRC × World) (hfg : ∀ w, f w = g w)
    (hg : OnlyCalls g) : OnlyCalls f := by
  intro w
  rw [hfg w]
  exact hg w

theorem onlyCalls_pure (rc : AieRC) : OnlyCalls (fun w => (rc, w)) :=
  fun w => ⟨[], by simp⟩

theorem onlyCalls_doCall (env : Env) (c : Call) : OnlyCalls (doCall env c) :=
  fun _ => ⟨[c], rfl⟩

theorem onlyCalls_runCalls (env : Env) (cs : List Call) : OnlyCalls (runCalls env cs) := by
  intro w
  rcases runCalls_cases env cs w with ⟨_, h2⟩ | ⟨p, c, rest, _, _, _, h4⟩
  · exact ⟨cs, by rw [h2]⟩
  · exact ⟨p ++ [c], by rw [h4]⟩

theorem onlyCalls_bind (f : World → AieRC × World) (g : AieRC → World → AieRC × World)
    (hf : OnlyCalls f) (hg : ∀ rc, OnlyCalls (g rc)) :
    OnlyCalls (fun w => g (f w).1 (f w).2) := by
  intro w
  obtain ⟨d1, h1⟩ := hf w
  obtain ⟨d2, h2⟩ := hg (f w).1 (f w).2
  exact ⟨d1 ++ d2, by rw [h2, h1, World.extend_extend]⟩

theorem onlyCalls_closeAndReturn (env : Env) (D : XAie_DevInst) (rc : AieRC) :
    OnlyCalls (closeAndReturn env D rc) :=
  fun _ => ⟨[closeCall D], rfl⟩

theorem onlyCalls_setNmuSwitch (env : Env) (D : XAie_DevInst) (Loc : XAie_LocType)
    (Fwd From : Nat) : OnlyCalls (_XAie_PrivilegeSetNmuSwitch env D Loc Fwd From) := by
  by_cases h : D.GetTTypefromLoc Loc ≠ XAIEGBL_TILE_TYPE_SHIMNOC
  · exact onlyCalls_congr _ _ (fun w => setNmuSwitch_guard env D Loc Fwd From w h)
      (onlyCalls_pure XAIE_ERR)
  · intro w
    simp only [_XAie_PrivilegeSetNmuSwitch, if_neg h]
    exact onlyCalls_doCall env _ w

theorem onlyCalls_setPartNmuSwitch (env : Env) (D : XAie_DevInst) :
    OnlyCalls (_XAie_PrivilegeSetPartNmuSwitch env D) := by
  by_cases hs : D.StartCol ≠ 0
  · exact onlyCalls_congr _ _ (fun w => by
      simp only [_XAie_PrivilegeSetPartNmuSwitch, if_pos hs]) (onlyCalls_pure XAIE_OK)
  · refine onlyCalls_congr _ _ (fun w => by
      simp only [_XAie_PrivilegeSetPartNmuSwitch, if_neg hs, ite_self])
      (onlyCalls_bind (_XAie_PrivilegeSetNmuSwitch env D (XAie_TileLoc 0 D.ShimRow)
          XAIE_ENABLE XAIE_DISABLE)
        (fun rc w => if rc ≠ XAIE_OK then (rc, w)
          else _XAie_PrivilegeSetNmuSwitch env D (XAie_TileLoc 1 D.ShimRow)
            XAIE_DISABLE XAIE_ENABLE w) (onlyCalls_setNmuSwitch env D _ _ _) ?_)
    intro rc
    by_cases h : rc ≠ XAIE_OK
    · exact onlyCalls_congr _ _ (fun w => by simp only [if_pos h]) (onlyCalls_pure rc)
    · exact onlyCalls_congr _ _ (fun w => by simp only [if_neg h])
        (onlyCalls_setNmuSwitch env D (XAie_TileLoc 1 D.ShimRow) XAIE_DISABLE XAIE_ENABLE)

theorem tilesAfterInit_congr (D : XAie_DevInst) (f g : World → AieRC × World)
    (hfg : ∀ w, f w = g w) (hg : TilesAfterInit D g) : TilesAfterInit D f := by
  intro w
  rw [hfg w]
  exact hg w

/-- A failure exit that only adds calls. -/
theorem tilesAfterInit_fail (D : XAie_DevInst) (g : World → AieRC × World)
    (hrc : ∀ w, (g w).1 ≠ XAIE_OK) (hg : OnlyCalls g) : TilesAfterInit D g := by
  intro w
  obtain ⟨d, hd⟩ := hg w
  exact ⟨fun _ => by rw [hd]; rfl, fun _ h => absurd h (hrc w)⟩

theorem tilesAfterInit_bind (D : XAie_DevInst) (f : World → AieRC × World)
    (g : AieRC → World → AieRC × World) (hf : OnlyCalls f)
    (hg : ∀ rc, TilesAfterInit D (g rc)) :
    TilesAfterInit D (fun w => g (f w).1 (f w).2) := by
  intro w
  obtain ⟨d1, h1⟩ := hf w
  have h := hg (f w).1 (f w).2
  have ht : (f w).2.TilesInUse = w.TilesInUse := by rw [h1]; rfl
  rw [ht] at h
  exact h

theorem tilesAfterInit_stage (env : Env) (D : XAie_DevInst)
    (f next : World → AieRC × World) (hf : OnlyCalls f) (hnext : TilesAfterInit D next) :
    TilesAfterInit D (fun w => if (f w).1 ≠ XAIE_OK then
      closeAndReturn env D (f w).1 (f w).2 else next (f w).2) := by
  refine tilesAfterInit_bind D f
    (fun rc w => if rc ≠ XAIE_OK then closeAndReturn env D rc w else next w) hf ?_
  intro rc
  by_cases h : rc ≠ XAIE_OK
  · exact tilesAfterInit_congr D _ _ (fun w => by simp only [if_pos h])
      (tilesAfterInit_fail D _ (fun _ => h) (onlyCalls_closeAndReturn env D rc))
  · exact tilesAfterInit_congr D _ _ (fun w => by simp only [if_neg h]) hnext

theorem tilesAfterInit_atGen1Workaround (env : Env) (D : XAie_DevInst) :
    TilesAfterInit D (_XAie_PrivilegeInitPart.atGen1Workaround env D) := by
  intro w
  by_cases hg : D.DevProp.DevGen = XAIE_DEV_GEN_AIE
  · refine ⟨fun h => absurd hg h, fun _ hok => ?_⟩
    simp only [_XAie_PrivilegeInitPart.atGen1Workaround, if_pos hg] at hok ⊢
    by_cases h : (_XAie_PmSetPartitionClock env D XAIE_DISABLE w).1 ≠ XAIE_OK
    · rw [if_pos h] at hok
      exact absurd hok h
    · rw [if_neg h]
      rfl
  · refine ⟨fun _ => ?_, fun h => absurd h hg⟩
    simp only [_XAie_PrivilegeInitPart.atGen1Workaround, if_neg hg]
    rfl

theorem tilesAfterInit_atRequestTiles (env : Env) (D : XAie_DevInst)
    (Opts : Option XAie_PartInitOpts) :
    TilesAfterInit D (_XAie_PrivilegeInitPart.atRequestTiles env D Opts) := by
  have hnext := tilesAfterInit_atGen1Workaround env D
  cases Opts with
  | none => exact tilesAfterInit_congr D _ _ (fun w => rfl) hnext
  | some o =>
    by_cases hn : o.NumUseTiles > 0
    · exact tilesAfterInit_congr D _ _ (fun w => by
        simp only [_XAie_PrivilegeInitPart.atRequestTiles, if_pos hn])
        (tilesAfterInit_stage env D
          (doCall env (.RunOpRequestTiles { NumTiles := o.NumUseTiles, Locs := o.Locs })) _
          (onlyCalls_doCall env _) hnext)
    · exact tilesAfterInit_congr D _ _ (fun w => by
        simp only [_XAie_PrivilegeInitPart.atRequestTiles, if_neg hn]) hnext

theorem tilesAfterInit_atL2ErrIrq (env : Env) (D : XAie_DevInst)
    (Opts : Option XAie_PartInitOpts) :
    TilesAfterInit D (_XAie_PrivilegeInitPart.atL2ErrIrq env D Opts) := by
  refine tilesAfterInit_congr D _ _ (fun w => rfl)
    (tilesAfterInit_bind D (_XAie_PrivilegeSetL2ErrIrq env D)
      (fun rc w => if rc ≠ XAIE_OK then (rc, w)
        else _XAie_PrivilegeInitPart.atRequestTiles env D Opts w)
      (onlyCalls_congr _ _ (setL2ErrIrq_eq env D) (onlyCalls_runCalls env _)) ?_)
  intro rc
  by_cases h : rc ≠ XAIE_OK
  · exact tilesAfterInit_congr D _ _ (fun w => by simp only [if_pos h])
      (tilesAfterInit_fail D _ (fun _ => h) (onlyCalls_pure rc))
  · exact tilesAfterInit_congr D _ _ (fun w => by simp only [if_neg h])
      (tilesAfterInit_atRequestTiles env D Opts)

theorem tilesAfterInit_atZeroize (env : Env) (D : XAie_DevInst)
    (Opts : Option XAie_PartInitOpts) (F : Nat) :
    TilesAfterInit D (_XAie_PrivilegeInitPart.atZeroize env D Opts F) := by
  have hnext := tilesAfterInit_atL2ErrIrq env D Opts
  by_cases hf : F &&& XAIE_PART_INIT_OPT_ZEROIZEMEM ≠ 0
  · exact tilesAfterInit_congr D _ _ (fun w => by
      simp only [_XAie_PrivilegeInitPart.atZeroize, if_pos hf])
      (tilesAfterInit_stage env D (doCall env .PartMemZeroInit) _
        (onlyCalls_doCall env _) hnext)
  · exact tilesAfterInit_congr D _ _ (fun w => by
      simp only [_XAie_PrivilegeInitPart.atZeroize, if_neg hf]) hnext

theorem tilesAfterInit_atIsolation (env : Env) (D : XAie_DevInst)
    (Opts : Option XAie_PartInitOpts) (F : Nat) :
    TilesAfterInit D (_XAie_PrivilegeInitPart.atIsolation env D Opts F) := by
  have hnext := tilesAfterInit_atZeroize env D Opts F
  have hrest : ∀ rc, TilesAfterInit D (fun w => if rc ≠ XAIE_OK then
      _XAie_PrivilegeInitPart.atZeroize env D Opts F
        (_XAie_PrivilegeSetPartProtectedRegs env D XAIE_DISABLE w).2
      else _XAie_PrivilegeInitPart.atZeroize env D Opts F w) := by
    intro rc
    by_cases h : rc ≠ XAIE_OK
    · exact tilesAfterInit_congr D _ _ (fun w => by simp only [if_pos h])
        (tilesAfterInit_bind D (_XAie_PrivilegeSetPartProtectedRegs env D XAIE_DISABLE)
          (fun _ w => _XAie_PrivilegeInitPart.atZeroize env D Opts F w)
          (onlyCalls_doCall env _) (fun _ => hnext))
    · exact tilesAfterInit_congr D _ _ (fun w => by simp only [if_neg h]) hnext
  by_cases hf : F &&& XAIE_PART_INIT_OPT_ISOLATE ≠ 0
  · exact tilesAfterInit_congr D _ _ (fun w => by
      simp only [_XAie_PrivilegeInitPart.atIsolation, if_pos hf])
      (tilesAfterInit_bind D (doCall env (.SetPartIsolationAfterRst XAIE_INIT_ISOLATION)) _
        (onlyCalls_doCall env _) hrest)
  · exact tilesAfterInit_congr D _ _ (fun w => by
      simp only [_XAie_PrivilegeInitPart.atIsolation, if_neg hf])
      (tilesAfterInit_bind D (doCall env (.SetPartIsolationAfterRst XAIE_CLEAR_ISOLATION)) _
        (onlyCalls_doCall env _) hrest)

theorem tilesAfterInit_atColClock (env : Env) (D : XAie_DevInst)
    (Opts : Option XAie_PartInitOpts) (F : Nat) :
    TilesAfterInit D (_XAie_PrivilegeInitPart.atColClock env D Opts F) :=
  tilesAfterInit_congr D _ _ (fun _ => rfl)
    (tilesAfterInit_stage env D (doCall env (.SetPartColClockAfterRst XAIE_ENABLE)) _
      (onlyCalls_doCall env _) (tilesAfterInit_atIsolation env D Opts F))

theorem tilesAfterInit_atBlockErr (env : Env) (D : XAie_DevInst)
    (Opts : Option XAie_PartInitOpts) (F : Nat) :
    TilesAfterInit D (_XAie_PrivilegeInitPart.atBlockErr env D Opts F) := by
  have hnext := tilesAfterInit_atColClock env D Opts F
  by_cases hf : F &&& XAIE_PART_INIT_OPT_BLOCK_NOCAXIMMERR ≠ 0
  · exact tilesAfterInit_congr D _ _ (fun w => by
      simp only [_XAie_PrivilegeInitPart.atBlockErr, if_pos hf])
      (tilesAfterInit_stage env D _ _
        (onlyCalls_congr _ _ (setPartBlockAxiMmNsuErr_eq env D XAIE_ENABLE XAIE_ENABLE)
          (onlyCalls_runCalls env _)) hnext)
  · exact tilesAfterInit_congr D _ _ (fun w => by
      simp only [_XAie_PrivilegeInitPart.atBlockErr, if_neg hf]) hnext

theorem tilesAfterInit_atShimRst (env : Env) (D : XAie_DevInst)
    (Opts : Option XAie_PartInitOpts) (F : Nat) :
    TilesAfterInit D (_XAie_PrivilegeInitPart.atShimRst env D Opts F) := by
  have hnext := tilesAfterInit_atBlockErr env D Opts F
  have hshim : OnlyCalls (_XAie_PrivilegeRstPartShims env D) :=
    onlyCalls_congr _ _ (rstPartShims_eq env D) (onlyCalls_runCalls env _)
  by_cases hf : F &&& XAIE_PART_INIT_OPT_SHIM_RST ≠ 0
  · by_cases hg : D.DevProp.DevGen = XAIE_DEV_GEN_AIE2PS
    · exact tilesAfterInit_congr D _ _ (fun w => by
        simp only [_XAie_PrivilegeInitPart.atShimRst, if_pos hf, if_pos hg])
        (tilesAfterInit_stage env D _ _ hshim
          (tilesAfterInit_stage env D _ _ (onlyCalls_setPartNmuSwitch env D) hnext))
    · exact tilesAfterInit_congr D _ _ (fun w => by
        simp only [_XAie_PrivilegeInitPart.atShimRst, if_pos hf, if_neg hg])
        (tilesAfterInit_stage env D _ _ hshim hnext)
  · exact tilesAfterInit_congr D _ _ (fun w => by
      simp only [_XAie_PrivilegeInitPart.atShimRst, if_neg hf]) hnext

theorem tilesAfterInit_atColumnRst (env : Env) (D : XAie_DevInst)
    (Opts : Option XAie_PartInitOpts) (F : Nat) :
    TilesAfterInit D (_XAie_PrivilegeInitPart.atColumnRst env D Opts F) := by
  have hnext := tilesAfterInit_atShimRst env D Opts F
  have hclk : ∀ en, OnlyCalls (_XAie_PmSetPartitionClock env D en) :=
    fun en => onlyCalls_doCall env _
  have hrst : ∀ en, OnlyCalls (_XAie_PrivilegeSetPartColReset env D en) :=
    fun en => onlyCalls_congr _ _ (setPartColReset_eq env D en) (onlyCalls_runCalls env _)
  by_cases hf : F &&& XAIE_PART_INIT_OPT_COLUMN_RST ≠ 0
  · exact tilesAfterInit_congr D _ _ (fun w => by
      simp only [_XAie_PrivilegeInitPart.atColumnRst, if_pos hf])
      (tilesAfterInit_stage env D _ _ (hclk XAIE_DISABLE)
        (tilesAfterInit_stage env D _ _ (hrst XAIE_ENABLE)
          (tilesAfterInit_stage env D _ _ (hclk XAIE_ENABLE)
            (tilesAfterInit_stage env D _ _ (hrst XAIE_DISABLE) hnext))))
  · exact tilesAfterInit_congr D _ _ (fun w => by
      simp only [_XAie_PrivilegeInitPart.atColumnRst, if_neg hf]) hnext

/-- Initialize and the bitmap, whatever the environment answers. -/
theorem tilesAfterInit_initPart (env : Env) (D : XAie_DevInst)
    (Opts : Option XAie_PartInitOpts) :
    TilesAfterInit D (_XAie_PrivilegeInitPart env D Opts) := by
  refine tilesAfterInit_congr D _ _ (fun w => rfl)
    (tilesAfterInit_bind D (_XAie_PrivilegeSetPartProtectedRegs env D XAIE_ENABLE)
      (fun rc w => if rc ≠ XAIE_OK then (rc, w)
        else _XAie_PrivilegeInitPart.atColumnRst env D Opts (optFlagsOf Opts) w)
      (onlyCalls_doCall env _) ?_)
  intro rc
  by_cases h : rc ≠ XAIE_OK
  · exact tilesAfterInit_congr D _ _ (fun w => by simp only [if_pos h])
      (tilesAfterInit_fail D _ (fun _ => h) (onlyCalls_pure rc))
  · exact tilesAfterInit_congr D _ _ (fun w => by simp only [if_neg h])
      (tilesAfterInit_atColumnRst env D Opts (optFlagsOf Opts))

/-- One iteration of the clearing loop.  The right-hand side is written with
`id` so that the two sides are compared by unfolding the loop, not argument by
argument. -/
theorem clrLoop_succ (D : XAie_DevInst) (n C : Nat) (bm : Nat → Bool) :
    _XAie_PrivilegeInitPart.clrLoop D (n + 1) C bm =
      id (_XAie_PrivilegeInitPart.clrLoop D n (C + 1))
        (_XAie_ClrBitInBitmap bm (_XAie_GetTileBitPosFromLoc D (XAie_TileLoc C 1))
          ((D.NumRows + 2 ^ 32 - 1) % 2 ^ 32)) :=
  rfl

/-- The clearing loop of lines 577-585, bit by bit: a bit is cleared when it
lies in the range of one of the columns the loop visits, and kept otherwise. -/
theorem clrLoop_apply (D : XAie_DevInst) (n C : Nat) (bm : Nat → Bool) (i : Nat) :
    ((∃ c, C ≤ c ∧ c < C + n ∧ _XAie_GetTileBitPosFromLoc D (XAie_TileLoc c 1) ≤ i ∧
        i < _XAie_GetTileBitPosFromLoc D (XAie_TileLoc c 1) +
          (D.NumRows + 2 ^ 32 - 1) % 2 ^ 32) →
      _XAie_PrivilegeInitPart.clrLoop D n C bm i = false) ∧
    ((¬ ∃ c, C ≤ c ∧ c < C + n ∧ _XAie_GetTileBitPosFromLoc D (XAie_TileLoc c 1) ≤ i ∧
        i < _XAie_GetTileBitPosFromLoc D (XAie_TileLoc c 1) +
          (D.NumRows + 2 ^ 32 - 1) % 2 ^ 32) →
      _XAie_PrivilegeInitPart.clrLoop D n C bm i = bm i) := by
  induction n generalizing C bm with
  | zero =>
    refine ⟨?_, fun _ => rfl⟩
    rintro ⟨c, h1, h2, _⟩
    omega
  | succ n ih =>
    rw [clrLoop_succ, id_eq]
    obtain ⟨ih1, ih2⟩ := ih (C + 1)
      (_XAie_ClrBitInBitmap bm (_XAie_GetTileBitPosFromLoc D (XAie_TileLoc C 1))
        ((D.NumRows + 2 ^ 32 - 1) % 2 ^ 32))
    by_cases hex : ∃ c, C + 1 ≤ c ∧ c < C + 1 + n ∧
        _XAie_GetTileBitPosFromLoc D (XAie_TileLoc c 1) ≤ i ∧
        i < _XAie_GetTileBitPosFromLoc D (XAie_TileLoc c 1) +
          (D.NumRows + 2 ^ 32 - 1) % 2 ^ 32
    · refine ⟨fun _ => ih1 hex, fun hno => ?_⟩
      obtain ⟨c, h1, h2, h3⟩ := hex
      exact absurd ⟨c, by omega, by omega, h3⟩ hno
    · rw [ih2 hex]
      constructor
      · rintro ⟨c, h1, h2, h3⟩
        have hc : c = C := by
          by_contra hne
          exact hex ⟨c, by omega, by omega, h3⟩
        subst hc
        simp only [_XAie_ClrBitInBitmap, h3.1, h3.2, and_self, if_true]
      · intro hno
        have : ¬ (_XAie_GetTileBitPosFromLoc D (XAie_TileLoc C 1) ≤ i ∧
            i < _XAie_GetTileBitPosFromLoc D (XAie_TileLoc C 1) +
              (D.NumRows + 2 ^ 32 - 1) % 2 ^ 32) :=
          fun h => hno ⟨C, le_refl _, by omega, h⟩
        simp only [_XAie_ClrBitInBitmap, this, if_false]

/-- The bit position of a tile when the 32-bit arithmetic does not wrap. -/
theorem getTileBitPosFromLoc_eq (D : XAie_DevInst) (R C : Nat) (hRows : 0 < D.NumRows)
    (hR : 1 ≤ R) (hlt : C * (D.NumRows - 1) + R ≤ 2 ^ 32) (hN : D.NumRows ≤ 2 ^ 32) :
    _XAie_GetTileBitPosFromLoc D ⟨R, C⟩ = C * (D.NumRows - 1) + R - 1 := by
  have hlen : (D.NumRows + 2 ^ 32 - 1) % 2 ^ 32 = D.NumRows - 1 := by omega
  simp only [_XAie_GetTileBitPosFromLoc, hlen]
  generalize C * (D.NumRows - 1) = k at hlt ⊢
  omega

/-- The bit ranges of the clearing loop, without wrap-around: column `c` owns
the `NumRows - 1` bits from `c * (NumRows - 1)` on, one for each row from row 1
upwards. -/
theorem tileBit_in_column_range (D : XAie_DevInst) (hRows : 0 < D.NumRows)
    (hSize : D.NumCols * D.NumRows < 2 ^ 32) (c : Nat) (hc : c < D.NumCols) :
    (D.NumRows + 2 ^ 32 - 1) % 2 ^ 32 = D.NumRows - 1 ∧
    _XAie_GetTileBitPosFromLoc D (XAie_TileLoc c 1) = c * (D.NumRows - 1) ∧
    ∀ R, 1 ≤ R → R < D.NumRows →
      _XAie_GetTileBitPosFromLoc D ⟨R, c⟩ = c * (D.NumRows - 1) + (R - 1) := by
  have h1 : c * (D.NumRows - 1) ≤ c * D.NumRows := Nat.mul_le_mul_left _ (Nat.sub_le _ _)
  have h2 : (c + 1) * D.NumRows ≤ D.NumCols * D.NumRows := Nat.mul_le_mul_right _ hc
  rw [Nat.add_mul, Nat.one_mul] at h2
  have hN : D.NumRows ≤ 2 ^ 32 := by
    have : D.NumRows ≤ c * D.NumRows + D.NumRows := Nat.le_add_left _ _
    omega
  refine ⟨by omega, ?_, ?_⟩
  · have := getTileBitPosFromLoc_eq D 1 c hRows (le_refl 1) (by omega) hN
    rw [show XAie_TileLoc c 1 = (⟨1, c⟩ : XAie_LocType) from rfl, this]
    omega
  · intro R hR1 hR2
    rw [getTileBitPosFromLoc_eq D R c hRows hR1 (by omega) hN]
    omega

/-- C26.  Initialize on Gen1 when all steps succeed: the calls are the
window-open, the steps up to the tile request, then the partition clock
disable and the window-close; the final `TilesInUse` bitmap is the result of
the clearing loop, which (with the bitmap laid out column after column, one
bit per row from row 1 upwards, and no 32-bit wrap) clears the bit of every
tile of the rows 1 to `NumRows - 1` of every column below `NumCols`, so in
particular of every row above row 1, and changes no other bit.  On every other
generation Initialize leaves the bitmap unchanged whatever the environment
answers, and a succeeding run ends with the tile request and the window-close,
without the clock disable. -/
theorem initPart_gen1_clears_tiles_in_use (env : Env) (D : XAie_DevInst)
    (Opts : Option XAie_PartInitOpts) (w : World) :
    (D.DevProp.DevGen = XAIE_DEV_GEN_AIE →
      allOk env w.trace (openCall D :: initBody D Opts ++ [closeCall D]) = true →
      (_XAie_PrivilegeInitPart env D Opts w).1 = XAIE_OK ∧
      callsSince w (_XAie_PrivilegeInitPart env D Opts w).2 =
        openCall D :: initStepsToTileRequest D Opts ++
          [Call.PmSetPartitionClock XAIE_DISABLE, closeCall D] ∧
      (_XAie_PrivilegeInitPart env D Opts w).2.TilesInUse =
        _XAie_PrivilegeInitPart.clrLoop D D.NumCols 0 w.TilesInUse ∧
      (0 < D.NumRows → D.NumCols * D.NumRows < 2 ^ 32 →
        (∀ C R, C < D.NumCols → 1 ≤ R → R < D.NumRows →
          (_XAie_PrivilegeInitPart env D Opts w).2.TilesInUse
            (_XAie_GetTileBitPosFromLoc D ⟨R, C⟩) = false) ∧
        (∀ i, (∀ C R, C < D.NumCols → 1 ≤ R → R < D.NumRows →
            i ≠ _XAie_GetTileBitPosFromLoc D ⟨R, C⟩) →
          (_XAie_PrivilegeInitPart env D Opts w).2.TilesInUse i = w.TilesInUse i))) ∧
    (D.DevProp.DevGen ≠ XAIE_DEV_GEN_AIE →
      (_XAie_PrivilegeInitPart env D Opts w).2.TilesInUse = w.TilesInUse ∧
      ((optFlagsOf Opts &&& XAIE_PART_INIT_OPT_SHIM_RST ≠ 0 →
          D.DevProp.DevGen = XAIE_DEV_GEN_AIE2PS → D.StartCol = 0 →
          D.GetTTypefromLoc (XAie_TileLoc 0 D.ShimRow) = XAIEGBL_TILE_TYPE_SHIMNOC ∧
          D.GetTTypefromLoc (XAie_TileLoc 1 D.ShimRow) = XAIEGBL_TILE_TYPE_SHIMNOC) →
        allOk env w.trace (openCall D :: initBody D Opts ++ [closeCall D]) = true →
        callsSince w (_XAie_PrivilegeInitPart env D Opts w).2 =
          openCall D :: initStepsToTileRequest D Opts ++ [closeCall D])) := by
  constructor
  · intro hGen hOk
    have hT : optFlagsOf Opts &&& XAIE_PART_INIT_OPT_SHIM_RST ≠ 0 →
        D.DevProp.DevGen = XAIE_DEV_GEN_AIE2PS → D.StartCol = 0 →
        D.GetTTypefromLoc (XAie_TileLoc 0 D.ShimRow) = XAIEGBL_TILE_TYPE_SHIMNOC ∧
        D.GetTTypefromLoc (XAie_TileLoc 1 D.ShimRow) = XAIEGBL_TILE_TYPE_SHIMNOC := by
      intro _ h2
      rw [hGen] at h2
      exact absurd h2 (by decide)
    obtain ⟨hrc, htr⟩ := initPart_completes env D Opts w hT hOk
    have htiles := (tilesAfterInit_initPart env D Opts w).2 hGen hrc
    refine ⟨hrc, ?_, htiles, ?_⟩
    · rw [htr, initBody_eq]
      simp [initStepsToTileRequest, initGen1Calls, hGen, List.append_assoc]
    · intro hRows hSize
      rw [htiles]
      constructor
      · intro C R hC hR1 hR2
        obtain ⟨hlen, hstart, hbit⟩ := tileBit_in_column_range D hRows hSize C hC
        refine (clrLoop_apply D D.NumCols 0 w.TilesInUse _).1 ⟨C, Nat.zero_le _, by omega, ?_, ?_⟩
        · rw [hstart, hbit R hR1 hR2]
          omega
        · rw [hstart, hbit R hR1 hR2, hlen]
          omega
      · intro i hi
        refine (clrLoop_apply D D.NumCols 0 w.TilesInUse i).2 ?_
        rintro ⟨c, _, hc, h1, h2⟩
        have hc2 : c < D.NumCols := by omega
        obtain ⟨hlen, hstart, hbit⟩ := tileBit_in_column_range D hRows hSize c hc2
        rw [hstart] at h1 h2
        rw [hlen] at h2
        refine hi c (i - c * (D.NumRows - 1) + 1) hc2 (by omega) (by omega) ?_
        rw [hbit _ (by omega) (by omega)]
        omega
  · intro hGen
    refine ⟨(tilesAfterInit_initPart env D Opts w).1 hGen, ?_⟩
    intro hT hOk
    rw [(initPart_completes env D Opts w hT hOk).2, initBody_eq]
    simp [initStepsToTileRequest, initGen1Calls, hGen, List.append_assoc]

/-- On the Gen1 example device (6 rows, 4 columns) in the all-succeeding
environment, starting from a bitmap with every bit set, the bit of the tile at
row 2 of column 3 is clear after Initialize. -/
theorem initPart_gen1_clears_tiles_in_use_witness :
    (_XAie_PrivilegeInitPart envOk exDevGen1 (some exOptsScenario) World.init).2.TilesInUse
      (_XAie_GetTileBitPosFromLoc exDevGen1 ⟨2, 3⟩) = false :=
  ((((initPart_gen1_clears_tiles_in_use envOk exDevGen1 (some exOptsScenario) World.init).1
    (by decide) (by decide)).2.2.2 (by decide) (by decide)).1 3 2 (by decide) (by decide)
    (by decide))

/-! ## The register file under masked writes -/

theorem maskWriteVal_idem (r m v : Nat) :
    maskWriteVal (maskWriteVal r m v) m v = maskWriteVal r m v := by
  apply Nat.eq_of_testBit_eq
  intro i
  simp only [maskWriteVal, Nat.testBit_or, Nat.testBit_and, Nat.testBit_xor]
  cases r.testBit i <;> cases m.testBit i <;> cases v.testBit i <;>
    cases (2 ^ 32 - 1).testBit i <;> rfl

/-- After a masked write the bits under the mask are those of the value. -/
theorem maskWriteVal_field (r m v : Nat) (hm : m < 2 ^ 32) :
    maskWriteVal r m v &&& m = v &&& m := by
  apply Nat.eq_of_testBit_eq
  intro i
  simp only [maskWriteVal, Nat.testBit_or, Nat.testBit_and, Nat.testBit_xor]
  by_cases hi : i < 32
  · have h32 : (2 ^ 32 - 1).testBit i = true := by
      rw [Nat.testBit_two_pow_sub_one]; simpa using hi
    rw [h32]
    cases r.testBit i <;> cases m.testBit i <;> cases v.testBit i <;> rfl
  · have h32 : (2 ^ 32 - 1).testBit i = false := by
      rw [Nat.testBit_two_pow_sub_one]; simpa using hi
    have hle : 2 ^ 32 ≤ 2 ^ i := Nat.pow_le_pow_right (by decide) (by omega)
    have hm0 : m.testBit i = false := Nat.testBit_lt_two_pow (Nat.lt_of_lt_of_le hm hle)
    rw [h32, hm0]
    cases r.testBit i <;> cases v.testBit i <;> rfl

/-- Writing a field and then writing 0 to it gives back a 32-bit content whose
field was 0. -/
theorem maskWriteVal_restore (r m v : Nat) (hr : r < 2 ^ 32) (hm : m < 2 ^ 32)
    (h0 : r &&& m = 0) :
    maskWriteVal (maskWriteVal r m v) m 0 = r := by
  apply Nat.eq_of_testBit_eq
  intro i
  have hbit : (r.testBit i && m.testBit i) = false := by
    rw [← Nat.testBit_and, h0, Nat.zero_testBit]
  simp only [maskWriteVal, Nat.testBit_or, Nat.testBit_and, Nat.testBit_xor,
    Nat.zero_testBit]
  by_cases hi : i < 32
  · have h32 : (2 ^ 32 - 1).testBit i = true := by
      rw [Nat.testBit_two_pow_sub_one]; simpa using hi
    rw [h32]
    revert hbit
    cases r.testBit i <;> cases m.testBit i <;> cases v.testBit i <;> simp
  · have h32 : (2 ^ 32 - 1).testBit i = false := by
      rw [Nat.testBit_two_pow_sub_one]; simpa using hi
    have hle : 2 ^ 32 ≤ 2 ^ i := Nat.pow_le_pow_right (by decide) (by omega)
    have hr0 : r.testBit i = false := Nat.testBit_lt_two_pow (Nat.lt_of_lt_of_le hr hle)
    have hm0 : m.testBit i = false := Nat.testBit_lt_two_pow (Nat.lt_of_lt_of_le hm hle)
    rw [h32, hr0, hm0]
    cases v.testBit i <;> rfl

theorem applyCalls_append (regs : RegFile) (as bs : List Call) :
    applyCalls regs (as ++ bs) = applyCalls (applyCalls regs as) bs := by
  simp [applyCalls, List.foldl_append]

theorem applyCalls_cons (regs : RegFile) (c : Call) (cs : List Call) :
    applyCalls regs (c :: cs) = applyCalls (applyCall regs c) cs := rfl

/-- The same masked write applied to each address of a list: a register of the
list holds the written content, every other register is unchanged. -/
theorem applyCalls_maskWrites (addrs : List Nat) (m v : Nat) (regs : RegFile) (x : Nat) :
    (x ∈ addrs → applyCalls regs (addrs.map (fun a => Call.MaskWrite32 a m v)) x =
      maskWriteVal (regs x) m v) ∧
    (x ∉ addrs → applyCalls regs (addrs.map (fun a => Call.MaskWrite32 a m v)) x =
      regs x) := by
  induction addrs generalizing regs with
  | nil => exact ⟨fun h => absurd h (List.not_mem_nil x), fun _ => rfl⟩
  | cons a t ih =>
    rw [List.map_cons, applyCalls_cons]
    obtain ⟨ih1, ih2⟩ := ih (applyCall regs (Call.MaskWrite32 a m v))
    have hstep : ∀ y, applyCall regs (Call.MaskWrite32 a m v) y =
        if y = a then maskWriteVal (regs a) m v else regs y := fun _ => rfl
    constructor
    · intro hx
      by_cases hxt : x ∈ t
      · rw [ih1 hxt, hstep]
        by_cases hxa : x = a
        · rw [if_pos hxa, maskWriteVal_idem, hxa]
        · rw [if_neg hxa]
      · have hxa : x = a := by
          rcases List.mem_cons.1 hx with h | h
          · exact h
          · exact absurd h hxt
        rw [ih2 hxt, hstep, if_pos hxa, hxa]
    · intro hx
      have hxa : x ≠ a := fun h => hx (h ▸ List.mem_cons_self _ _)
      have hxt : x ∉ t := fun h => hx (List.mem_cons_of_mem _ h)
      rw [ih2 hxt, hstep, if_neg hxa]

/-- The masked writes of a DMA pause call are one write per target register. -/
theorem dmaPause_writes_targets (D : XAie_DevInst) (RegOff Mask FldVal : Nat)
    (Loc : Option XAie_LocType) :
    (match Loc with
      | none => (List.range D.NumCols).map (dmaPauseCall D RegOff Mask FldVal 0)
      | some L => [dmaPauseCall D RegOff Mask FldVal L.Row L.Col]) =
    (dmaPauseTargets D RegOff Loc).map (fun a => Call.MaskWrite32 a Mask FldVal) := by
  cases Loc with
  | none => simp [dmaPauseTargets, dmaPauseCall, List.map_map, Function.comp_def]
  | some L => simp [dmaPauseTargets, dmaPauseCall]

theorem setField_zero (Lsb Mask : Nat) : XAie_SetField 0 Lsb Mask = 0 := by
  simp [XAie_SetField]

theorem setField_under_mask (Val Lsb Mask : Nat) :
    XAie_SetField Val Lsb Mask &&& Mask = XAie_SetField Val Lsb Mask := by
  simp [XAie_SetField, Nat.land_assoc]

/-- The protected-register requests do not touch the register file. -/
theorem applyCalls_gated (regs : RegFile) (D : XAie_DevInst) (cs : List Call) :
    applyCalls regs (openCall D :: cs ++ [closeCall D]) = applyCalls regs cs := by
  rw [List.cons_append, applyCalls_cons, applyCalls_append]
  rfl

/-- The world after a NoC DMA pause call with a valid channel and direction
whose window-open succeeded: the open, one masked write per target register,
the close. -/
theorem nocDmaPause_world (env : Env) (D : XAie_DevInst) (Loc : Option XAie_LocType)
    (ChNum Dir Pause : Nat) (Uninit : XAie_RegFldAttr) (w : World) (M : XAie_DmaMod)
    (hM : (D.DevProp.DevMod XAIEGBL_TILE_TYPE_SHIMNOC).DmaMod = some M)
    (hCh : ChNum = 0 ∨ ChNum = 1) (hDir : Dir = DMA_S2MM ∨ Dir = DMA_MM2S)
    (hOpen : env w.trace (openCall D) = XAIE_OK) :
    (XAie_NocDmaPause env (some D) Loc ChNum Dir Pause Uninit w).2 =
      w.extend (openCall D ::
        (dmaPauseTargets D M.NocDmaPauseReg.RegOff Loc).map
          (fun a => Call.MaskWrite32 a (nocPauseField M ChNum Dir).Mask
            (XAie_SetField Pause (nocPauseField M ChNum Dir).Lsb
              (nocPauseField M ChNum Dir).Mask)) ++ [closeCall D]) := by
  rw [nocDmaPause_run env D Loc ChNum Dir Pause Uninit w M (nocPauseField M ChNum Dir) hM
    (nocDmaPause_select_valid M ChNum Dir Uninit hCh hDir) hOpen, dmaPause_writes_targets]

/-- C21.  NoC DMA pause round trip over the register file.  For a valid
channel and direction, a location or the broadcast, window-opens that succeed,
a 32-bit mask, and an initial register file whose target registers hold 32-bit
contents with pause field 0: after `XAie_NocDmaPause` with pause 1 the pause
field of every target register holds the field value of 1, and after the
following `XAie_NocDmaPause` with pause 0 every register, targeted or not,
holds its initial content again. -/
theorem nocDmaPause_round_trip (env : Env) (D : XAie_DevInst) (Loc : Option XAie_LocType)
    (ChNum Dir : Nat) (Uninit : XAie_RegFldAttr) (w : World) (M : XAie_DmaMod)
    (regs : RegFile)
    (hM : (D.DevProp.DevMod XAIEGBL_TILE_TYPE_SHIMNOC).DmaMod = some M)
    (hCh : ChNum = 0 ∨ ChNum = 1) (hDir : Dir = DMA_S2MM ∨ Dir = DMA_MM2S)
    (hMask : (nocPauseField M ChNum Dir).Mask < 2 ^ 32)
    (hOpen1 : env w.trace (openCall D) = XAIE_OK)
    (hOpen2 : env (XAie_NocDmaPause env (some D) Loc ChNum Dir 1 Uninit w).2.trace
      (openCall D) = XAIE_OK)
    (hRegs : ∀ a ∈ dmaPauseTargets D M.NocDmaPauseReg.RegOff Loc,
      regs a < 2 ^ 32 ∧ regs a &&& (nocPauseField M ChNum Dir).Mask = 0) :
    (∀ a ∈ dmaPauseTargets D M.NocDmaPauseReg.RegOff Loc,
      applyCalls regs
          (callsSince w (XAie_NocDmaPause env (some D) Loc ChNum Dir 1 Uninit w).2) a &&&
        (nocPauseField M ChNum Dir).Mask =
      XAie_SetField 1 (nocPauseField M ChNum Dir).Lsb (nocPauseField M ChNum Dir).Mask) ∧
    (∀ a,
      applyCalls regs
        (callsSince w
          (XAie_NocDmaPause env (some D) Loc ChNum Dir 0 Uninit
            (XAie_NocDmaPause env (some D) Loc ChNum Dir 1 Uninit w).2).2) a = regs a) := by
  have h1 := nocDmaPause_world env D Loc ChNum Dir 1 Uninit w M hM hCh hDir hOpen1
  rw [h1] at hOpen2
  have h2 := nocDmaPause_world env D Loc ChNum Dir 0 Uninit _ M hM hCh hDir hOpen2
  have key : ∀ W1 W0 : List Call,
      applyCalls regs ((openCall D :: W1 ++ [closeCall D]) ++
        (openCall D :: W0 ++ [closeCall D])) = applyCalls (applyCalls regs W1) W0 := by
    intro W1 W0
    rw [applyCalls_append regs (openCall D :: W1 ++ [closeCall D])
      (openCall D :: W0 ++ [closeCall D]), applyCalls_gated, applyCalls_gated]
  constructor
  · intro a ha
    rw [h1, callsSince_extend, applyCalls_gated,
      (applyCalls_maskWrites _ _ _ regs a).1 ha, maskWriteVal_field _ _ _ hMask,
      setField_under_mask]
  · intro a
    rw [h1, h2, World.extend_extend, callsSince_extend, key, setField_zero]
    by_cases ha : a ∈ dmaPauseTargets D M.NocDmaPauseReg.RegOff Loc
    · rw [(applyCalls_maskWrites _ _ _ _ a).1 ha, (applyCalls_maskWrites _ _ _ regs a).1 ha]
      exact maskWriteVal_restore _ _ _ (hRegs a ha).1 hMask (hRegs a ha).2
    · rw [(applyCalls_maskWrites _ _ _ _ a).2 ha, (applyCalls_maskWrites _ _ _ regs a).2 ha]

/-- On the scenario device, broadcast, channel 0, direction S2MM (pause field
bit 0), every register initially `0xA0`: after pause then resume the pause
register of column 2 holds `0xA0` again. -/
theorem nocDmaPause_round_trip_witness :
    applyCalls (fun _ => 0xA0)
      (callsSince World.init
        (XAie_NocDmaPause envOk (some exDev2PS) none 0 DMA_S2MM 0 ⟨0, 0⟩
          (XAie_NocDmaPause envOk (some exDev2PS) none 0 DMA_S2MM 1 ⟨0, 0⟩
            World.init).2).2) ((0x1D308 + exDev2PS.GetTileAddr 0 2) % 2 ^ 64) =
      (fun _ => 0xA0) ((0x1D308 + exDev2PS.GetTileAddr 0 2) % 2 ^ 64) :=
  (nocDmaPause_round_trip envOk exDev2PS none 0 DMA_S2MM ⟨0, 0⟩ World.init
    ⟨{ RegOff := 0x1D308, S2mm_0 := ⟨0, 0x1⟩, S2mm_1 := ⟨1, 0x2⟩,
       Mm2s_0 := ⟨2, 0x4⟩, Mm2s_1 := ⟨3, 0x8⟩ }⟩
    (fun _ => 0xA0) rfl (Or.inl rfl) (Or.inl rfl) (by decide) rfl rfl
    (fun _ _ => ⟨(by decide : (0xA0 : Nat) < 2 ^ 32),
      (by decide : (0xA0 : Nat) &&& 0x1 = 0)⟩)).2
    ((0x1D308 + exDev2PS.GetTileAddr 0 2) % 2 ^ 64)

/-! ## Performance counters -/

/-- A call of `XAie_PerfCounterSet` that passes the three checks: one write of
the value to the counter register. -/
theorem perfCounterSet_valid (D : PerfCnt.XAie_DevInst) (Loc : XAie_LocType)
    (Counter v : Nat) (regs : RegFile)
    (hReady : D.IsReady = XAIE_COMPONENT_IS_READY)
    (hTile : D.GetTileTypefromLoc Loc ≠ XAIEGBL_TILE_TYPE_MAX)
    (hCounter : PerfCnt.relCounter Counter <
      (PerfCnt.selectedPerfMod D Loc Counter).MaxCounterVal) :
    PerfCnt.XAie_PerfCounterSet (some D) Loc Counter v regs =
      (XAIE_OK, XAieGbl_Write32 regs (PerfCnt.counterRegAddr D Loc Counter) v) := by
  have hc : ¬ (PerfCnt.relCounter Counter ≥
      (PerfCnt.selectedPerfMod D Loc Counter).MaxCounterVal) := Nat.not_le.2 hCounter
  simp only [PerfCnt.relCounter, PerfCnt.selectedPerfMod] at hc
  simp only [PerfCnt.XAie_PerfCounterSet, hReady, ne_eq, not_true_eq_false, if_false,
    if_neg hTile, if_neg hc, PerfCnt.counterRegAddr, PerfCnt.relCounter,
    PerfCnt.selectedPerfMod]

/-- A call of `XAie_PerfCounterGet` that passes the three checks: one read of
the counter register. -/
theorem perfCounterGet_valid (D : PerfCnt.XAie_DevInst) (Loc : XAie_LocType)
    (Counter : Nat) (regs : RegFile)
    (hReady : D.IsReady = XAIE_COMPONENT_IS_READY)
    (hTile : D.GetTileTypefromLoc Loc ≠ XAIEGBL_TILE_TYPE_MAX)
    (hCounter : PerfCnt.relCounter Counter <
      (PerfCnt.selectedPerfMod D Loc Counter).MaxCounterVal) :
    PerfCnt.XAie_PerfCounterGet (some D) Loc Counter regs =
      XAieGbl_Read32 regs (PerfCnt.counterRegAddr D Loc Counter) := by
  have hc : ¬ (PerfCnt.relCounter Counter ≥
      (PerfCnt.selectedPerfMod D Loc Counter).MaxCounterVal) := Nat.not_le.2 hCounter
  simp only [PerfCnt.relCounter, PerfCnt.selectedPerfMod] at hc
  simp only [PerfCnt.XAie_PerfCounterGet, hReady, ne_eq, not_true_eq_false, if_false,
    if_neg hTile, if_neg hc, PerfCnt.counterRegAddr, PerfCnt.relCounter,
    PerfCnt.selectedPerfMod]

/-- C30.  Performance counter set/get round trip over the register file.  For
a ready device instance, a location whose tile type is valid and a counter
whose module-relative number is below `MaxCounterVal` of the selected module,
`XAie_PerfCounterSet` with a 32-bit value `v` returns `XAIE_OK` and a following
`XAie_PerfCounterGet` returns `v`: the set writes `v` to the counter register
and changes no other register, the get reads the same register, whose address
is `BaseAddr + TileAddr(Loc) + PerfCounterBaseAddr + Counter *
PerfCounterOffsetAdd` of the selected module when the 32-bit offset and the
64-bit sum do not wrap. -/
theorem perfCounter_set_get_round_trip (D : PerfCnt.XAie_DevInst) (Loc : XAie_LocType)
    (Counter v : Nat) (regs : RegFile)
    (hReady : D.IsReady = XAIE_COMPONENT_IS_READY)
    (hTile : D.GetTileTypefromLoc Loc ≠ XAIEGBL_TILE_TYPE_MAX)
    (hCounter : PerfCnt.relCounter Counter <
      (PerfCnt.selectedPerfMod D Loc Counter).MaxCounterVal)
    (hv : v < 2 ^ 32) :
    (PerfCnt.XAie_PerfCounterSet (some D) Loc Counter v regs).1 = XAIE_OK ∧
    PerfCnt.XAie_PerfCounterGet (some D) Loc Counter
      (PerfCnt.XAie_PerfCounterSet (some D) Loc Counter v regs).2 = v ∧
    (PerfCnt.XAie_PerfCounterSet (some D) Loc Counter v regs).2 =
      XAieGbl_Write32 regs (PerfCnt.counterRegAddr D Loc Counter) v ∧
    (∀ regs1, PerfCnt.XAie_PerfCounterGet (some D) Loc Counter regs1 =
      XAieGbl_Read32 regs1 (PerfCnt.counterRegAddr D Loc Counter)) ∧
    (∀ a, a ≠ PerfCnt.counterRegAddr D Loc Counter →
      (PerfCnt.XAie_PerfCounterSet (some D) Loc Counter v regs).2 a = regs a) ∧
    ((PerfCnt.selectedPerfMod D Loc Counter).PerfCounterBaseAddr +
        PerfCnt.relCounter Counter *
          (PerfCnt.selectedPerfMod D Loc Counter).PerfCounterOffsetAdd < 2 ^ 32 →
      D.BaseAddr + D.GetTileAddr Loc.Row Loc.Col +
        (PerfCnt.selectedPerfMod D Loc Counter).PerfCounterBaseAddr +
        PerfCnt.relCounter Counter *
          (PerfCnt.selectedPerfMod D Loc Counter).PerfCounterOffsetAdd < 2 ^ 64 →
      PerfCnt.counterRegAddr D Loc Counter =
        D.BaseAddr + D.GetTileAddr Loc.Row Loc.Col +
          (PerfCnt.selectedPerfMod D Loc Counter).PerfCounterBaseAddr +
          PerfCnt.relCounter Counter *
            (PerfCnt.selectedPerfMod D Loc Counter).PerfCounterOffsetAdd) := by
  have hset := perfCounterSet_valid D Loc Counter v regs hReady hTile hCounter
  have hget := fun regs1 => perfCounterGet_valid D Loc Counter regs1 hReady hTile hCounter
  refine ⟨by rw [hset], ?_, by rw [hset], hget, ?_, ?_⟩
  · rw [hset, hget]
    simp only [XAieGbl_Read32, XAieGbl_Write32, if_true, Nat.mod_eq_of_lt hv]
  · intro a ha
    rw [hset]
    simp only [XAieGbl_Write32, if_neg ha]
  · intro h1 h2
    simp only [PerfCnt.counterRegAddr]
    rw [Nat.mod_eq_of_lt h1, Nat.mod_eq_of_lt (by omega)]
    omega

/-- On the example device, memory-module counter 1 (counter number 5) of the
tile at row 1, column 2: setting `0x1234` and reading back gives `0x1234`. -/
theorem perfCounter_set_get_round_trip_witness :
    PerfCnt.XAie_PerfCounterGet (some PerfCnt.exPerfDev) ⟨1, 2⟩ 5
      (PerfCnt.XAie_PerfCounterSet (some PerfCnt.exPerfDev) ⟨1, 2⟩ 5 0x1234
        (fun _ => 0)).2 = 0x1234 :=
  (perfCounter_set_get_round_trip PerfCnt.exPerfDev ⟨1, 2⟩ 5 0x1234 (fun _ => 0) rfl
    (by decide) (by decide) (by decide)).2.1

/-! ## Performance counter control -/

/-- `XAie_PerfCounterControlSet` on a ready device at a location with a valid
tile type: the three remaining checks in source order, then the one masked
write. -/
theorem perfCounterControlSet_eq (D : PerfCnt.XAie_DevInst) (Loc : XAie_LocType)
    (Counter StartEvent StopEvent : Nat) (regs : RegFile)
    (hReady : D.IsReady = XAIE_COMPONENT_IS_READY)
    (hTile : D.GetTileTypefromLoc Loc ≠ XAIEGBL_TILE_TYPE_MAX) :
    PerfCnt.XAie_PerfCounterControlSet (some D) Loc Counter StartEvent StopEvent regs =
      if StartEvent < (PerfCnt.selectedEvntMod D Loc Counter).EventMin ∨
          StartEvent > (PerfCnt.selectedEvntMod D Loc Counter).EventMax ∨
          StopEvent < (PerfCnt.selectedEvntMod D Loc Counter).EventMin ∨
          StopEvent > (PerfCnt.selectedEvntMod D Loc Counter).EventMax then
        (XAIE_INVALID_ARGS, regs)
      else if PerfCnt.intEvent D Loc Counter StartEvent = XAIE_EVENT_INVALID ∨
          PerfCnt.intEvent D Loc Counter StopEvent = XAIE_EVENT_INVALID then
        (XAIE_INVALID_ARGS, regs)
      else if PerfCnt.relCounter Counter ≥
          (PerfCnt.selectedPerfMod D Loc Counter).MaxCounterVal then
        (XAIE_INVALID_ARGS, regs)
      else
        (XAIE_OK, XAieGbl_MaskWrite32 regs (PerfCnt.ctrlRegAddr D Loc Counter)
          (PerfCnt.ctrlFldMask D Loc Counter)
          (PerfCnt.ctrlFldVal D Loc Counter StartEvent StopEvent)) := by
  simp only [PerfCnt.XAie_PerfCounterControlSet, hReady, ne_eq, not_true_eq_false, if_false,
    if_neg hTile, PerfCnt.selectedEvntMod, PerfCnt.selectedPerfMod, PerfCnt.relCounter,
    PerfCnt.intEvent, PerfCnt.ctrlRegAddr, PerfCnt.ctrlRegOffset, PerfCnt.ctrlFldMask,
    PerfCnt.ctrlFldVal, PerfCnt.ctrlShift]

/-- C31.  Validation of `XAie_PerfCounterControlSet`, the checks taken in
source order.  A null or not-ready device instance gives `XAIE_INVALID_ARGS`;
on a ready device the tile type `XAIEGBL_TILE_TYPE_MAX` gives
`XAIE_INVALID_TILE`; on a ready device with a valid tile type an event outside
`[EventMin, EventMax]` of the selected event module, an event mapped to
`XAIE_EVENT_INVALID`, or a module-relative counter not below `MaxCounterVal`
gives `XAIE_INVALID_ARGS`.  In each of these cases the register file is
returned as it was; in the one remaining case the register file is the old
one after exactly one masked write and the result is `XAIE_OK`. -/
theorem perfCounterControlSet_validation (D : PerfCnt.XAie_DevInst) (Loc : XAie_LocType)
    (Counter StartEvent StopEvent : Nat) (regs : RegFile) :
    PerfCnt.XAie_PerfCounterControlSet none Loc Counter StartEvent StopEvent regs =
      (XAIE_INVALID_ARGS, regs) ∧
    (D.IsReady ≠ XAIE_COMPONENT_IS_READY →
      PerfCnt.XAie_PerfCounterControlSet (some D) Loc Counter StartEvent StopEvent regs =
        (XAIE_INVALID_ARGS, regs)) ∧
    (D.IsReady = XAIE_COMPONENT_IS_READY →
      D.GetTileTypefromLoc Loc = XAIEGBL_TILE_TYPE_MAX →
      PerfCnt.XAie_PerfCounterControlSet (some D) Loc Counter StartEvent StopEvent regs =
        (XAIE_INVALID_TILE, regs)) ∧
    (D.IsReady = XAIE_COMPONENT_IS_READY →
      D.GetTileTypefromLoc Loc ≠ XAIEGBL_TILE_TYPE_MAX →
      (StartEvent < (PerfCnt.selectedEvntMod D Loc Counter).EventMin ∨
        StartEvent > (PerfCnt.selectedEvntMod D Loc Counter).EventMax ∨
        StopEvent < (PerfCnt.selectedEvntMod D Loc Counter).EventMin ∨
        StopEvent > (PerfCnt.selectedEvntMod D Loc Counter).EventMax) →
      PerfCnt.XAie_PerfCounterControlSet (some D) Loc Counter StartEvent StopEvent regs =
        (XAIE_INVALID_ARGS, regs)) ∧
    (D.IsReady = XAIE_COMPONENT_IS_READY →
      D.GetTileTypefromLoc Loc ≠ XAIEGBL_TILE_TYPE_MAX →
      (PerfCnt.intEvent D Loc Counter StartEvent = XAIE_EVENT_INVALID ∨
        PerfCnt.intEvent D Loc Counter StopEvent = XAIE_EVENT_INVALID) →
      PerfCnt.XAie_PerfCounterControlSet (some D) Loc Counter StartEvent StopEvent regs =
        (XAIE_INVALID_ARGS, regs)) ∧
    (D.IsReady = XAIE_COMPONENT_IS_READY →
      D.GetTileTypefromLoc Loc ≠ XAIEGBL_TILE_TYPE_MAX →
      PerfCnt.relCounter Counter ≥ (PerfCnt.selectedPerfMod D Loc Counter).MaxCounterVal →
      PerfCnt.XAie_PerfCounterControlSet (some D) Loc Counter StartEvent StopEvent regs =
        (XAIE_INVALID_ARGS, regs)) ∧
    (D.IsReady = XAIE_COMPONENT_IS_READY →
      D.GetTileTypefromLoc Loc ≠ XAIEGBL_TILE_TYPE_MAX →
      PerfCnt.eventsAccepted D Loc Counter StartEvent StopEvent →
      PerfCnt.relCounter Counter < (PerfCnt.selectedPerfMod D Loc Counter).MaxCounterVal →
      PerfCnt.XAie_PerfCounterControlSet (some D) Loc Counter StartEvent StopEvent regs =
        (XAIE_OK, XAieGbl_MaskWrite32 regs (PerfCnt.ctrlRegAddr D Loc Counter)
          (PerfCnt.ctrlFldMask D Loc Counter)
          (PerfCnt.ctrlFldVal D Loc Counter StartEvent StopEvent))) := by
  refine ⟨rfl, ?_, ?_, ?_, ?_, ?_, ?_⟩
  · intro h
    simp only [PerfCnt.XAie_PerfCounterControlSet, if_pos h]
  · intro hR hT
    simp only [PerfCnt.XAie_PerfCounterControlSet, hR, ne_eq, not_true_eq_false, if_false,
      if_pos hT]
  · intro hR hT hE
    rw [perfCounterControlSet_eq D Loc Counter StartEvent StopEvent regs hR hT, if_pos hE]
  · intro hR hT hI
    rw [perfCounterControlSet_eq D Loc Counter StartEvent StopEvent regs hR hT, if_pos hI]
    split_ifs <;> rfl
  · intro hR hT hC
    rw [perfCounterControlSet_eq D Loc Counter StartEvent StopEvent regs hR hT, if_pos hC]
    split_ifs <;> rfl
  · intro hR hT hE hC
    obtain ⟨⟨h1, h2, h3, h4⟩, h5, h6⟩ := hE
    rw [perfCounterControlSet_eq D Loc Counter StartEvent StopEvent regs hR hT,
      if_neg (by omega), if_neg (by tauto), if_neg (by omega)]

/-- On the example device, core counter 1 of the tile at row 1, column 2 with
start event 3 and stop event 7: one masked write, result `XAIE_OK`. -/
theorem perfCounterControlSet_validation_witness :
    PerfCnt.XAie_PerfCounterControlSet (some PerfCnt.exPerfDev) ⟨1, 2⟩ 1 3 7 (fun _ => 0) =
      (XAIE_OK, XAieGbl_MaskWrite32 (fun _ => 0)
        (PerfCnt.ctrlRegAddr PerfCnt.exPerfDev ⟨1, 2⟩ 1)
        (PerfCnt.ctrlFldMask PerfCnt.exPerfDev ⟨1, 2⟩ 1)
        (PerfCnt.ctrlFldVal PerfCnt.exPerfDev ⟨1, 2⟩ 1 3 7)) :=
  (perfCounterControlSet_validation PerfCnt.exPerfDev ⟨1, 2⟩ 1 3 7 (fun _ => 0)).2.2.2.2.2.2
    rfl (by decide)
    ⟨⟨by decide, by decide, by decide, by decide⟩, by decide, by decide⟩ (by decide)

/-- Two fields set under masks shifted by the same amount have no bit outside
the shifted union of the masks (32-bit). -/
theorem shifted_fields_under_mask (x y l1 l2 A B s : Nat) :
    (XAie_SetField x l1 ((A <<< s) % 2 ^ 32) ||| XAie_SetField y l2 ((B <<< s) % 2 ^ 32)) &&&
      ((2 ^ 32 - 1) ^^^ (((A ||| B) <<< s) % 2 ^ 32)) = 0 := by
  apply Nat.eq_of_testBit_eq
  intro i
  simp only [XAie_SetField, Nat.testBit_and, Nat.testBit_or, Nat.testBit_xor,
    Nat.testBit_mod_two_pow, Nat.testBit_shiftLeft, Nat.testBit_two_pow_sub_one,
    Nat.zero_testBit]
  cases decide (i < 32) <;> cases decide (i ≥ s) <;> cases A.testBit (i - s) <;>
    cases B.testBit (i - s) <;> simp

theorem shifted_fields_and_mask (x y l1 l2 A B s : Nat) :
    (XAie_SetField x l1 ((A <<< s) % 2 ^ 32) ||| XAie_SetField y l2 ((B <<< s) % 2 ^ 32)) &&&
      (((A ||| B) <<< s) % 2 ^ 32) =
    (XAie_SetField x l1 ((A <<< s) % 2 ^ 32) ||| XAie_SetField y l2 ((B <<< s) % 2 ^ 32)) := by
  apply Nat.eq_of_testBit_eq
  intro i
  simp only [XAie_SetField, Nat.testBit_and, Nat.testBit_or,
    Nat.testBit_mod_two_pow, Nat.testBit_shiftLeft]
  cases decide (i < 32) <;> cases decide (i ≥ s) <;> cases A.testBit (i - s) <;>
    cases B.testBit (i - s) <;> simp

/-- An even counter number and its successor select the same modules, and the
successor is the next module-relative counter. -/
theorem perfCounter_pair (D : PerfCnt.XAie_DevInst) (Loc : XAie_LocType) (Counter : Nat)
    (hEven : Counter % 2 = 0) :
    PerfCnt.selectedPerfMod D Loc (Counter + 1) = PerfCnt.selectedPerfMod D Loc Counter ∧
    PerfCnt.relCounter (Counter + 1) = PerfCnt.relCounter Counter + 1 ∧
    PerfCnt.relCounter Counter % 2 = 0 := by
  by_cases h : Counter ≥ XAIE_MEMPERFCOUNTER_0
  · have h1 : Counter + 1 ≥ XAIE_MEMPERFCOUNTER_0 := Nat.le_succ_of_le h
    have h4 : (4 : Nat) ≤ Counter := h
    simp only [PerfCnt.selectedPerfMod, PerfCnt.relCounter, if_pos h, if_pos h1]
    refine ⟨trivial, ?_, ?_⟩ <;> (simp only [XAIE_MEMPERFCOUNTER_0]; omega)
  · have h4 : Counter < 4 := Nat.lt_of_not_le h
    have h1 : ¬ (Counter + 1 ≥ XAIE_MEMPERFCOUNTER_0) := by
      intro h5
      have : (4 : Nat) ≤ Counter + 1 := h5
      omega
    simp only [PerfCnt.selectedPerfMod, PerfCnt.relCounter, if_neg h, if_neg h1]
    exact ⟨trivial, trivial, hEven⟩

/-- C32.  Field arithmetic of `XAie_PerfCounterControlSet` (32-bit).  For a
ready device, a valid tile type, accepted events and an accepted counter the
routine makes the masked write of `FldVal` under `FldMask` to the control
register, where `FldVal` has no bit outside `FldMask`, `FldMask` is
`(Start.Mask | Stop.Mask) << (StartStopShift * (Counter % 2))` and the
register offset is `PerfCtrlBaseAddr + (Counter / 2) * PerfCtrlOffsetAdd`, with
`Counter` the module-relative counter.  So an even counter number and its
successor address the same control register, the even one with the unshifted
mask and the odd one with the mask shifted by `StartStopShift`. -/
theorem perfCounterControlSet_field_arithmetic (D : PerfCnt.XAie_DevInst)
    (Loc : XAie_LocType) (Counter StartEvent StopEvent : Nat) (regs : RegFile)
    (hReady : D.IsReady = XAIE_COMPONENT_IS_READY)
    (hTile : D.GetTileTypefromLoc Loc ≠ XAIEGBL_TILE_TYPE_MAX)
    (hEvents : PerfCnt.eventsAccepted D Loc Counter StartEvent StopEvent)
    (hCounter : PerfCnt.relCounter Counter <
      (PerfCnt.selectedPerfMod D Loc Counter).MaxCounterVal) :
    PerfCnt.XAie_PerfCounterControlSet (some D) Loc Counter StartEvent StopEvent regs =
      (XAIE_OK, XAieGbl_MaskWrite32 regs (PerfCnt.ctrlRegAddr D Loc Counter)
        (PerfCnt.ctrlFldMask D Loc Counter)
        (PerfCnt.ctrlFldVal D Loc Counter StartEvent StopEvent)) ∧
    PerfCnt.ctrlFldVal D Loc Counter StartEvent StopEvent &&&
      ((2 ^ 32 - 1) ^^^ PerfCnt.ctrlFldMask D Loc Counter) = 0 ∧
    PerfCnt.ctrlFldVal D Loc Counter StartEvent StopEvent &&&
      PerfCnt.ctrlFldMask D Loc Counter =
        PerfCnt.ctrlFldVal D Loc Counter StartEvent StopEvent ∧
    PerfCnt.ctrlFldMask D Loc Counter =
      (((PerfCnt.selectedPerfMod D Loc Counter).Start.Mask |||
          (PerfCnt.selectedPerfMod D Loc Counter).Stop.Mask) <<<
        ((PerfCnt.selectedPerfMod D Loc Counter).StartStopShift *
          (PerfCnt.relCounter Counter % 2))) % 2 ^ 32 ∧
    PerfCnt.ctrlRegAddr D Loc Counter =
      (D.BaseAddr + D.GetTileAddr Loc.Row Loc.Col +
        ((PerfCnt.selectedPerfMod D Loc Counter).PerfCtrlBaseAddr +
          PerfCnt.relCounter Counter / 2 *
            (PerfCnt.selectedPerfMod D Loc Counter).PerfCtrlOffsetAdd) % 2 ^ 32) % 2 ^ 64 ∧
    (Counter % 2 = 0 →
      PerfCnt.ctrlRegAddr D Loc (Counter + 1) = PerfCnt.ctrlRegAddr D Loc Counter ∧
      PerfCnt.ctrlFldMask D Loc Counter =
        ((PerfCnt.selectedPerfMod D Loc Counter).Start.Mask |||
          (PerfCnt.selectedPerfMod D Loc Counter).Stop.Mask) % 2 ^ 32 ∧
      PerfCnt.ctrlFldMask D Loc (Counter + 1) =
        (((PerfCnt.selectedPerfMod D Loc Counter).Start.Mask |||
            (PerfCnt.selectedPerfMod D Loc Counter).Stop.Mask) <<<
          (PerfCnt.selectedPerfMod D Loc Counter).StartStopShift) % 2 ^ 32) := by
  obtain ⟨⟨h1, h2, h3, h4⟩, h5, h6⟩ := hEvents
  refine ⟨?_, ?_, ?_, rfl, rfl, ?_⟩
  · rw [perfCounterControlSet_eq D Loc Counter StartEvent StopEvent regs hReady hTile,
      if_neg (by omega), if_neg (by tauto), if_neg (by omega)]
  · exact shifted_fields_under_mask _ _ _ _ _ _ _
  · exact shifted_fields_and_mask _ _ _ _ _ _ _
  · intro hEven
    obtain ⟨hm, hr, h0⟩ := perfCounter_pair D Loc Counter hEven
    have hhalf : (PerfCnt.relCounter Counter + 1) / 2 = PerfCnt.relCounter Counter / 2 := by
      omega
    have hodd : (PerfCnt.relCounter Counter + 1) % 2 = 1 := by omega
    refine ⟨?_, ?_, ?_⟩
    · simp only [PerfCnt.ctrlRegAddr, PerfCnt.ctrlRegOffset, hm, hr, hhalf]
    · simp only [PerfCnt.ctrlFldMask, PerfCnt.ctrlShift, h0, Nat.mul_zero, Nat.shiftLeft_zero]
    · simp only [PerfCnt.ctrlFldMask, PerfCnt.ctrlShift, hm, hr, hodd, Nat.mul_one]

/-- On the example device, core counter 1 of the tile at row 1, column 2 with
start event 3 and stop event 7: the written value lies under the written mask. -/
theorem perfCounterControlSet_field_arithmetic_witness :
    PerfCnt.ctrlFldVal PerfCnt.exPerfDev ⟨1, 2⟩ 1 3 7 &&&
      ((2 ^ 32 - 1) ^^^ PerfCnt.ctrlFldMask PerfCnt.exPerfDev ⟨1, 2⟩ 1) = 0 :=
  (perfCounterControlSet_field_arithmetic PerfCnt.exPerfDev ⟨1, 2⟩ 1 3 7 (fun _ => 0)
    rfl (by decide)
    ⟨⟨by decide, by decide, by decide, by decide⟩, by decide, by decide⟩ (by decide)).2.1

/-! ## The memory-module counters -/

theorem perfCounterGet_eq (D : PerfCnt.XAie_DevInst) (Loc : XAie_LocType)
    (Counter : Nat) (regs : RegFile)
    (hReady : D.IsReady = XAIE_COMPONENT_IS_READY)
    (hTile : D.GetTileTypefromLoc Loc ≠ XAIEGBL_TILE_TYPE_MAX) :
    PerfCnt.XAie_PerfCounterGet (some D) Loc Counter regs =
      if PerfCnt.relCounter Counter ≥ (PerfCnt.selectedPerfMod D Loc Counter).MaxCounterVal
      then XAIE_INVALID_ARGS
      else XAieGbl_Read32 regs (PerfCnt.counterRegAddr D Loc Counter) := by
  simp only [PerfCnt.XAie_PerfCounterGet, hReady, ne_eq, not_true_eq_false, if_false,
    if_neg hTile, PerfCnt.counterRegAddr, PerfCnt.relCounter, PerfCnt.selectedPerfMod]

theorem perfCounterSet_eq (D : PerfCnt.XAie_DevInst) (Loc : XAie_LocType)
    (Counter v : Nat) (regs : RegFile)
    (hReady : D.IsReady = XAIE_COMPONENT_IS_READY)
    (hTile : D.GetTileTypefromLoc Loc ≠ XAIEGBL_TILE_TYPE_MAX) :
    PerfCnt.XAie_PerfCounterSet (some D) Loc Counter v regs =
      if PerfCnt.relCounter Counter ≥ (PerfCnt.selectedPerfMod D Loc Counter).MaxCounterVal
      then (XAIE_INVALID_ARGS, regs)
      else (XAIE_OK, XAieGbl_Write32 regs (PerfCnt.counterRegAddr D Loc Counter) v) := by
  simp only [PerfCnt.XAie_PerfCounterSet, hReady, ne_eq, not_true_eq_false, if_false,
    if_neg hTile, PerfCnt.counterRegAddr, PerfCnt.relCounter, PerfCnt.selectedPerfMod]

theorem perfCounterEventValueSet_eq (D : PerfCnt.XAie_DevInst) (Loc : XAie_LocType)
    (Counter v : Nat) (regs : RegFile)
    (hReady : D.IsReady = XAIE_COMPONENT_IS_READY)
    (hTile : D.GetTileTypefromLoc Loc ≠ XAIEGBL_TILE_TYPE_MAX) :
    PerfCnt.XAie_PerfCounterEventValueSet (some D) Loc Counter v regs =
      if PerfCnt.relCounter Counter ≥ (PerfCnt.selectedPerfMod D Loc Counter).MaxCounterVal
      then (XAIE_INVALID_ARGS, regs)
      else (XAIE_OK, XAieGbl_Write32 regs (PerfCnt.evtValRegAddr D Loc Counter) v) := by
  simp only [PerfCnt.XAie_PerfCounterEventValueSet, hReady, ne_eq, not_true_eq_false,
    if_false, if_neg hTile, PerfCnt.evtValRegAddr, PerfCnt.relCounter,
    PerfCnt.selectedPerfMod]

theorem perfCounterResetControlSet_eq (D : PerfCnt.XAie_DevInst) (Loc : XAie_LocType)
    (Counter ResetEvent : Nat) (regs : RegFile)
    (hReady : D.IsReady = XAIE_COMPONENT_IS_READY)
    (hTile : D.GetTileTypefromLoc Loc ≠ XAIEGBL_TILE_TYPE_MAX) :
    PerfCnt.XAie_PerfCounterResetControlSet (some D) Loc Counter ResetEvent regs =
      if ResetEvent < (PerfCnt.selectedEvntMod D Loc Counter).EventMin ∨
          ResetEvent > (PerfCnt.selectedEvntMod D Loc Counter).EventMax then
        (XAIE_INVALID_ARGS, regs)
      else if PerfCnt.intEvent D Loc Counter ResetEvent = XAIE_EVENT_INVALID then
        (XAIE_INVALID_ARGS, regs)
      else if PerfCnt.relCounter Counter ≥
          (PerfCnt.selectedPerfMod D Loc Counter).MaxCounterVal then
        (XAIE_INVALID_ARGS, regs)
      else
        (XAIE_OK, XAieGbl_MaskWrite32 regs (PerfCnt.resetRegAddr D Loc Counter)
          (PerfCnt.resetFldMask D Loc Counter)
          (PerfCnt.resetFldVal D Loc Counter ResetEvent)) := by
  simp only [PerfCnt.XAie_PerfCounterResetControlSet, hReady, ne_eq, not_true_eq_false,
    if_false, if_neg hTile, PerfCnt.selectedEvntMod, PerfCnt.selectedPerfMod,
    PerfCnt.relCounter, PerfCnt.intEvent, PerfCnt.resetRegAddr, PerfCnt.resetFldMask,
    PerfCnt.resetFldVal]

/-- What the selection of lines 71-76 gives for a counter number. -/
theorem perfCounter_selection (D : PerfCnt.XAie_DevInst) (Loc : XAie_LocType)
    (Counter : Nat) :
    (Counter ≥ XAIE_MEMPERFCOUNTER_0 →
      PerfCnt.selectedPerfMod D Loc Counter = (D.DevMod (D.GetTileTypefromLoc Loc)).PerfMod 1 ∧
      PerfCnt.selectedEvntMod D Loc Counter = (D.DevMod (D.GetTileTypefromLoc Loc)).EvntMod 1 ∧
      PerfCnt.relCounter Counter = Counter - XAIE_MEMPERFCOUNTER_0) ∧
    (Counter < XAIE_MEMPERFCOUNTER_0 →
      PerfCnt.selectedPerfMod D Loc Counter = (D.DevMod (D.GetTileTypefromLoc Loc)).PerfMod 0 ∧
      PerfCnt.selectedEvntMod D Loc Counter = (D.DevMod (D.GetTileTypefromLoc Loc)).EvntMod 0 ∧
      PerfCnt.relCounter Counter = Counter) := by
  constructor
  · intro h
    simp only [PerfCnt.selectedPerfMod, PerfCnt.selectedEvntMod, PerfCnt.relCounter, if_pos h,
      and_self]
  · intro h
    have h1 : ¬ (Counter ≥ XAIE_MEMPERFCOUNTER_0) := Nat.not_le.2 h
    simp only [PerfCnt.selectedPerfMod, PerfCnt.selectedEvntMod, PerfCnt.relCounter,
      if_neg h1, and_self]

/-- A memory-module counter number on `D` and its module-relative number on
`onMemModule D` select the same descriptors and the same counter. -/
theorem onMemModule_selection (D : PerfCnt.XAie_DevInst) (Loc : XAie_LocType)
    (Counter : Nat) (h : Counter ≥ XAIE_MEMPERFCOUNTER_0) :
    PerfCnt.selectedPerfMod (PerfCnt.onMemModule D) Loc (Counter - XAIE_MEMPERFCOUNTER_0) =
      PerfCnt.selectedPerfMod D Loc Counter ∧
    PerfCnt.selectedEvntMod (PerfCnt.onMemModule D) Loc (Counter - XAIE_MEMPERFCOUNTER_0) =
      PerfCnt.selectedEvntMod D Loc Counter := by
  simp only [PerfCnt.selectedPerfMod, PerfCnt.selectedEvntMod, PerfCnt.onMemModule, if_pos h,
    ite_self, and_self]

theorem onMemModule_baseAddr (D : PerfCnt.XAie_DevInst) :
    (PerfCnt.onMemModule D).BaseAddr = D.BaseAddr := rfl

theorem onMemModule_getTileAddr (D : PerfCnt.XAie_DevInst) :
    (PerfCnt.onMemModule D).GetTileAddr = D.GetTileAddr := rfl

/-- C33.  Memory-module counter mapping in the five routines, on a ready device
at a location with a valid tile type.  A counter number `c` from
`XAIE_MEMPERFCOUNTER_0` on selects `PerfMod[1]` and `EvntMod[1]` and the
module-relative counter `c - XAIE_MEMPERFCOUNTER_0`; a smaller `c` selects
`PerfMod[0]`, `EvntMod[0]` and counter `c`.  Each routine makes its bound
check against `MaxCounterVal` of the selected module with the module-relative
counter and computes its register address from the selected module and that
counter.  And for `c` in the memory-module range each routine does on the
device what it does for counter `c - XAIE_MEMPERFCOUNTER_0` on the device
whose module index 0 holds the descriptors of module index 1. -/
theorem perfCounter_memory_module_mapping (D : PerfCnt.XAie_DevInst) (Loc : XAie_LocType)
    (Counter : Nat)
    (hReady : D.IsReady = XAIE_COMPONENT_IS_READY)
    (hTile : D.GetTileTypefromLoc Loc ≠ XAIEGBL_TILE_TYPE_MAX) :
    (Counter ≥ XAIE_MEMPERFCOUNTER_0 →
      PerfCnt.selectedPerfMod D Loc Counter = (D.DevMod (D.GetTileTypefromLoc Loc)).PerfMod 1 ∧
      PerfCnt.selectedEvntMod D Loc Counter = (D.DevMod (D.GetTileTypefromLoc Loc)).EvntMod 1 ∧
      PerfCnt.relCounter Counter = Counter - XAIE_MEMPERFCOUNTER_0) ∧
    (Counter < XAIE_MEMPERFCOUNTER_0 →
      PerfCnt.selectedPerfMod D Loc Counter = (D.DevMod (D.GetTileTypefromLoc Loc)).PerfMod 0 ∧
      PerfCnt.selectedEvntMod D Loc Counter = (D.DevMod (D.GetTileTypefromLoc Loc)).EvntMod 0 ∧
      PerfCnt.relCounter Counter = Counter) ∧
    (∀ regs, PerfCnt.XAie_PerfCounterGet (some D) Loc Counter regs =
      if PerfCnt.relCounter Counter ≥ (PerfCnt.selectedPerfMod D Loc Counter).MaxCounterVal
      then XAIE_INVALID_ARGS
      else XAieGbl_Read32 regs (PerfCnt.counterRegAddr D Loc Counter)) ∧
    (∀ v regs, PerfCnt.XAie_PerfCounterSet (some D) Loc Counter v regs =
      if PerfCnt.relCounter Counter ≥ (PerfCnt.selectedPerfMod D Loc Counter).MaxCounterVal
      then (XAIE_INVALID_ARGS, regs)
      else (XAIE_OK, XAieGbl_Write32 regs (PerfCnt.counterRegAddr D Loc Counter) v)) ∧
    (∀ v regs, PerfCnt.XAie_PerfCounterEventValueSet (some D) Loc Counter v regs =
      if PerfCnt.relCounter Counter ≥ (PerfCnt.selectedPerfMod D Loc Counter).MaxCounterVal
      then (XAIE_INVALID_ARGS, regs)
      else (XAIE_OK, XAieGbl_Write32 regs (PerfCnt.evtValRegAddr D Loc Counter) v)) ∧
    (∀ s e regs, PerfCnt.eventsAccepted D Loc Counter s e →
      PerfCnt.XAie_PerfCounterControlSet (some D) Loc Counter s e regs =
        if PerfCnt.relCounter Counter ≥ (PerfCnt.selectedPerfMod D Loc Counter).MaxCounterVal
        then (XAIE_INVALID_ARGS, regs)
        else (XAIE_OK, XAieGbl_MaskWrite32 regs (PerfCnt.ctrlRegAddr D Loc Counter)
          (PerfCnt.ctrlFldMask D Loc Counter) (PerfCnt.ctrlFldVal D Loc Counter s e))) ∧
    (∀ ev regs,
      (PerfCnt.selectedEvntMod D Loc Counter).EventMin ≤ ev →
      ev ≤ (PerfCnt.selectedEvntMod D Loc Counter).EventMax →
      PerfCnt.intEvent D Loc Counter ev ≠ XAIE_EVENT_INVALID →
      PerfCnt.XAie_PerfCounterResetControlSet (some D) Loc Counter ev regs =
        if PerfCnt.relCounter Counter ≥ (PerfCnt.selectedPerfMod D Loc Counter).MaxCounterVal
        then (XAIE_INVALID_ARGS, regs)
        else (XAIE_OK, XAieGbl_MaskWrite32 regs (PerfCnt.resetRegAddr D Loc Counter)
          (PerfCnt.resetFldMask D Loc Counter) (PerfCnt.resetFldVal D Loc Counter ev))) ∧
    (Counter ≥ XAIE_MEMPERFCOUNTER_0 →
      Counter - XAIE_MEMPERFCOUNTER_0 < XAIE_MEMPERFCOUNTER_0 →
      (∀ regs, PerfCnt.XAie_PerfCounterGet (some D) Loc Counter regs =
        PerfCnt.XAie_PerfCounterGet (some (PerfCnt.onMemModule D)) Loc
          (Counter - XAIE_MEMPERFCOUNTER_0) regs) ∧
      (∀ v regs, PerfCnt.XAie_PerfCounterSet (some D) Loc Counter v regs =
        PerfCnt.XAie_PerfCounterSet (some (PerfCnt.onMemModule D)) Loc
          (Counter - XAIE_MEMPERFCOUNTER_0) v regs) ∧
      (∀ v regs, PerfCnt.XAie_PerfCounterEventValueSet (some D) Loc Counter v regs =
        PerfCnt.XAie_PerfCounterEventValueSet (some (PerfCnt.onMemModule D)) Loc
          (Counter - XAIE_MEMPERFCOUNTER_0) v regs) ∧
      (∀ s e regs, PerfCnt.XAie_PerfCounterControlSet (some D) Loc Counter s e regs =
        PerfCnt.XAie_PerfCounterControlSet (some (PerfCnt.onMemModule D)) Loc
          (Counter - XAIE_MEMPERFCOUNTER_0) s e regs) ∧
      (∀ ev regs, PerfCnt.XAie_PerfCounterResetControlSet (some D) Loc Counter ev regs =
        PerfCnt.XAie_PerfCounterResetControlSet (some (PerfCnt.onMemModule D)) Loc
          (Counter - XAIE_MEMPERFCOUNTER_0) ev regs)) := by
  refine ⟨(perfCounter_selection D Loc Counter).1, (perfCounter_selection D Loc Counter).2,
    fun regs => perfCounterGet_eq D Loc Counter regs hReady hTile,
    fun v regs => perfCounterSet_eq D Loc Counter v regs hReady hTile,
    fun v regs => perfCounterEventValueSet_eq D Loc Counter v regs hReady hTile, ?_, ?_, ?_⟩
  · intro s e regs hE
    obtain ⟨⟨h1, h2, h3, h4⟩, h5, h6⟩ := hE
    rw [perfCounterControlSet_eq D Loc Counter s e regs hReady hTile,
      if_neg (by omega), if_neg (by tauto)]
  · intro ev regs h1 h2 h3
    rw [perfCounterResetControlSet_eq D Loc Counter ev regs hReady hTile,
      if_neg (by omega), if_neg h3]
  · intro hc hn
    obtain ⟨hp, he⟩ := onMemModule_selection D Loc Counter hc
    have hr : PerfCnt.relCounter (Counter - XAIE_MEMPERFCOUNTER_0) =
        PerfCnt.relCounter Counter := by
      simp only [PerfCnt.relCounter, if_pos hc, if_neg (Nat.not_le.2 hn)]
    have hR : (PerfCnt.onMemModule D).IsReady = XAIE_COMPONENT_IS_READY := hReady
    have hT : (PerfCnt.onMemModule D).GetTileTypefromLoc Loc ≠ XAIEGBL_TILE_TYPE_MAX := hTile
    refine ⟨?_, ?_, ?_, ?_, ?_⟩
    · intro regs
      rw [perfCounterGet_eq D Loc Counter regs hReady hTile,
        perfCounterGet_eq (PerfCnt.onMemModule D) Loc _ regs hR hT]
      simp only [PerfCnt.counterRegAddr, hp, hr, onMemModule_baseAddr,
        onMemModule_getTileAddr]
    · intro v regs
      rw [perfCounterSet_eq D Loc Counter v regs hReady hTile,
        perfCounterSet_eq (PerfCnt.onMemModule D) Loc _ v regs hR hT]
      simp only [PerfCnt.counterRegAddr, hp, hr, onMemModule_baseAddr,
        onMemModule_getTileAddr]
    · intro v regs
      rw [perfCounterEventValueSet_eq D Loc Counter v regs hReady hTile,
        perfCounterEventValueSet_eq (PerfCnt.onMemModule D) Loc _ v regs hR hT]
      simp only [PerfCnt.evtValRegAddr, hp, hr, onMemModule_baseAddr,
        onMemModule_getTileAddr]
    · intro s e regs
      rw [perfCounterControlSet_eq D Loc Counter s e regs hReady hTile,
        perfCounterControlSet_eq (PerfCnt.onMemModule D) Loc _ s e regs hR hT]
      simp only [PerfCnt.ctrlRegAddr, PerfCnt.ctrlRegOffset, PerfCnt.ctrlFldMask,
        PerfCnt.ctrlFldVal, PerfCnt.ctrlShift, PerfCnt.intEvent, hp, he, hr,
        onMemModule_baseAddr, onMemModule_getTileAddr]
    · intro ev regs
      rw [perfCounterResetControlSet_eq D Loc Counter ev regs hReady hTile,
        perfCounterResetControlSet_eq (PerfCnt.onMemModule D) Loc _ ev regs hR hT]
      simp only [PerfCnt.resetRegAddr, PerfCnt.resetFldMask, PerfCnt.resetFldVal,
        PerfCnt.intEvent, hp, he, hr, onMemModule_baseAddr, onMemModule_getTileAddr]

/-- On the example device counter number 5 at the tile of row 1, column 2 is
module-relative counter `5 - XAIE_MEMPERFCOUNTER_0` of `PerfMod[1]`. -/
theorem perfCounter_memory_module_mapping_witness :
    PerfCnt.relCounter 5 = 5 - XAIE_MEMPERFCOUNTER_0 ∧
    PerfCnt.selectedPerfMod PerfCnt.exPerfDev ⟨1, 2⟩ 5 =
      (PerfCnt.exPerfDev.DevMod (PerfCnt.exPerfDev.GetTileTypefromLoc ⟨1, 2⟩)).PerfMod 1 :=
  ⟨((perfCounter_memory_module_mapping PerfCnt.exPerfDev ⟨1, 2⟩ 5 rfl (by decide)).1
      (by decide)).2.2,
   ((perfCounter_memory_module_mapping PerfCnt.exPerfDev ⟨1, 2⟩ 5 rfl (by decide)).1
      (by decide)).1⟩

/-! ## The result of `XAie_PerfCounterGet` -/

/-- C34.  `XAie_PerfCounterGet` does not tell failure from success in its
result.  The call with a null device instance returns `XAIE_INVALID_ARGS` and
the call at a location of tile type `XAIEGBL_TILE_TYPE_MAX` returns
`XAIE_INVALID_TILE`; a valid call (ready device, valid tile type, accepted
counter) returns the content of the counter register, whatever it is.  So for
every valid call a register content exists with which it returns the result
of the call with a null device instance, and one with which it returns the
result of the call at a location of tile type `XAIEGBL_TILE_TYPE_MAX`. -/
theorem perfCounterGet_result_ambiguous (D : PerfCnt.XAie_DevInst) (Loc : XAie_LocType)
    (Counter : Nat)
    (hReady : D.IsReady = XAIE_COMPONENT_IS_READY)
    (hTile : D.GetTileTypefromLoc Loc ≠ XAIEGBL_TILE_TYPE_MAX)
    (hCounter : PerfCnt.relCounter Counter <
      (PerfCnt.selectedPerfMod D Loc Counter).MaxCounterVal) :
    (∀ regs, PerfCnt.XAie_PerfCounterGet (some D) Loc Counter regs =
      regs (PerfCnt.counterRegAddr D Loc Counter)) ∧
    (∀ regs, PerfCnt.XAie_PerfCounterGet none Loc Counter regs = XAIE_INVALID_ARGS) ∧
    (∀ Loc1 regs, D.GetTileTypefromLoc Loc1 = XAIEGBL_TILE_TYPE_MAX →
      PerfCnt.XAie_PerfCounterGet (some D) Loc1 Counter regs = XAIE_INVALID_TILE) ∧
    (∃ regs, PerfCnt.XAie_PerfCounterGet (some D) Loc Counter regs =
      PerfCnt.XAie_PerfCounterGet none Loc Counter regs) ∧
    (∀ Loc1, D.GetTileTypefromLoc Loc1 = XAIEGBL_TILE_TYPE_MAX →
      ∃ regs, PerfCnt.XAie_PerfCounterGet (some D) Loc Counter regs =
        PerfCnt.XAie_PerfCounterGet (some D) Loc1 Counter regs) := by
  have hget : ∀ regs, PerfCnt.XAie_PerfCounterGet (some D) Loc Counter regs =
      regs (PerfCnt.counterRegAddr D Loc Counter) :=
    fun regs => perfCounterGet_valid D Loc Counter regs hReady hTile hCounter
  have hmax : ∀ Loc1 regs, D.GetTileTypefromLoc Loc1 = XAIEGBL_TILE_TYPE_MAX →
      PerfCnt.XAie_PerfCounterGet (some D) Loc1 Counter regs = XAIE_INVALID_TILE := by
    intro Loc1 regs h
    simp only [PerfCnt.XAie_PerfCounterGet, hReady, ne_eq, not_true_eq_false, if_false,
      if_pos h]
  refine ⟨hget, fun _ => rfl, hmax, ⟨fun _ => XAIE_INVALID_ARGS, ?_⟩, ?_⟩
  · rw [hget]
    rfl
  · intro Loc1 h
    refine ⟨fun _ => XAIE_INVALID_TILE, ?_⟩
    rw [hget, hmax Loc1 _ h]

/-- On the example device the valid read of memory-module counter 1 at row 1,
column 2, with every register holding 4, returns 4, as does the call with a
null device instance. -/
theorem perfCounterGet_result_ambiguous_witness :
    PerfCnt.XAie_PerfCounterGet (some PerfCnt.exPerfDev) ⟨1, 2⟩ 5 (fun _ => 4) =
      (fun _ => 4) (PerfCnt.counterRegAddr PerfCnt.exPerfDev ⟨1, 2⟩ 5) ∧
    PerfCnt.XAie_PerfCounterGet none ⟨1, 2⟩ 5 (fun _ => 4) = XAIE_INVALID_ARGS :=
  ⟨(perfCounterGet_result_ambiguous PerfCnt.exPerfDev ⟨1, 2⟩ 5 rfl (by decide)
      (by decide)).1 (fun _ => 4),
   (perfCounterGet_result_ambiguous PerfCnt.exPerfDev ⟨1, 2⟩ 5 rfl (by decide)
      (by decide)).2.1 (fun _ => 4)⟩

end AieRt
